import Mathlib

/-! Interface-block link validation (`src/compiler/glsl/link_interface_blocks.cpp`)
and vertex element state (`src/gallium/drivers/etnaviv/etnaviv_state.c`)

A shallow embedding of the GLSL linker's interface-block matching rules, and of
the function of the etnaviv driver that compiles a vertex element layout.

Conventions of the embedding:

* a `const glsl_type *` is a value of `glsl_type` that carries its own address
  (`addr`); the C++ pointer comparisons `t1 != t2` compare the addresses;
* a pointer that may be `NULL` is an `Option`; dereferencing `NULL`, or reading
  the `fields.array` member of a type that is not an array, makes the enclosing
  function return `none`;
* `unsigned x:1` bit-fields are `Bool`, `unsigned` is `Nat`, `int` is `Int`;
* a validator is a function from the program state to the program state it
  leaves, or to `none` when it is stopped; the collaborators `linker_error` and
  `validate_intrastage_arrays` are parameters;
* `validate_intrastage_arrays(prog, var, existing)` may write to the program
  state and to `*existing`, so the parameter returns its verdict, the state it
  leaves and `existing` as it leaves it; the registry holds pointers, and the
  declaration stored under a key is replaced by the one the collaborator
  leaves when `intrastage_match` accepts (`write_back`);
* the reports of a validator are stated for every reporter: a run either
  leaves a state in which the reporter had no part, or the reporter's result
  at one state and one message; properties that count the calls use the
  reporter that logs them (`report_log`).
-/

set_option autoImplicit false

/-! ## Data model -/

/-- One member of an interface block (`glsl_struct_field`); `type` is the
address of the member's `glsl_type`. -/
structure glsl_struct_field where
  type : Nat
  name : String
  location : Int
  patch : Bool
  interpolation : Nat
  centroid : Bool
  sample : Bool
deriving DecidableEq, Repr

/-- Modelled from the spec: the `glsl_type` declaration (of `glsl_types.h`).
A type has an identity (`addr`), a name, and is either a non-aggregate type,
an interface block with its ordered member fields, or an array of an element
type with a length (0 = unsized). -/
inductive glsl_type where
  | basic (addr : Nat) (name : String)
  | iface (addr : Nat) (name : String) (fields : List glsl_struct_field)
  | array (addr : Nat) (name : String) (elem : glsl_type) (length : Nat)
deriving DecidableEq, Repr

namespace glsl_type

/-- Address of the type object: what a `const glsl_type *` compares by. -/
def addr : glsl_type → Nat
  | basic a _ => a
  | iface a _ _ => a
  | array a _ _ _ => a

/-- The member `name`. -/
def name : glsl_type → String
  | basic _ n => n
  | iface _ n _ => n
  | array _ n _ _ => n

/-- The member `length`: number of fields of a block, size of an array. -/
def length : glsl_type → Nat
  | basic _ _ => 0
  | iface _ _ fs => fs.length
  | array _ _ _ n => n

/-- The member `fields.structure`, the field array of a block. -/
def fields_structure : glsl_type → List glsl_struct_field
  | iface _ _ fs => fs
  | _ => []

/-- The member `fields.array`, the element type of an array; a type that is
not an array has no such member. -/
def fields_array : glsl_type → Option glsl_type
  | array _ _ e _ => some e
  | _ => none

/-- The method `is_array()`. -/
def is_array : glsl_type → Bool
  | array _ _ _ _ => true
  | _ => false

/-- Modelled from the spec: `without_array()` yields the element type when
the type is an array, the type itself otherwise. -/
def without_array : glsl_type → glsl_type
  | array _ _ e _ => e
  | t => t

end glsl_type

/-- Comparison of two possibly-`NULL` `const glsl_type *` pointers. -/
def glsl_type_ptr_eq (x y : Option glsl_type) : Bool :=
  x.map glsl_type.addr == y.map glsl_type.addr

/-- Values of `ir_variable::data.mode` that the linker distinguishes;
`ir_var_auto` stands for every mode that is not an interface mode. -/
inductive ir_variable_mode where
  | ir_var_auto
  | ir_var_uniform
  | ir_var_shader_storage
  | ir_var_shader_in
  | ir_var_shader_out
deriving DecidableEq, Repr

/-- Values of `ir_variable::data.how_declared`. -/
inductive ir_var_declaration_type where
  | ir_var_declared_normally
  | ir_var_declared_in_block
  | ir_var_declared_implicitly
  | ir_var_hidden
deriving DecidableEq, Repr

export ir_variable_mode (ir_var_auto ir_var_uniform ir_var_shader_storage
  ir_var_shader_in ir_var_shader_out)
export ir_var_declaration_type (ir_var_declared_normally ir_var_declared_in_block
  ir_var_declared_implicitly ir_var_hidden)

/-- The members of `ir_variable::data` read by the linker. -/
structure ir_variable_data where
  mode : ir_variable_mode
  how_declared : ir_var_declaration_type
  explicit_location : Bool
  location : Int
deriving DecidableEq, Repr

/-- Modelled from the spec: the `ir_variable` declaration (of `ir.h`): a name,
the declared (raw) type, the interface type or none, the `data` record, and
whether the variable names a block instance (the result of
`is_interface_instance()`). -/
structure ir_variable where
  name : String
  type : glsl_type
  interface_type : Option glsl_type
  data : ir_variable_data
  is_interface_instance : Bool
deriving DecidableEq, Repr

/-- The method `get_interface_type()`. -/
def ir_variable.get_interface_type (v : ir_variable) : Option glsl_type :=
  v.interface_type

/-- The members of `gl_shader_program` read by the matching rules. -/
structure gl_shader_program where
  IsES : Bool
  Version : Nat
deriving DecidableEq, Repr

/-! ## `interstage_member_mismatch` -/

/-- Body of the `for` loop of `interstage_member_mismatch` at one index, for
the fields `c->fields.structure[i]` and `p->fields.structure[i]`: `true` when
one of its `return true` statements is reached. -/
def interstage_member_mismatch_at (prog : gl_shader_program)
    (cf pf : glsl_struct_field) : Bool :=
  if cf.type != pf.type then true
  else if cf.name != pf.name then true
  else if cf.location != pf.location then true
  else if cf.patch != pf.patch then true
  else if (prog.IsES || decide (prog.Version < 440))
      && cf.interpolation != pf.interpolation then true
  else if (!prog.IsES || decide (prog.Version < 310))
      && cf.centroid != pf.centroid then true
  else if !prog.IsES && cf.sample != pf.sample then true
  else false

/-- The `for` loop of `interstage_member_mismatch`, walking the two field
arrays in step from index 0. -/
def interstage_member_mismatch_loop (prog : gl_shader_program) :
    List glsl_struct_field → List glsl_struct_field → Bool
  | cf :: cs, pf :: ps =>
    if interstage_member_mismatch_at prog cf pf then true
    else interstage_member_mismatch_loop prog cs ps
  | _, _ => false

/-- Return true if interface members mismatch and it is not allowed by GLSL.
The callers pass interface blocks (results of `get_interface_type()`), whose
`length` is the number of entries of `fields.structure`. -/
def interstage_member_mismatch (prog : gl_shader_program) (c p : glsl_type) : Bool :=
  if c.length != p.length then true
  else interstage_member_mismatch_loop prog c.fields_structure p.fields_structure

/-! ## `intrastage_match` -/

/-- Check if two interfaces match, according to intrastage interface matching
rules.  The collaborator `validate_intrastage_arrays` (defined elsewhere in the
linker) is a parameter: called on the state `prog` with `b` and `a`, it gives
its verdict, the state it leaves, and the declaration `a` as it leaves it (`a`
is passed by pointer: if the first interface uses an unsized array, it will be
updated to reflect the array size declared in the second interface; the
collaborator may also report through `prog`).  The result is the verdict of
the match, the state after it, and the first interface `a` as the match leaves
it. -/
def intrastage_match {σ : Type}
    (validate_intrastage_arrays : σ → ir_variable → ir_variable → Bool × σ × ir_variable)
    (a b : ir_variable) (prog : σ) : Bool × σ × ir_variable :=
  -- Types must match, unless both blocks are implicitly declared.
  if !glsl_type_ptr_eq a.get_interface_type b.get_interface_type
      && (a.data.how_declared != ir_var_declared_implicitly
          || b.data.how_declared != ir_var_declared_implicitly) then (false, prog, a)
  -- Presence/absence of interface names must match.
  else if a.is_interface_instance != b.is_interface_instance then (false, prog, a)
  -- For uniforms, instance names need not match.
  else if a.is_interface_instance && b.data.mode != ir_var_uniform
      && b.data.mode != ir_var_shader_storage && a.name != b.name then (false, prog, a)
  -- If a block is an array then it must match across the shader.
  else if b.type.addr != a.type.addr
      && (b.is_interface_instance || a.is_interface_instance) then
    validate_intrastage_arrays prog b a
  else (true, prog, a)

/-! ## `interstage_match` -/

/-- The local `consumer_instance_type` of `interstage_match`: the consumer's
type, with the outermost array ignored when `extra_array_level` is set. -/
def interstage_match_consumer_instance_type (consumer : ir_variable)
    (extra_array_level : Bool) : Option glsl_type :=
  if extra_array_level then consumer.type.fields_array else some consumer.type

/-- Second half of `interstage_match`: if a block is an array then it must
match across shaders. -/
def interstage_match_arrays (producer consumer : ir_variable)
    (extra_array_level : Bool) : Option Bool :=
  match interstage_match_consumer_instance_type consumer extra_array_level with
  | none => none
  | some consumer_instance_type =>
    if ((consumer.is_interface_instance && consumer_instance_type.is_array)
        || (producer.is_interface_instance && producer.type.is_array))
        && consumer_instance_type.addr != producer.type.addr then some false
    else some true

/-- Check if two interfaces match, according to interstage (in/out) interface
matching rules.  `none` when the code dereferences a `NULL` interface type or
reads the element type of a consumer type that is not an array. -/
def interstage_match (prog : gl_shader_program) (producer consumer : ir_variable)
    (extra_array_level : Bool) : Option Bool :=
  if !glsl_type_ptr_eq consumer.get_interface_type producer.get_interface_type
      && (consumer.data.how_declared != ir_var_declared_implicitly
          || producer.data.how_declared != ir_var_declared_implicitly) then
    match consumer.get_interface_type, producer.get_interface_type with
    | some c, some p =>
      if interstage_member_mismatch prog c p then some false
      else interstage_match_arrays producer consumer extra_array_level
    | _, _ => none
  else interstage_match_arrays producer consumer extra_array_level

/-! ## `interface_block_definitions` -/

/-- Modelled from the spec: the hash table behind the registry (`hash_table`
of `util/hash_table.h`, with string keys), a mapping from a key to the first
variable stored under it. -/
abbrev hash_table := List (String × ir_variable)

/-- Modelled from the spec: `_mesa_hash_table_search`, the data stored under
`key`, if any. -/
def _mesa_hash_table_search : hash_table → String → Option ir_variable
  | [], _ => none
  | (k, data) :: ht, key => if k = key then some data else _mesa_hash_table_search ht key

/-- Modelled from the spec: `_mesa_hash_table_insert`; the registry is
write-once per key, so an insertion under a key already present changes
nothing. -/
def _mesa_hash_table_insert : hash_table → String → ir_variable → hash_table
  | [], key, data => [(key, data)]
  | (k, d) :: ht, key, data =>
    if k = key then (k, d) :: ht else (k, d) :: _mesa_hash_table_insert ht key data

/-- The effect on the table of a write through the pointer that a search under
`key` returned: the entry found keeps its key and holds `data`, the declaration
as written. -/
def hash_table_write : hash_table → String → ir_variable → hash_table
  | [], _, _ => []
  | (k, d) :: ht, key, data =>
    if k = key then (k, data) :: ht else (k, d) :: hash_table_write ht key data

/-- The call `snprintf(buf, size, "%d", v)` of the C library: `buf` receives
the decimal form of `v`, cut to `size - 1` characters. -/
def snprintf_d (size : Nat) (v : Int) : String :=
  ⟨(toString v).data.take (size - 1)⟩

/-- This class keeps track of a mapping from an interface block name to the
necessary information about that interface block. -/
structure interface_block_definitions where
  ht : hash_table
deriving DecidableEq, Repr

namespace interface_block_definitions

/-- The constructor: an empty table. -/
def empty : interface_block_definitions := ⟨[]⟩

/-- Lookup the interface definition.  The inner `none` is the `NULL` returned
when none is found; the outer `none` is a dereference of a `NULL` interface
type.  `VARYING_SLOT_VAR0` is the enumeration constant of that name. -/
def lookup (VARYING_SLOT_VAR0 : Nat) (self : interface_block_definitions)
    (var : ir_variable) : Option (Option ir_variable) :=
  if var.data.explicit_location
      && decide ((VARYING_SLOT_VAR0 : Int) ≤ var.data.location) then
    let location_str := snprintf_d 11 var.data.location
    some (_mesa_hash_table_search self.ht location_str)
  else
    match var.get_interface_type with
    | none => none
    | some t => some (_mesa_hash_table_search self.ht t.without_array.name)

/-- Add a new interface definition. -/
def store (VARYING_SLOT_VAR0 : Nat) (self : interface_block_definitions)
    (var : ir_variable) : Option interface_block_definitions :=
  if var.data.explicit_location
      && decide ((VARYING_SLOT_VAR0 : Int) ≤ var.data.location) then
    let location_str := snprintf_d 11 var.data.location
    some ⟨_mesa_hash_table_insert self.ht location_str var⟩
  else
    match var.get_interface_type with
    | none => none
    | some t => some ⟨_mesa_hash_table_insert self.ht t.without_array.name var⟩

/-- The registry after a write through the pointer that `lookup (var)`
returned: the entry that the lookup found holds `prev_def`, the stored
declaration as written. -/
def write_back (VARYING_SLOT_VAR0 : Nat) (self : interface_block_definitions)
    (var prev_def : ir_variable) : interface_block_definitions :=
  if var.data.explicit_location
      && decide ((VARYING_SLOT_VAR0 : Int) ≤ var.data.location) then
    let location_str := snprintf_d 11 var.data.location
    ⟨hash_table_write self.ht location_str prev_def⟩
  else
    match var.get_interface_type with
    | none => self
    | some t => ⟨hash_table_write self.ht t.without_array.name prev_def⟩

end interface_block_definitions

/-- The registry key as the specification words it: the decimal string of the
location for a variable with an explicit location at or above
`VARYING_SLOT_VAR0`, the name of the array-stripped interface type `t`
otherwise. -/
def spec_registry_key (VARYING_SLOT_VAR0 : Nat) (v : ir_variable) (t : glsl_type) : String :=
  if v.data.explicit_location = true ∧ (VARYING_SLOT_VAR0 : Int) ≤ v.data.location then
    toString v.data.location
  else t.without_array.name

/-! ## The validators -/

/-- A node of an instruction list; `as_variable()` is the variable it holds,
or `NULL` for any other instruction. -/
structure ir_instruction where
  as_variable : Option ir_variable
deriving DecidableEq, Repr

/-- Modelled from the spec: the pipeline stages (`gl_shader_stage` of
`shader_enums.h`), in pipeline order. -/
inductive gl_shader_stage where
  | MESA_SHADER_VERTEX
  | MESA_SHADER_TESS_CTRL
  | MESA_SHADER_TESS_EVAL
  | MESA_SHADER_GEOMETRY
  | MESA_SHADER_FRAGMENT
  | MESA_SHADER_COMPUTE
deriving DecidableEq, Repr

export gl_shader_stage (MESA_SHADER_VERTEX MESA_SHADER_TESS_CTRL MESA_SHADER_TESS_EVAL
  MESA_SHADER_GEOMETRY MESA_SHADER_FRAGMENT MESA_SHADER_COMPUTE)

/-- A compilation unit (`gl_shader`): its instruction list `ir`. -/
structure gl_shader where
  ir : List ir_instruction
deriving DecidableEq, Repr

/-- A linked stage (`gl_linked_shader`): its `Stage` and instruction list. -/
structure gl_linked_shader where
  Stage : gl_shader_stage
  ir : List ir_instruction
deriving DecidableEq, Repr

/-- How one iteration of a loop of a validator ends: it falls through to the
next iteration (`continue` included) with the loop's variables `st` and the
program state `prog`; or the function returns; or it stops on a failed
assertion or on a dereference of `NULL`. -/
inductive loop_step (α σ : Type) where
  | next (st : α) (prog : σ)
  | ret (prog : σ)
  | abort

/-- The loops `foreach_in_list (..., node, list)` and `for (i = 0; i < n; i++)`:
the body is run on each element in order until one iteration does not fall
through. -/
def foreach_in_list {α β σ : Type} (body : β → α → σ → loop_step α σ) :
    List β → α → σ → loop_step α σ
  | [], st, prog => .next st prog
  | node :: rest, st, prog =>
    match body node st prog with
    | .next st' prog' => foreach_in_list body rest st' prog'
    | .ret prog' => .ret prog'
    | .abort => .abort

/-- One iteration of the outer loop of a validator, over an array of units of
which an entry may be `NULL`: `if (units[i] == NULL) continue;`, then the inner
loop over the instruction list `ir` of the unit. -/
def foreach_unit {α β γ σ : Type} (body : β → α → σ → loop_step α σ) (ir : γ → List β) :
    Option γ → α → σ → loop_step α σ
  | none, st, prog => .next st prog
  | some unit, st, prog => foreach_in_list body (ir unit) st prog

/-- What a validator leaves when its outermost loop is over: the program
state, whether the loop ran to its end or the function returned from inside
it; nothing if it was stopped. -/
def loop_step.finish {α σ : Type} : loop_step α σ → Option σ
  | .next _ prog => some prog
  | .ret prog => some prog
  | .abort => none

/-- The statements `prev_def = definitions->lookup(var); if (prev_def == NULL)
definitions->store(var); else if (!intrastage_match(prev_def, var, prog))
{ linker_error(prog, message); return; }`, which end the loop bodies of
`validate_intrastage_interface_blocks` and of
`validate_interstage_uniform_blocks`.  `linker_error` (of `linker.cpp`) is a
parameter: it takes the program state and the formatted message.  The registry
holds pointers: what `intrastage_match` writes to `prev_def` is written to the
stored declaration. -/
def lookup_store_or_match {σ : Type} (VARYING_SLOT_VAR0 : Nat)
    (linker_error : σ → String → σ)
    (validate_intrastage_arrays : σ → ir_variable → ir_variable → Bool × σ × ir_variable)
    (definitions : interface_block_definitions) (var : ir_variable) (message : String)
    (prog : σ) : loop_step interface_block_definitions σ :=
  match definitions.lookup VARYING_SLOT_VAR0 var with
  | none => .abort
  | some none =>
    match definitions.store VARYING_SLOT_VAR0 var with
    | none => .abort
    | some definitions' => .next definitions' prog
  | some (some prev_def) =>
    match intrastage_match validate_intrastage_arrays prev_def var prog with
    | (true, prog', prev_def') =>
      .next (definitions.write_back VARYING_SLOT_VAR0 var prev_def') prog'
    | (false, prog', _) => .ret (linker_error prog' message)

/-- The four locals `in_interfaces`, `out_interfaces`, `uniform_interfaces`
and `buffer_interfaces` of `validate_intrastage_interface_blocks`. -/
structure intrastage_interfaces where
  in_interfaces : interface_block_definitions
  out_interfaces : interface_block_definitions
  uniform_interfaces : interface_block_definitions
  buffer_interfaces : interface_block_definitions
deriving DecidableEq, Repr

namespace intrastage_interfaces

/-- The `switch (var->data.mode)`: the registry `definitions` points to, none
in the `default` case. -/
def get (defs : intrastage_interfaces) : ir_variable_mode → Option interface_block_definitions
  | ir_var_shader_in => some defs.in_interfaces
  | ir_var_shader_out => some defs.out_interfaces
  | ir_var_uniform => some defs.uniform_interfaces
  | ir_var_shader_storage => some defs.buffer_interfaces
  | ir_var_auto => none

/-- A write through the pointer `definitions` chosen by the `switch`. -/
def set (defs : intrastage_interfaces) (mode : ir_variable_mode)
    (d : interface_block_definitions) : intrastage_interfaces :=
  match mode with
  | ir_var_shader_in => { defs with in_interfaces := d }
  | ir_var_shader_out => { defs with out_interfaces := d }
  | ir_var_uniform => { defs with uniform_interfaces := d }
  | ir_var_shader_storage => { defs with buffer_interfaces := d }
  | ir_var_auto => defs

end intrastage_interfaces

/-- The body of the inner loop of `validate_intrastage_interface_blocks`.
`NDEBUG` tells whether `assert` is compiled out: the `default` case of the
`switch` then goes on to the next node, and stops the program otherwise. -/
def validate_intrastage_interface_blocks_node {σ : Type} (VARYING_SLOT_VAR0 : Nat)
    (NDEBUG : Bool) (linker_error : σ → String → σ)
    (validate_intrastage_arrays : σ → ir_variable → ir_variable → Bool × σ × ir_variable)
    (node : ir_instruction) (defs : intrastage_interfaces) (prog : σ) :
    loop_step intrastage_interfaces σ :=
  match node.as_variable with
  | none => .next defs prog
  | some var =>
    match var.get_interface_type with
    | none => .next defs prog
    | some iface_type =>
      match defs.get var.data.mode with
      | none => if NDEBUG then .next defs prog else .abort
      | some definitions =>
        match lookup_store_or_match VARYING_SLOT_VAR0 linker_error validate_intrastage_arrays
            definitions var
            ("definitions of interface block `" ++ iface_type.name ++ "' do not match\n")
            prog with
        | .next definitions' prog' => .next (defs.set var.data.mode definitions') prog'
        | .ret prog' => .ret prog'
        | .abort => .abort

/-- The function `validate_intrastage_interface_blocks`, on the program state
`prog` and the array `shader_list` of `num_shaders` compilation units (an
entry may be `NULL`): the program state it leaves. -/
def validate_intrastage_interface_blocks {σ : Type} (VARYING_SLOT_VAR0 : Nat)
    (NDEBUG : Bool) (linker_error : σ → String → σ)
    (validate_intrastage_arrays : σ → ir_variable → ir_variable → Bool × σ × ir_variable)
    (prog : σ) (shader_list : List (Option gl_shader)) : Option σ :=
  (foreach_in_list
    (foreach_unit
      (validate_intrastage_interface_blocks_node VARYING_SLOT_VAR0 NDEBUG linker_error
        validate_intrastage_arrays)
      gl_shader.ir)
    shader_list
    ⟨interface_block_definitions.empty, interface_block_definitions.empty,
      interface_block_definitions.empty, interface_block_definitions.empty⟩
    prog).finish

/-- The local `extra_array_level` of `validate_interstage_inout_blocks`
(VS -> GS, VS -> TCS, VS -> TES, TES -> GS). -/
def validate_interstage_inout_blocks_extra_array_level
    (producer consumer : gl_linked_shader) : Bool :=
  (producer.Stage == MESA_SHADER_VERTEX && consumer.Stage != MESA_SHADER_FRAGMENT)
    || consumer.Stage == MESA_SHADER_GEOMETRY

/-- The body of the first loop of `validate_interstage_inout_blocks`: add
input interfaces from the consumer to the symbol table. -/
def validate_interstage_inout_blocks_consumer_node {σ : Type} (VARYING_SLOT_VAR0 : Nat)
    (node : ir_instruction) (definitions : interface_block_definitions) (prog : σ) :
    loop_step interface_block_definitions σ :=
  match node.as_variable with
  | none => .next definitions prog
  | some var =>
    if var.get_interface_type.isNone || var.data.mode != ir_var_shader_in then
      .next definitions prog
    else
      match definitions.store VARYING_SLOT_VAR0 var with
      | none => .abort
      | some definitions' => .next definitions' prog

/-- The body of the second loop of `validate_interstage_inout_blocks`: verify
that the producer's output interfaces match. -/
def validate_interstage_inout_blocks_producer_node {σ : Type} (VARYING_SLOT_VAR0 : Nat)
    (linker_error : σ → String → σ) (prog : gl_shader_program) (extra_array_level : Bool)
    (definitions : interface_block_definitions)
    (node : ir_instruction) (st : Unit) (log : σ) : loop_step Unit σ :=
  match node.as_variable with
  | none => .next st log
  | some var =>
    match var.get_interface_type with
    | none => .next st log
    | some iface_type =>
      if var.data.mode != ir_var_shader_out then .next st log
      else
        match definitions.lookup VARYING_SLOT_VAR0 var with
        | none => .abort
        -- The consumer doesn't use this output block.  Ignore it.
        | some none => .next st log
        | some (some consumer_def) =>
          match interstage_match prog var consumer_def extra_array_level with
          | none => .abort
          | some true => .next st log
          | some false =>
            .ret (linker_error log
              ("definitions of interface block `" ++ iface_type.name ++ "' do not match\n"))

/-- The function `validate_interstage_inout_blocks`.  The program `prog` is
read for its version and profile; `log` is the state `linker_error` writes
to, and the result is the state it leaves. -/
def validate_interstage_inout_blocks {σ : Type} (VARYING_SLOT_VAR0 : Nat)
    (linker_error : σ → String → σ) (prog : gl_shader_program) (log : σ)
    (producer consumer : gl_linked_shader) : Option σ :=
  match foreach_in_list (validate_interstage_inout_blocks_consumer_node VARYING_SLOT_VAR0)
      consumer.ir interface_block_definitions.empty log with
  | .next definitions log' =>
    (foreach_in_list
      (validate_interstage_inout_blocks_producer_node VARYING_SLOT_VAR0 linker_error prog
        (validate_interstage_inout_blocks_extra_array_level producer consumer) definitions)
      producer.ir () log').finish
  | .ret log' => some log'
  | .abort => none

/-- The body of the inner loop of `validate_interstage_uniform_blocks`. -/
def validate_interstage_uniform_blocks_node {σ : Type} (VARYING_SLOT_VAR0 : Nat)
    (linker_error : σ → String → σ)
    (validate_intrastage_arrays : σ → ir_variable → ir_variable → Bool × σ × ir_variable)
    (node : ir_instruction) (definitions : interface_block_definitions) (prog : σ) :
    loop_step interface_block_definitions σ :=
  match node.as_variable with
  | none => .next definitions prog
  | some var =>
    match var.get_interface_type with
    | none => .next definitions prog
    | some iface_type =>
      if var.data.mode != ir_var_uniform && var.data.mode != ir_var_shader_storage then
        .next definitions prog
      else
        lookup_store_or_match VARYING_SLOT_VAR0 linker_error validate_intrastage_arrays
          definitions var
          ("definitions of uniform block `" ++ iface_type.name ++ "' do not match\n")
          prog

/-- The function `validate_interstage_uniform_blocks`, on the program state
and the array `stages` of `MESA_SHADER_STAGES` linked stages (an entry may be
`NULL`): the program state it leaves. -/
def validate_interstage_uniform_blocks {σ : Type} (VARYING_SLOT_VAR0 : Nat)
    (linker_error : σ → String → σ)
    (validate_intrastage_arrays : σ → ir_variable → ir_variable → Bool × σ × ir_variable)
    (prog : σ) (stages : List (Option gl_linked_shader)) : Option σ :=
  (foreach_in_list
    (foreach_unit
      (validate_interstage_uniform_blocks_node VARYING_SLOT_VAR0 linker_error
        validate_intrastage_arrays)
      gl_linked_shader.ir)
    stages interface_block_definitions.empty prog).finish

/-! ## Notions used to state the properties of the validators -/

/-- The key that `lookup` and `store` compute for `var`; none where they
dereference a `NULL` interface type. -/
def registry_key (VARYING_SLOT_VAR0 : Nat) (var : ir_variable) : Option String :=
  if var.data.explicit_location
      && decide ((VARYING_SLOT_VAR0 : Int) ≤ var.data.location) then
    some (snprintf_d 11 var.data.location)
  else var.get_interface_type.map (fun t => t.without_array.name)

/-- Whether two variables have the same registry key. -/
def same_key (VARYING_SLOT_VAR0 : Nat) (u v : ir_variable) : Bool :=
  registry_key VARYING_SLOT_VAR0 u == registry_key VARYING_SLOT_VAR0 v

/-- Whether two variables have the same mode and the same registry key. -/
def same_mode_and_key (VARYING_SLOT_VAR0 : Nat) (u v : ir_variable) : Bool :=
  u.data.mode == v.data.mode && same_key VARYING_SLOT_VAR0 u v

/-- The registry `definitions` answers every search with the first variable of
`stored` that has the searched key. -/
def registry_holds (VARYING_SLOT_VAR0 : Nat) (definitions : interface_block_definitions)
    (stored : List ir_variable) : Prop :=
  ∀ key : String, _mesa_hash_table_search definitions.ht key
    = stored.find? (fun u => registry_key VARYING_SLOT_VAR0 u == some key)

/-- The error reporter as a log of its calls: a call appends its message. -/
def report_log (log : List String) (message : String) : List String := log ++ [message]

/-- An array-size reconciliation that is a pure predicate `P` of the two
variables: it gives the verdict of `P` and leaves the program state and the
stored declaration alone. -/
def pure_validate_intrastage_arrays {σ : Type} (P : ir_variable → ir_variable → Bool) :
    σ → ir_variable → ir_variable → Bool × σ × ir_variable :=
  fun prog var existing => (P var existing, prog, existing)

/-- The name of the interface type of a variable, as the error messages print
it. -/
def ir_variable.interface_type_name (v : ir_variable) : String :=
  match v.get_interface_type with
  | some t => t.name
  | none => ""

/-- The first element of `vars`, scanned after `pre`, that is `bad` with
respect to the elements scanned before it. -/
def first_mismatch {α : Type} (bad : List α → α → Bool) : List α → List α → Option α
  | _, [] => none
  | pre, v :: rest => if bad pre v then some v else first_mismatch bad (pre ++ [v]) rest

/-- Whether `v`, scanned after the variables `pre`, fails `intrastage_match`
against the first variable of `pre` in the same `slot` (there is such a
variable and the match with it is false), the reconciliation being the
predicate `P`. -/
def mismatch_after (slot : ir_variable → ir_variable → Bool)
    (P : ir_variable → ir_variable → Bool) (pre : List ir_variable) (v : ir_variable) : Bool :=
  match pre.find? (fun u => slot u v) with
  | some u => !(intrastage_match (pure_validate_intrastage_arrays P) u v ()).1
  | none => false

/-- The four modes of the `switch` of `validate_intrastage_interface_blocks`:
shader in, shader out, uniform and shader storage. -/
def is_interface_mode : ir_variable_mode → Bool
  | ir_var_auto => false
  | _ => true

/-- The variable of a node that `validate_intrastage_interface_blocks` files in
a registry: one with an interface type and one of the four modes. -/
def intrastage_block_variable (node : ir_instruction) : Option ir_variable :=
  node.as_variable.bind fun var =>
    if var.get_interface_type.isSome && is_interface_mode var.data.mode then some var else none

/-- The instructions of the compilation units of a stage, in unit order, then
declaration order. -/
def shader_list_ir (shader_list : List (Option gl_shader)) : List ir_instruction :=
  (shader_list.filterMap id).flatMap gl_shader.ir

/-- The variables `validate_intrastage_interface_blocks` files, in scan
order. -/
def intrastage_block_variables (shader_list : List (Option gl_shader)) : List ir_variable :=
  (shader_list_ir shader_list).filterMap intrastage_block_variable

/-- The four registries answer, for each mode, with the first variable of
`stored` of that mode that has the searched key. -/
def intrastage_holds (VARYING_SLOT_VAR0 : Nat) (defs : intrastage_interfaces)
    (stored : List ir_variable) : Prop :=
  ∀ (m : ir_variable_mode) (d : interface_block_definitions), defs.get m = some d →
    registry_holds VARYING_SLOT_VAR0 d (stored.filter (fun u => u.data.mode == m))

/-- The variable of a node that `validate_interstage_uniform_blocks` files: one
with an interface type and mode uniform or shader storage. -/
def uniform_block_variable (node : ir_instruction) : Option ir_variable :=
  node.as_variable.bind fun var =>
    if var.get_interface_type.isSome
        && (var.data.mode == ir_var_uniform || var.data.mode == ir_var_shader_storage)
    then some var else none

/-- The instructions of the stages of a program, in stage order, then
declaration order. -/
def stages_ir (stages : List (Option gl_linked_shader)) : List ir_instruction :=
  (stages.filterMap id).flatMap gl_linked_shader.ir

/-- The variables `validate_interstage_uniform_blocks` files, in scan order. -/
def uniform_block_variables (stages : List (Option gl_linked_shader)) : List ir_variable :=
  (stages_ir stages).filterMap uniform_block_variable

/-- The variable of a node that the first loop of
`validate_interstage_inout_blocks` stores: a shader input with an interface
type. -/
def consumer_input (node : ir_instruction) : Option ir_variable :=
  node.as_variable.bind fun var =>
    if var.get_interface_type.isSome && var.data.mode == ir_var_shader_in then some var
    else none

/-- The variable of a node that the second loop of
`validate_interstage_inout_blocks` looks up: a shader output with an interface
type. -/
def producer_output (node : ir_instruction) : Option ir_variable :=
  node.as_variable.bind fun var =>
    if var.get_interface_type.isSome && var.data.mode == ir_var_shader_out then some var
    else none

/-- The verdict on the producer output `var` against the consumer inputs: true
when no input has the key of `var`, and the result of `interstage_match` with
the first input that has it otherwise. -/
def inout_verdict (VARYING_SLOT_VAR0 : Nat) (prog : gl_shader_program)
    (extra_array_level : Bool) (inputs : List ir_variable) (var : ir_variable) : Option Bool :=
  match inputs.find? (fun u => same_key VARYING_SLOT_VAR0 u var) with
  | none => some true
  | some consumer_def => interstage_match prog var consumer_def extra_array_level

/-- The first element of `vars` whose verdict is false, none if all verdicts
are true; nothing if a verdict is undefined before that. -/
def first_inout_mismatch {α : Type} (verdict : α → Option Bool) : List α → Option (Option α)
  | [] => some none
  | v :: rest =>
    match verdict v with
    | none => none
    | some true => first_inout_mismatch verdict rest
    | some false => some (some v)

/-- The shader inputs with an interface type of the consumer stage, in
declaration order: what the first loop of `validate_interstage_inout_blocks`
stores. -/
def consumer_inputs (consumer : gl_linked_shader) : List ir_variable :=
  consumer.ir.filterMap consumer_input

/-- The shader outputs with an interface type of the producer stage, in
declaration order: what the second loop of `validate_interstage_inout_blocks`
looks up. -/
def producer_outputs (producer : gl_linked_shader) : List ir_variable :=
  producer.ir.filterMap producer_output

/-- A linked stage read as a compilation unit: the same instruction list. -/
def gl_linked_shader.as_unit (sh : gl_linked_shader) : gl_shader := ⟨sh.ir⟩

/-- The inner loop of `validate_interstage_uniform_blocks`, run from the empty
registry over the declarations `vars`. -/
def uniform_blocks_scan {σ : Type} (VARYING_SLOT_VAR0 : Nat) (linker_error : σ → String → σ)
    (validate_intrastage_arrays : σ → ir_variable → ir_variable → Bool × σ × ir_variable)
    (vars : List ir_variable) (prog : σ) : loop_step interface_block_definitions σ :=
  foreach_in_list
    (fun v definitions prog => validate_interstage_uniform_blocks_node VARYING_SLOT_VAR0
      linker_error validate_intrastage_arrays ⟨some v⟩ definitions prog)
    vars interface_block_definitions.empty prog

/-- The inner loop of `validate_intrastage_interface_blocks`, run from the four
empty registries over the declarations `vars`. -/
def intrastage_blocks_scan {σ : Type} (VARYING_SLOT_VAR0 : Nat) (NDEBUG : Bool)
    (linker_error : σ → String → σ)
    (validate_intrastage_arrays : σ → ir_variable → ir_variable → Bool × σ × ir_variable)
    (vars : List ir_variable) (prog : σ) : loop_step intrastage_interfaces σ :=
  foreach_in_list
    (fun v defs prog => validate_intrastage_interface_blocks_node VARYING_SLOT_VAR0 NDEBUG
      linker_error validate_intrastage_arrays ⟨some v⟩ defs prog)
    vars
    ⟨interface_block_definitions.empty, interface_block_definitions.empty,
      interface_block_definitions.empty, interface_block_definitions.empty⟩ prog

/-- The message of `validate_interstage_uniform_blocks` for the variable `v`. -/
def uniform_block_message (v : ir_variable) : String :=
  "definitions of uniform block `" ++ v.interface_type_name ++ "' do not match\n"

/-- The message of `validate_intrastage_interface_blocks` and of
`validate_interstage_inout_blocks` for the variable `v`. -/
def interface_block_message (v : ir_variable) : String :=
  "definitions of interface block `" ++ v.interface_type_name ++ "' do not match\n"

/-- The scan of `validate_interstage_uniform_blocks` over `vars` fails at `v`:
`vars` is `pre`, `v`, `post`; the inner loop over `pre` falls through, whatever
the reporter, and leaves a registry in which the lookup of `v` returns a stored
declaration; and `intrastage_match` of that declaration and `v`, in the state
that the loop over `pre` leaves, is false and leaves the state `failed`. -/
def uniform_blocks_fail_at {σ : Type} (VARYING_SLOT_VAR0 : Nat)
    (R : σ → ir_variable → ir_variable → Bool × σ × ir_variable)
    (vars : List ir_variable) (prog : σ)
    (pre : List ir_variable) (v : ir_variable) (post : List ir_variable) (failed : σ) : Prop :=
  vars = pre ++ v :: post
  ∧ ∃ (d : interface_block_definitions) (prog' : σ) (u : ir_variable),
      (∀ linker_error : σ → String → σ,
        uniform_blocks_scan VARYING_SLOT_VAR0 linker_error R pre prog = .next d prog')
      ∧ d.lookup VARYING_SLOT_VAR0 v = some (some u)
      ∧ (intrastage_match R u v prog').1 = false
      ∧ failed = (intrastage_match R u v prog').2.1

/-- The scan of `validate_intrastage_interface_blocks` over `vars` fails at
`v`: `vars` is `pre`, `v`, `post`; the inner loop over `pre` falls through,
whatever the reporter, and leaves registries of which the one of the mode of
`v` returns a stored declaration at the lookup of `v`; and `intrastage_match`
of that declaration and `v`, in the state that the loop over `pre` leaves, is
false and leaves the state `failed`. -/
def intrastage_blocks_fail_at {σ : Type} (VARYING_SLOT_VAR0 : Nat) (NDEBUG : Bool)
    (R : σ → ir_variable → ir_variable → Bool × σ × ir_variable)
    (vars : List ir_variable) (prog : σ)
    (pre : List ir_variable) (v : ir_variable) (post : List ir_variable) (failed : σ) : Prop :=
  vars = pre ++ v :: post
  ∧ ∃ (defs : intrastage_interfaces) (prog' : σ) (d : interface_block_definitions)
      (u : ir_variable),
      (∀ linker_error : σ → String → σ,
        intrastage_blocks_scan VARYING_SLOT_VAR0 NDEBUG linker_error R pre prog
          = .next defs prog')
      ∧ defs.get v.data.mode = some d
      ∧ d.lookup VARYING_SLOT_VAR0 v = some (some u)
      ∧ (intrastage_match R u v prog').1 = false
      ∧ failed = (intrastage_match R u v prog').2.1

/-- Example data: the block type `name { vec4 pos; }` at address `addr`, its
only field with the interpolation qualifier `interpolation`. -/
def example_block (addr : Nat) (name : String) (interpolation : Nat) : glsl_type :=
  .iface addr name [⟨9, "pos", -1, false, interpolation, false, false⟩]

/-- Example data: an explicitly declared instance, named `name`, of the block
type `t`, of mode `mode`, without explicit location. -/
def example_instance (name : String) (t : glsl_type) (mode : ir_variable_mode) : ir_variable :=
  ⟨name, t, some t, ⟨mode, ir_var_declared_normally, false, 0⟩, true⟩

/-- Example data: a reconciliation of array sizes that accepts two arrays of
the same element type of which one is unsized, and gives the stored
declaration the type of the sized one. -/
def example_validate_intrastage_arrays {σ : Type} (prog : σ) (var existing : ir_variable) :
    Bool × σ × ir_variable :=
  match var.type, existing.type with
  | .array _ _ var_elem var_length, .array _ _ existing_elem existing_length =>
    if var_elem.addr == existing_elem.addr && (var_length == 0 || existing_length == 0) then
      (true, prog, if var_length != 0 then { existing with type := var.type } else existing)
    else (false, prog, existing)
  | _, _ => (false, prog, existing)

/-- Example data: an instance `blk` of mode uniform whose type is the array, at
address `addr` and of `length` elements (0 for unsized), of the block
`example_block 1 "U" 0`. -/
def example_instance_array (addr length : Nat) : ir_variable :=
  ⟨"blk", .array addr "U[]" (example_block 1 "U" 0) length, some (example_block 1 "U" 0),
    ⟨ir_var_uniform, ir_var_declared_normally, false, 0⟩, true⟩

/-- Example data: three stages that declare the same uniform block instance
array, unsized in the first, of 3 elements in the second and of 4 elements in
the third. -/
def example_resized_stages : List (Option gl_linked_shader) :=
  [some ⟨MESA_SHADER_VERTEX, [⟨some (example_instance_array 20 0)⟩]⟩,
   some ⟨MESA_SHADER_GEOMETRY, [⟨some (example_instance_array 21 3)⟩]⟩,
   some ⟨MESA_SHADER_FRAGMENT, [⟨some (example_instance_array 22 4)⟩]⟩]

/-- Whether `b` repeats the declaration `a`: the same interface type, the same
type, the same interface-instance flag and the same name. -/
def identical_redeclaration (a b : ir_variable) : Bool :=
  glsl_type_ptr_eq a.get_interface_type b.get_interface_type
    && a.type.addr == b.type.addr
    && a.is_interface_instance == b.is_interface_instance
    && a.name == b.name

/-- The number that a string of decimal digits denotes, most significant digit
first. -/
def decimal_value (digits : List Char) : Nat :=
  digits.foldl (fun acc c => 10 * acc + (c.toNat - 48)) 0

/-! ## `etna_vertex_elements_state_create` (`src/gallium/drivers/etnaviv/etnaviv_state.c`)

The function is embedded with the array `elements` a list and `num_elements`
its length.  The helpers of the format tables that it calls are parameters,
and a word of `FE_VERTEX_ELEMENT_CONFIG` is kept as the operands of the bitwise
OR that composes it. -/

/-- The members of `struct pipe_vertex_element` (of `p_state.h`), all of the C
type `unsigned`; `src_format` is the value of the `enum pipe_format`. -/
structure pipe_vertex_element where
  src_offset : Nat
  instance_divisor : Nat
  vertex_buffer_index : Nat
  src_format : Nat
deriving DecidableEq, Repr

/-- The member `specs` of the context: the hardware limits, of which the
function reads `stream_count`. -/
structure etna_specs where
  stream_count : Nat
deriving DecidableEq, Repr

/-- The driver context (`struct etna_context`), as far as the function reads
it. -/
structure etna_context where
  specs : etna_specs
deriving DecidableEq, Repr

/-- The helpers that `etna_vertex_elements_state_create` calls on a format
(`util_format_get_blocksize` and `util_format_get_nr_components` of
`u_format.h`, `translate_vertex_format_type` and
`translate_vertex_format_normalize` of `etnaviv_translate.h`), and the
constant `ENDIAN_MODE_NO_SWAP`. -/
structure vertex_format_helpers where
  util_format_get_blocksize : Nat → Nat
  util_format_get_nr_components : Nat → Nat
  translate_vertex_format_type : Nat → Bool → Nat
  translate_vertex_format_normalize : Nat → Nat
  ENDIAN_MODE_NO_SWAP : Nat

/-- Addition of the C type `unsigned`, of 32 bits. -/
def unsigned_add (a b : Nat) : Nat := (a + b) % 2 ^ 32

/-- Subtraction of the C type `unsigned`, of 32 bits. -/
def unsigned_sub (a b : Nat) : Nat := (a % 2 ^ 32 + (2 ^ 32 - b % 2 ^ 32)) % 2 ^ 32

/-- One word of `FE_VERTEX_ELEMENT_CONFIG`, as the operands of the bitwise OR
that composes it: whether `VIVS_FE_VERTEX_ELEMENT_CONFIG_NONCONSECUTIVE` is
set, the two translated words, and the arguments of the field macros
`VIVS_FE_VERTEX_ELEMENT_CONFIG_NUM`, `_ENDIAN`, `_STREAM`, `_START` and
`_END`. -/
structure fe_vertex_element_config where
  NONCONSECUTIVE : Bool
  format_type : Nat
  NUM : Nat
  format_normalize : Nat
  ENDIAN : Nat
  STREAM : Nat
  START : Nat
  END : Nat
deriving DecidableEq, Repr

/-- The members of `struct compiled_vertex_elements_state` that the function
writes: `num_elements`, and the entries of `FE_VERTEX_ELEMENT_CONFIG` written
so far, from index 0 (the entries after them are as the allocation left
them). -/
structure compiled_vertex_elements_state where
  num_elements : Nat
  FE_VERTEX_ELEMENT_CONFIG : List fe_vertex_element_config
deriving DecidableEq, Repr

/-- The loop `for (unsigned idx = ...; idx < num_elements; ++idx)` with `fuel`
iterations left, started at `idx` on the locals `st`; nothing when an
iteration stops the program. -/
def for_idx {α : Type} (body : Nat → α → Option α) : Nat → Nat → α → Option α
  | 0, _, st => some st
  | fuel + 1, idx, st =>
    match body idx st with
    | none => none
    | some st' => for_idx body fuel (idx + 1) st'

/-- The body of the first loop of `etna_vertex_elements_state_create`, on the
local `incompatible`: check that the vertex element binding is compatible with
the hardware.  Nothing on a read past the end of `elements`. -/
def etna_vertex_elements_state_create_check (ctx : etna_context)
    (elements : List pipe_vertex_element) (idx : Nat) (incompatible : Bool) : Option Bool :=
  match elements[idx]? with
  | none => none
  | some element =>
    if decide (element.vertex_buffer_index ≥ ctx.specs.stream_count)
        || decide (element.instance_divisor > 0) then some true
    else some incompatible

/-- The locals of the second loop of `etna_vertex_elements_state_create`:
`start_offset` (start of current consecutive stretch), `nonconsecutive`
(previous value of nonconsecutive), and the state `cs` under construction. -/
structure vertex_elements_locals where
  start_offset : Nat
  nonconsecutive : Bool
  cs : compiled_vertex_elements_state
deriving DecidableEq, Repr

/-- The body of the second loop of `etna_vertex_elements_state_create`.
`NDEBUG` tells whether `assert` is compiled out; a failed assertion stops the
program, and so does a read past the end of `elements`. -/
def etna_vertex_elements_state_create_config (h : vertex_format_helpers) (NDEBUG : Bool)
    (num_elements : Nat) (elements : List pipe_vertex_element) (idx : Nat)
    (st : vertex_elements_locals) : Option vertex_elements_locals :=
  match elements[idx]? with
  | none => none
  | some element =>
    let element_size := h.util_format_get_blocksize element.src_format
    let end_offset := unsigned_add element.src_offset element_size
    let start_offset := if st.nonconsecutive then element.src_offset else st.start_offset
    -- maximum vertex size is 256 bytes
    if !NDEBUG && !(element_size != 0 && decide (end_offset ≤ 256)) then none
    else
      -- check whether next element is consecutive to this one
      let nonconsecutive : Option Bool :=
        if idx == num_elements - 1 then some true
        else
          match elements[idx + 1]? with
          | none => none
          | some next =>
            some (next.vertex_buffer_index != element.vertex_buffer_index
              || end_offset != next.src_offset)
      match nonconsecutive with
      | none => none
      | some nonconsecutive =>
        some
          { start_offset := start_offset
            nonconsecutive := nonconsecutive
            cs :=
              { st.cs with
                FE_VERTEX_ELEMENT_CONFIG := st.cs.FE_VERTEX_ELEMENT_CONFIG ++
                  [{ NONCONSECUTIVE := nonconsecutive
                     format_type := h.translate_vertex_format_type element.src_format false
                     NUM := h.util_format_get_nr_components element.src_format
                     format_normalize := h.translate_vertex_format_normalize element.src_format
                     ENDIAN := h.ENDIAN_MODE_NO_SWAP
                     STREAM := element.vertex_buffer_index
                     START := element.src_offset
                     END := unsigned_sub end_offset start_offset }] } }

/-- Create vertex element states, which define a layout for fetching vertices
for rendering.  `calloc_succeeds` tells whether `CALLOC_STRUCT` returns a state
(zeroed).  The result is the pointer returned, `NULL` being `none`; nothing
when the program is stopped. -/
def etna_vertex_elements_state_create (h : vertex_format_helpers) (NDEBUG : Bool)
    (calloc_succeeds : Bool) (ctx : etna_context) (elements : List pipe_vertex_element) :
    Option (Option compiled_vertex_elements_state) :=
  let num_elements := elements.length
  if !calloc_succeeds then some none
  else
    let cs : compiled_vertex_elements_state := ⟨0, []⟩
    match for_idx (etna_vertex_elements_state_create_check ctx elements) num_elements 0 false with
    | none => none
    | some incompatible =>
      let cs := { cs with num_elements := num_elements }
      if incompatible || num_elements == 0 then some none
      else
        match for_idx (etna_vertex_elements_state_create_config h NDEBUG num_elements elements)
            num_elements 0 ⟨0, true, cs⟩ with
        | none => none
        | some st => some (some st.cs)

/-! ## Notions used to state the properties of `etna_vertex_elements_state_create` -/

/-- The local `end_offset` of the second loop for `element`: the offset after
its last byte. -/
def end_offset (h : vertex_format_helpers) (element : pipe_vertex_element) : Nat :=
  unsigned_add element.src_offset (h.util_format_get_blocksize element.src_format)

/-- Whether the element after `elements[idx]` is consecutive to it: there is
one, it uses the same vertex buffer, and it starts at the end offset of
`elements[idx]`. -/
def consecutive_at (h : vertex_format_helpers) (elements : List pipe_vertex_element)
    (idx : Nat) : Bool :=
  match elements[idx]?, elements[idx + 1]? with
  | some element, some next =>
    next.vertex_buffer_index == element.vertex_buffer_index
      && end_offset h element == next.src_offset
  | _, _ => false

/-- The index of the first element of the maximal run of consecutive elements
that contains `elements[idx]`. -/
def run_start (h : vertex_format_helpers) (elements : List pipe_vertex_element) : Nat → Nat
  | 0 => 0
  | idx + 1 => if consecutive_at h elements idx then run_start h elements idx else idx + 1

/-- The locals of the second loop before the iteration `idx`: the start of the
current stretch is the offset of the first element of the run of `idx`, unless
a new stretch starts at `idx`. -/
def vertex_elements_locals_hold (h : vertex_format_helpers)
    (elements : List pipe_vertex_element) (idx : Nat) (st : vertex_elements_locals) : Prop :=
  (st.nonconsecutive = true → run_start h elements idx = idx)
  ∧ (st.nonconsecutive = false →
      ∃ first, elements[run_start h elements idx]? = some first
        ∧ st.start_offset = first.src_offset)

/-- The condition of the `assert` of the second loop, for `element`. -/
def vertex_element_assertion (h : vertex_format_helpers) (element : pipe_vertex_element) :
    Bool :=
  h.util_format_get_blocksize element.src_format != 0 && decide (end_offset h element ≤ 256)

/-- The word that the second loop writes at `idx`, for `elements[idx]` being
`element` and the current stretch starting at `start_offset`. -/
def vertex_element_config (h : vertex_format_helpers) (elements : List pipe_vertex_element)
    (idx : Nat) (element : pipe_vertex_element) (start_offset : Nat) :
    fe_vertex_element_config :=
  { NONCONSECUTIVE := !consecutive_at h elements idx
    format_type := h.translate_vertex_format_type element.src_format false
    NUM := h.util_format_get_nr_components element.src_format
    format_normalize := h.translate_vertex_format_normalize element.src_format
    ENDIAN := h.ENDIAN_MODE_NO_SWAP
    STREAM := element.vertex_buffer_index
    START := element.src_offset
    END := unsigned_sub (end_offset h element) start_offset }

/-- Example data: format helpers for which the block size of a format is the
value of the format. -/
def example_helpers : vertex_format_helpers :=
  ⟨fun format => format, fun format => format / 4, fun format _ => format, fun _ => 0, 0⟩

/-- Example data: two consecutive elements on vertex buffer 0, of 12 and 8
bytes, then an element of 16 bytes on vertex buffer 1. -/
def example_elements : List pipe_vertex_element :=
  [⟨0, 0, 0, 12⟩, ⟨12, 0, 0, 8⟩, ⟨0, 0, 1, 16⟩]

/-- Example data: the state that `etna_vertex_elements_state_create` returns
for `example_elements` with `example_helpers`. -/
def example_state : compiled_vertex_elements_state :=
  ⟨3, [⟨false, 12, 3, 0, 0, 0, 0, 12⟩, ⟨true, 8, 2, 0, 0, 0, 12, 20⟩,
    ⟨true, 16, 4, 0, 0, 1, 0, 16⟩]⟩

/-! ## Properties of `interstage_member_mismatch` -/

/-- The loop body returns true exactly when one of its seven guarded
comparisons fails. -/
theorem interstage_member_mismatch_at_eq_true_iff (prog : gl_shader_program)
    (cf pf : glsl_struct_field) :
    interstage_member_mismatch_at prog cf pf = true ↔
      cf.type ≠ pf.type ∨ cf.name ≠ pf.name ∨ cf.location ≠ pf.location
      ∨ cf.patch ≠ pf.patch
      ∨ ((prog.IsES = true ∨ prog.Version < 440) ∧ cf.interpolation ≠ pf.interpolation)
      ∨ ((prog.IsES = false ∨ prog.Version < 310) ∧ cf.centroid ≠ pf.centroid)
      ∨ (prog.IsES = false ∧ cf.sample ≠ pf.sample) := by
  unfold interstage_member_mismatch_at
  by_cases h1 : cf.type = pf.type
  · by_cases h2 : cf.name = pf.name
    · by_cases h3 : cf.location = pf.location
      · by_cases h4 : cf.patch = pf.patch
        · by_cases h5 : cf.interpolation = pf.interpolation
          · by_cases h6 : cf.centroid = pf.centroid
            · by_cases h7 : cf.sample = pf.sample
              · simp [h1, h2, h3, h4, h5, h6, h7]
              · cases hE : prog.IsES <;> simp [h1, h2, h3, h4, h5, h6, h7, hE]
            · cases hE : prog.IsES <;> simp [h1, h2, h3, h4, h5, h6, hE]
          · cases hE : prog.IsES <;> simp [h1, h2, h3, h4, h5, hE]
        · simp [h1, h2, h3, h4]
      · simp [h1, h2, h3]
    · simp [h1, h2]
  · simp [h1]

/-- The loop returns true exactly when the body returns true at some index
present in both field arrays. -/
theorem interstage_member_mismatch_loop_eq_true_iff (prog : gl_shader_program)
    (cs ps : List glsl_struct_field) :
    interstage_member_mismatch_loop prog cs ps = true ↔
      ∃ (i : Nat) (cf pf : glsl_struct_field), cs[i]? = some cf ∧ ps[i]? = some pf
        ∧ interstage_member_mismatch_at prog cf pf = true := by
  induction cs generalizing ps with
  | nil => simp [interstage_member_mismatch_loop]
  | cons c cs ih =>
    cases ps with
    | nil => simp [interstage_member_mismatch_loop]
    | cons p ps =>
      simp only [interstage_member_mismatch_loop]
      constructor
      · intro h
        by_cases h0 : interstage_member_mismatch_at prog c p = true
        · exact ⟨0, c, p, by simp, by simp, h0⟩
        · simp only [h0, Bool.false_eq_true, if_false] at h
          obtain ⟨i, cf, pf, h1, h2, h3⟩ := (ih ps).1 h
          exact ⟨i + 1, cf, pf, by simpa using h1, by simpa using h2, h3⟩
      · rintro ⟨i, cf, pf, h1, h2, h3⟩
        cases i with
        | zero =>
          simp only [List.getElem?_cons_zero, Option.some.injEq] at h1 h2
          subst h1 h2
          simp [h3]
        | succ i =>
          simp only [List.getElem?_cons_succ] at h1 h2
          have h := (ih ps).2 ⟨i, cf, pf, h1, h2, h3⟩
          simp [h]

/-- On two interface blocks, the function returns true exactly when the
numbers of fields differ or the loop body returns true at some index. -/
theorem interstage_member_mismatch_iface_eq_true_iff (prog : gl_shader_program)
    (ca : Nat) (cn : String) (cs : List glsl_struct_field)
    (pa : Nat) (pn : String) (ps : List glsl_struct_field) :
    interstage_member_mismatch prog (.iface ca cn cs) (.iface pa pn ps) = true ↔
      cs.length ≠ ps.length ∨ ∃ (i : Nat) (cf pf : glsl_struct_field), cs[i]? = some cf ∧ ps[i]? = some pf
        ∧ interstage_member_mismatch_at prog cf pf = true := by
  unfold interstage_member_mismatch
  simp only [glsl_type.length, glsl_type.fields_structure]
  by_cases hl : cs.length = ps.length
  · simp [hl, interstage_member_mismatch_loop_eq_true_iff]
  · simp [hl]

/-- On two interface blocks with the same number of fields, the function
returns true exactly when some index fails one of the guarded comparisons. -/
theorem interstage_member_mismatch_eq_true_of_length_eq (prog : gl_shader_program)
    (ca : Nat) (cn : String) (cs : List glsl_struct_field)
    (pa : Nat) (pn : String) (ps : List glsl_struct_field)
    (hlen : cs.length = ps.length) :
    interstage_member_mismatch prog (.iface ca cn cs) (.iface pa pn ps) = true ↔
      ∃ (i : Nat) (cf pf : glsl_struct_field), cs[i]? = some cf ∧ ps[i]? = some pf ∧
        (cf.type ≠ pf.type ∨ cf.name ≠ pf.name ∨ cf.location ≠ pf.location
        ∨ cf.patch ≠ pf.patch
        ∨ ((prog.IsES = true ∨ prog.Version < 440) ∧ cf.interpolation ≠ pf.interpolation)
        ∨ ((prog.IsES = false ∨ prog.Version < 310) ∧ cf.centroid ≠ pf.centroid)
        ∨ (prog.IsES = false ∧ cf.sample ≠ pf.sample)) := by
  rw [interstage_member_mismatch_iface_eq_true_iff]
  simp only [interstage_member_mismatch_at_eq_true_iff]
  constructor
  · rintro (h | h)
    · exact absurd hlen h
    · exact h
  · intro h
    exact Or.inr h

/-- C1: `interstage_member_mismatch` returns true whenever the two member
sequences have different lengths or some index has a differing field type,
name, location or patch flag (positionally, whatever the later fields are);
and it returns false whenever the sequences have equal length and agree at
every index on type, name, location, patch, interpolation, centroid and
sample. -/
theorem interstage_member_mismatch_positional (prog : gl_shader_program)
    (ca : Nat) (cn : String) (cs : List glsl_struct_field)
    (pa : Nat) (pn : String) (ps : List glsl_struct_field) :
    ((cs.length ≠ ps.length ∨
        ∃ (i : Nat) (cf pf : glsl_struct_field), cs[i]? = some cf ∧ ps[i]? = some pf ∧
          (cf.type ≠ pf.type ∨ cf.name ≠ pf.name ∨ cf.location ≠ pf.location
            ∨ cf.patch ≠ pf.patch)) →
      interstage_member_mismatch prog (.iface ca cn cs) (.iface pa pn ps) = true)
    ∧ ((cs.length = ps.length ∧
        ∀ (i : Nat) (cf pf : glsl_struct_field), cs[i]? = some cf → ps[i]? = some pf →
          cf.type = pf.type ∧ cf.name = pf.name ∧ cf.location = pf.location
            ∧ cf.patch = pf.patch ∧ cf.interpolation = pf.interpolation
            ∧ cf.centroid = pf.centroid ∧ cf.sample = pf.sample) →
      interstage_member_mismatch prog (.iface ca cn cs) (.iface pa pn ps) = false) := by
  constructor
  · rintro (h | ⟨i, cf, pf, h1, h2, h⟩)
    · exact (interstage_member_mismatch_iface_eq_true_iff ..).2 (Or.inl h)
    · refine (interstage_member_mismatch_iface_eq_true_iff ..).2 (Or.inr ⟨i, cf, pf, h1, h2, ?_⟩)
      rw [interstage_member_mismatch_at_eq_true_iff]
      tauto
  · rintro ⟨hlen, hall⟩
    rw [← Bool.not_eq_true, interstage_member_mismatch_eq_true_of_length_eq _ _ _ _ _ _ _ hlen]
    rintro ⟨i, cf, pf, h1, h2, h⟩
    have := hall i cf pf h1 h2
    tauto

/-- Witness of C1 at a desktop 3.30 program: two blocks whose first fields
differ in name mismatch although the other block has a later field of that
name, and a block matches itself. -/
theorem interstage_member_mismatch_positional_witness :
    interstage_member_mismatch ⟨false, 330⟩
        (.iface 1 "V" [⟨7, "pad", -1, false, 0, false, false⟩, ⟨9, "pos", -1, false, 0, false, false⟩])
        (.iface 2 "V" [⟨7, "pos", -1, false, 0, false, false⟩, ⟨7, "pad", -1, false, 0, false, false⟩])
      = true
    ∧ interstage_member_mismatch ⟨false, 330⟩
        (.iface 1 "V" [⟨9, "pos", -1, false, 0, false, false⟩])
        (.iface 1 "V" [⟨9, "pos", -1, false, 0, false, false⟩]) = false :=
  ⟨(interstage_member_mismatch_positional ⟨false, 330⟩ 1 "V" _ 2 "V" _).1
      (Or.inr ⟨0, _, _, rfl, rfl, Or.inr (Or.inl (by decide))⟩),
   (interstage_member_mismatch_positional ⟨false, 330⟩ 1 "V" _ 1 "V" _).2
      ⟨rfl, by
        intro i cf pf h1 h2
        cases i with
        | zero =>
          simp only [List.getElem?_cons_zero, Option.some.injEq] at h1 h2
          subst h1 h2
          simp
        | succ i => simp at h1⟩⟩

/-- C2: for two member sequences of equal length that agree at every index on
type, name, location, patch, centroid and sample and differ at some index in
interpolation, `interstage_member_mismatch` returns false exactly when the
program is desktop (not ES) with version at least 440, and true otherwise. -/
theorem interstage_member_mismatch_interpolation (prog : gl_shader_program)
    (ca : Nat) (cn : String) (cs : List glsl_struct_field)
    (pa : Nat) (pn : String) (ps : List glsl_struct_field)
    (hlen : cs.length = ps.length)
    (hagree : ∀ (i : Nat) (cf pf : glsl_struct_field), cs[i]? = some cf → ps[i]? = some pf →
      cf.type = pf.type ∧ cf.name = pf.name ∧ cf.location = pf.location
        ∧ cf.patch = pf.patch ∧ cf.centroid = pf.centroid ∧ cf.sample = pf.sample)
    (hdiff : ∃ (i : Nat) (cf pf : glsl_struct_field), cs[i]? = some cf ∧ ps[i]? = some pf
      ∧ cf.interpolation ≠ pf.interpolation) :
    (interstage_member_mismatch prog (.iface ca cn cs) (.iface pa pn ps) = false
        ↔ (prog.IsES = false ∧ 440 ≤ prog.Version))
    ∧ (interstage_member_mismatch prog (.iface ca cn cs) (.iface pa pn ps) = true
        ↔ ¬ (prog.IsES = false ∧ 440 ≤ prog.Version)) := by
  have key : interstage_member_mismatch prog (.iface ca cn cs) (.iface pa pn ps) = true
      ↔ ¬ (prog.IsES = false ∧ 440 ≤ prog.Version) := by
    rw [interstage_member_mismatch_eq_true_of_length_eq _ _ _ _ _ _ _ hlen]
    constructor
    · rintro ⟨i, cf, pf, h1, h2, h⟩ ⟨hE, hV⟩
      have := hagree i cf pf h1 h2
      have hV2 : ¬ prog.Version < 440 := by omega
      simp only [hE, Bool.false_eq_true, hV2, or_self, false_and] at h
      tauto
    · intro hn
      obtain ⟨i, cf, pf, h1, h2, h⟩ := hdiff
      refine ⟨i, cf, pf, h1, h2, ?_⟩
      have : prog.IsES = true ∨ prog.Version < 440 := by
        cases hE : prog.IsES
        · right
          by_contra hV
          exact hn ⟨hE, by omega⟩
        · left; rfl
      tauto
  refine ⟨?_, key⟩
  rw [← Bool.not_eq_true, key, not_not]

/-- A relation between the only fields of two one-field blocks holds at every
index of the two field arrays. -/
theorem forall_index_singleton {P : glsl_struct_field → glsl_struct_field → Prop}
    (c p : glsl_struct_field) (h : P c p) :
    ∀ (i : Nat) (cf pf : glsl_struct_field), [c][i]? = some cf → [p][i]? = some pf → P cf pf := by
  intro i cf pf h1 h2
  cases i with
  | zero =>
    simp only [List.getElem?_cons_zero, Option.some.injEq] at h1 h2
    subst h1 h2
    exact h
  | succ i => simp at h1

/-- Witness of C2: blocks `V { vec4 pos; }` whose only field differs in
interpolation mismatch on desktop 3.30 and on ES 4.40-numbered programs, and
match on desktop 4.40. -/
theorem interstage_member_mismatch_interpolation_witness :
    interstage_member_mismatch ⟨false, 330⟩
        (.iface 1 "V" [⟨9, "pos", -1, false, 1, false, false⟩])
        (.iface 2 "V" [⟨9, "pos", -1, false, 2, false, false⟩]) = true
    ∧ interstage_member_mismatch ⟨false, 440⟩
        (.iface 1 "V" [⟨9, "pos", -1, false, 1, false, false⟩])
        (.iface 2 "V" [⟨9, "pos", -1, false, 2, false, false⟩]) = false
    ∧ interstage_member_mismatch ⟨true, 440⟩
        (.iface 1 "V" [⟨9, "pos", -1, false, 1, false, false⟩])
        (.iface 2 "V" [⟨9, "pos", -1, false, 2, false, false⟩]) = true :=
  ⟨(interstage_member_mismatch_interpolation ⟨false, 330⟩ 1 "V" [⟨9, "pos", -1, false, 1, false, false⟩] 2 "V" [⟨9, "pos", -1, false, 2, false, false⟩] rfl
      (forall_index_singleton _ _ (by decide))
      ⟨0, ⟨9, "pos", -1, false, 1, false, false⟩, ⟨9, "pos", -1, false, 2, false, false⟩, rfl, rfl, by decide⟩).2.2 (by decide),
   (interstage_member_mismatch_interpolation ⟨false, 440⟩ 1 "V" [⟨9, "pos", -1, false, 1, false, false⟩] 2 "V" [⟨9, "pos", -1, false, 2, false, false⟩] rfl
      (forall_index_singleton _ _ (by decide))
      ⟨0, ⟨9, "pos", -1, false, 1, false, false⟩, ⟨9, "pos", -1, false, 2, false, false⟩, rfl, rfl, by decide⟩).1.2 (by decide),
   (interstage_member_mismatch_interpolation ⟨true, 440⟩ 1 "V" [⟨9, "pos", -1, false, 1, false, false⟩] 2 "V" [⟨9, "pos", -1, false, 2, false, false⟩] rfl
      (forall_index_singleton _ _ (by decide))
      ⟨0, ⟨9, "pos", -1, false, 1, false, false⟩, ⟨9, "pos", -1, false, 2, false, false⟩, rfl, rfl, by decide⟩).2.2 (by decide)⟩

/-- C3: for two member sequences of equal length that agree at every index on
type, name, location, patch, interpolation and sample and differ at some index
in centroid, `interstage_member_mismatch` returns false exactly when the
program is ES with version at least 310, and true otherwise. -/
theorem interstage_member_mismatch_centroid (prog : gl_shader_program)
    (ca : Nat) (cn : String) (cs : List glsl_struct_field)
    (pa : Nat) (pn : String) (ps : List glsl_struct_field)
    (hlen : cs.length = ps.length)
    (hagree : ∀ (i : Nat) (cf pf : glsl_struct_field), cs[i]? = some cf → ps[i]? = some pf →
      cf.type = pf.type ∧ cf.name = pf.name ∧ cf.location = pf.location
        ∧ cf.patch = pf.patch ∧ cf.interpolation = pf.interpolation ∧ cf.sample = pf.sample)
    (hdiff : ∃ (i : Nat) (cf pf : glsl_struct_field), cs[i]? = some cf ∧ ps[i]? = some pf
      ∧ cf.centroid ≠ pf.centroid) :
    (interstage_member_mismatch prog (.iface ca cn cs) (.iface pa pn ps) = false
        ↔ (prog.IsES = true ∧ 310 ≤ prog.Version))
    ∧ (interstage_member_mismatch prog (.iface ca cn cs) (.iface pa pn ps) = true
        ↔ ¬ (prog.IsES = true ∧ 310 ≤ prog.Version)) := by
  have key : interstage_member_mismatch prog (.iface ca cn cs) (.iface pa pn ps) = true
      ↔ ¬ (prog.IsES = true ∧ 310 ≤ prog.Version) := by
    rw [interstage_member_mismatch_eq_true_of_length_eq _ _ _ _ _ _ _ hlen]
    constructor
    · rintro ⟨i, cf, pf, h1, h2, h⟩ ⟨hE, hV⟩
      have := hagree i cf pf h1 h2
      have hV2 : ¬ prog.Version < 310 := by omega
      simp only [hE, Bool.true_eq_false, hV2, or_self, false_and] at h
      tauto
    · intro hn
      obtain ⟨i, cf, pf, h1, h2, h⟩ := hdiff
      refine ⟨i, cf, pf, h1, h2, ?_⟩
      have : prog.IsES = false ∨ prog.Version < 310 := by
        cases hE : prog.IsES
        · left; rfl
        · right
          by_contra hV
          exact hn ⟨hE, by omega⟩
      tauto
  refine ⟨?_, key⟩
  rw [← Bool.not_eq_true, key, not_not]

/-- Witness of C3: blocks whose only field differs in centroid mismatch on
ES 3.00 and on desktop 3.10-numbered programs, and match on ES 3.10. -/
theorem interstage_member_mismatch_centroid_witness :
    interstage_member_mismatch ⟨true, 300⟩
        (.iface 1 "V" [⟨9, "pos", -1, false, 1, true, false⟩])
        (.iface 2 "V" [⟨9, "pos", -1, false, 1, false, false⟩]) = true
    ∧ interstage_member_mismatch ⟨true, 310⟩
        (.iface 1 "V" [⟨9, "pos", -1, false, 1, true, false⟩])
        (.iface 2 "V" [⟨9, "pos", -1, false, 1, false, false⟩]) = false
    ∧ interstage_member_mismatch ⟨false, 310⟩
        (.iface 1 "V" [⟨9, "pos", -1, false, 1, true, false⟩])
        (.iface 2 "V" [⟨9, "pos", -1, false, 1, false, false⟩]) = true :=
  ⟨(interstage_member_mismatch_centroid ⟨true, 300⟩ 1 "V" [⟨9, "pos", -1, false, 1, true, false⟩] 2 "V" [⟨9, "pos", -1, false, 1, false, false⟩] rfl
      (forall_index_singleton _ _ (by decide))
      ⟨0, ⟨9, "pos", -1, false, 1, true, false⟩, ⟨9, "pos", -1, false, 1, false, false⟩, rfl, rfl, by decide⟩).2.2 (by decide),
   (interstage_member_mismatch_centroid ⟨true, 310⟩ 1 "V" [⟨9, "pos", -1, false, 1, true, false⟩] 2 "V" [⟨9, "pos", -1, false, 1, false, false⟩] rfl
      (forall_index_singleton _ _ (by decide))
      ⟨0, ⟨9, "pos", -1, false, 1, true, false⟩, ⟨9, "pos", -1, false, 1, false, false⟩, rfl, rfl, by decide⟩).1.2 (by decide),
   (interstage_member_mismatch_centroid ⟨false, 310⟩ 1 "V" [⟨9, "pos", -1, false, 1, true, false⟩] 2 "V" [⟨9, "pos", -1, false, 1, false, false⟩] rfl
      (forall_index_singleton _ _ (by decide))
      ⟨0, ⟨9, "pos", -1, false, 1, true, false⟩, ⟨9, "pos", -1, false, 1, false, false⟩, rfl, rfl, by decide⟩).2.2 (by decide)⟩

/-- For two member sequences of equal length that agree at every index on
every attribute but the sample flag and differ at some index in the sample
flag, the function returns true exactly on desktop programs. -/
theorem interstage_member_mismatch_sample_eq_true_iff (prog : gl_shader_program)
    (ca : Nat) (cn : String) (cs : List glsl_struct_field)
    (pa : Nat) (pn : String) (ps : List glsl_struct_field)
    (hlen : cs.length = ps.length)
    (hagree : ∀ (i : Nat) (cf pf : glsl_struct_field), cs[i]? = some cf → ps[i]? = some pf →
      cf.type = pf.type ∧ cf.name = pf.name ∧ cf.location = pf.location
        ∧ cf.patch = pf.patch ∧ cf.interpolation = pf.interpolation
        ∧ cf.centroid = pf.centroid)
    (hdiff : ∃ (i : Nat) (cf pf : glsl_struct_field), cs[i]? = some cf ∧ ps[i]? = some pf
      ∧ cf.sample ≠ pf.sample) :
    interstage_member_mismatch prog (.iface ca cn cs) (.iface pa pn ps) = true
      ↔ prog.IsES = false := by
  rw [interstage_member_mismatch_eq_true_of_length_eq _ _ _ _ _ _ _ hlen]
  constructor
  · rintro ⟨i, cf, pf, h1, h2, h⟩
    have := hagree i cf pf h1 h2
    tauto
  · intro hE
    obtain ⟨i, cf, pf, h1, h2, h⟩ := hdiff
    exact ⟨i, cf, pf, h1, h2, by tauto⟩

/-- C4: for two member sequences of equal length that agree at every index on
every attribute except that they differ at some index in the sample flag,
`interstage_member_mismatch` returns false for every ES program (any version)
and true for every desktop program (any version). -/
theorem interstage_member_mismatch_sample (prog : gl_shader_program)
    (ca : Nat) (cn : String) (cs : List glsl_struct_field)
    (pa : Nat) (pn : String) (ps : List glsl_struct_field)
    (hlen : cs.length = ps.length)
    (hagree : ∀ (i : Nat) (cf pf : glsl_struct_field), cs[i]? = some cf → ps[i]? = some pf →
      cf.type = pf.type ∧ cf.name = pf.name ∧ cf.location = pf.location
        ∧ cf.patch = pf.patch ∧ cf.interpolation = pf.interpolation
        ∧ cf.centroid = pf.centroid)
    (hdiff : ∃ (i : Nat) (cf pf : glsl_struct_field), cs[i]? = some cf ∧ ps[i]? = some pf
      ∧ cf.sample ≠ pf.sample) :
    (prog.IsES = true →
      interstage_member_mismatch prog (.iface ca cn cs) (.iface pa pn ps) = false)
    ∧ (prog.IsES = false →
      interstage_member_mismatch prog (.iface ca cn cs) (.iface pa pn ps) = true) := by
  have key := interstage_member_mismatch_sample_eq_true_iff prog ca cn cs pa pn ps
    hlen hagree hdiff
  constructor
  · intro hE
    rw [← Bool.not_eq_true, key, hE]
    decide
  · intro hE
    exact key.2 hE

/-- Witness of C4: blocks whose only field differs in the sample flag match on
ES 3.00 and mismatch on desktop 4.50. -/
theorem interstage_member_mismatch_sample_witness :
    interstage_member_mismatch ⟨true, 300⟩
        (.iface 1 "V" [⟨9, "pos", -1, false, 1, false, true⟩])
        (.iface 2 "V" [⟨9, "pos", -1, false, 1, false, false⟩]) = false
    ∧ interstage_member_mismatch ⟨false, 450⟩
        (.iface 1 "V" [⟨9, "pos", -1, false, 1, false, true⟩])
        (.iface 2 "V" [⟨9, "pos", -1, false, 1, false, false⟩]) = true :=
  ⟨(interstage_member_mismatch_sample ⟨true, 300⟩ 1 "V" [⟨9, "pos", -1, false, 1, false, true⟩] 2 "V" [⟨9, "pos", -1, false, 1, false, false⟩] rfl
      (forall_index_singleton _ _ (by decide))
      ⟨0, ⟨9, "pos", -1, false, 1, false, true⟩, ⟨9, "pos", -1, false, 1, false, false⟩, rfl, rfl, by decide⟩).1 rfl,
   (interstage_member_mismatch_sample ⟨false, 450⟩ 1 "V" [⟨9, "pos", -1, false, 1, false, true⟩] 2 "V" [⟨9, "pos", -1, false, 1, false, false⟩] rfl
      (forall_index_singleton _ _ (by decide))
      ⟨0, ⟨9, "pos", -1, false, 1, false, true⟩, ⟨9, "pos", -1, false, 1, false, false⟩, rfl, rfl, by decide⟩).2 rfl⟩

/-- C5, as stated, fails: two one-field blocks that differ only in the sample
flag mismatch on a desktop 4.50 program and match on an ES 3.20 program. -/
theorem interstage_member_mismatch_sample_desktop_counterexample :
    interstage_member_mismatch ⟨false, 450⟩
        (.iface 1 "V" [⟨9, "pos", -1, false, 1, false, true⟩])
        (.iface 2 "V" [⟨9, "pos", -1, false, 1, false, false⟩]) = true
    ∧ interstage_member_mismatch ⟨true, 320⟩
        (.iface 1 "V" [⟨9, "pos", -1, false, 1, false, true⟩])
        (.iface 2 "V" [⟨9, "pos", -1, false, 1, false, false⟩]) = false := by
  decide

/-- C5, amended: the sample flag must be equal unless the profile is ES: for
two member sequences of equal length that differ only in the sample flag at
some index, the verdict of `interstage_member_mismatch` is the negation of the
ES flag: mismatch on every desktop program, no mismatch on every ES
program. -/
theorem interstage_member_mismatch_sample_profile (prog : gl_shader_program)
    (ca : Nat) (cn : String) (cs : List glsl_struct_field)
    (pa : Nat) (pn : String) (ps : List glsl_struct_field)
    (hlen : cs.length = ps.length)
    (hagree : ∀ (i : Nat) (cf pf : glsl_struct_field), cs[i]? = some cf → ps[i]? = some pf →
      cf.type = pf.type ∧ cf.name = pf.name ∧ cf.location = pf.location
        ∧ cf.patch = pf.patch ∧ cf.interpolation = pf.interpolation
        ∧ cf.centroid = pf.centroid)
    (hdiff : ∃ (i : Nat) (cf pf : glsl_struct_field), cs[i]? = some cf ∧ ps[i]? = some pf
      ∧ cf.sample ≠ pf.sample) :
    interstage_member_mismatch prog (.iface ca cn cs) (.iface pa pn ps) = !prog.IsES := by
  have key := interstage_member_mismatch_sample_eq_true_iff prog ca cn cs pa pn ps
    hlen hagree hdiff
  cases hE : prog.IsES
  · simpa using key.2 hE
  · have hne : ¬ interstage_member_mismatch prog (.iface ca cn cs) (.iface pa pn ps) = true := by
      rw [key, hE]
      decide
    simpa using hne

/-- Witness of C5 amended, at a desktop 1.50 program. -/
theorem interstage_member_mismatch_sample_profile_witness :
    interstage_member_mismatch ⟨false, 150⟩
        (.iface 1 "V" [⟨9, "pos", -1, false, 1, false, false⟩, ⟨8, "w", 3, true, 0, true, false⟩])
        (.iface 2 "W" [⟨9, "pos", -1, false, 1, false, true⟩, ⟨8, "w", 3, true, 0, true, false⟩])
      = !(false : Bool) :=
  interstage_member_mismatch_sample_profile ⟨false, 150⟩
    1 "V" [⟨9, "pos", -1, false, 1, false, false⟩, ⟨8, "w", 3, true, 0, true, false⟩]
    2 "W" [⟨9, "pos", -1, false, 1, false, true⟩, ⟨8, "w", 3, true, 0, true, false⟩] rfl
    (by
      intro i cf pf h1 h2
      match i with
      | 0 =>
        simp only [List.getElem?_cons_zero, Option.some.injEq] at h1 h2
        subst h1 h2
        decide
      | 1 =>
        simp only [List.getElem?_cons_succ, List.getElem?_cons_zero, Option.some.injEq] at h1 h2
        subst h1 h2
        decide
      | i + 2 => simp at h1)
    ⟨0, ⟨9, "pos", -1, false, 1, false, false⟩, ⟨9, "pos", -1, false, 1, false, true⟩,
      rfl, rfl, by decide⟩

/-! ## Properties of `intrastage_match` -/

/-- The verdict of `intrastage_match`, as a conjunction of its four rules. -/
theorem intrastage_match_verdict {σ : Type}
    (R : σ → ir_variable → ir_variable → Bool × σ × ir_variable) (a b : ir_variable) (prog : σ) :
    (intrastage_match R a b prog).1 = true ↔
      (a.get_interface_type.map glsl_type.addr = b.get_interface_type.map glsl_type.addr
        ∨ (a.data.how_declared = ir_var_declared_implicitly
            ∧ b.data.how_declared = ir_var_declared_implicitly))
      ∧ a.is_interface_instance = b.is_interface_instance
      ∧ (a.is_interface_instance = false ∨ b.data.mode = ir_var_uniform
          ∨ b.data.mode = ir_var_shader_storage ∨ a.name = b.name)
      ∧ (a.type.addr = b.type.addr
          ∨ (a.is_interface_instance = false ∧ b.is_interface_instance = false)
          ∨ (R prog b a).1 = true) := by
  have h4c : (a.type.addr = b.type.addr) = (b.type.addr = a.type.addr) := propext eq_comm
  unfold intrastage_match glsl_type_ptr_eq
  simp only [h4c]
  by_cases h1 : a.get_interface_type.map glsl_type.addr
      = b.get_interface_type.map glsl_type.addr
  <;> by_cases h1a : a.data.how_declared = ir_var_declared_implicitly
  <;> by_cases h1b : b.data.how_declared = ir_var_declared_implicitly
  <;> by_cases h3u : b.data.mode = ir_var_uniform
  <;> by_cases h3s : b.data.mode = ir_var_shader_storage
  <;> by_cases h3n : a.name = b.name
  <;> by_cases h4 : b.type.addr = a.type.addr
  <;> cases ha : a.is_interface_instance
  <;> cases hb : b.is_interface_instance
  <;> simp [h1, h1a, h1b, h3u, h3s, h3n, h4, ha, hb]

/-- C6: with the array-size reconciliation collaborator as a parameter `R`,
`intrastage_match a b` returns true if and only if (1) the interface types are
identical or both variables are implicitly declared, (2) `a` and `b` agree on
being an interface instance, (3) `a` is not an instance, or the mode of `b` is
uniform or shader-storage, or the names are equal, and (4) the raw types are
identical, or neither is an instance, or `R b a` accepts.  `R` is consulted
only when (1)-(3) hold, the raw types differ and one side is an instance: then
the verdict, the state left and the first interface as updated are those of
`R`; otherwise the state and the first interface are left as they were. -/
theorem intrastage_match_iff {σ : Type}
    (R : σ → ir_variable → ir_variable → Bool × σ × ir_variable) (a b : ir_variable) (prog : σ) :
    ((intrastage_match R a b prog).1 = true ↔
      (a.get_interface_type.map glsl_type.addr = b.get_interface_type.map glsl_type.addr
        ∨ (a.data.how_declared = ir_var_declared_implicitly
            ∧ b.data.how_declared = ir_var_declared_implicitly))
      ∧ a.is_interface_instance = b.is_interface_instance
      ∧ (a.is_interface_instance = false ∨ b.data.mode = ir_var_uniform
          ∨ b.data.mode = ir_var_shader_storage ∨ a.name = b.name)
      ∧ (a.type.addr = b.type.addr
          ∨ (a.is_interface_instance = false ∧ b.is_interface_instance = false)
          ∨ (R prog b a).1 = true))
    ∧ (((a.get_interface_type.map glsl_type.addr = b.get_interface_type.map glsl_type.addr
          ∨ (a.data.how_declared = ir_var_declared_implicitly
              ∧ b.data.how_declared = ir_var_declared_implicitly))
        ∧ a.is_interface_instance = b.is_interface_instance
        ∧ (a.is_interface_instance = false ∨ b.data.mode = ir_var_uniform
            ∨ b.data.mode = ir_var_shader_storage ∨ a.name = b.name)
        ∧ a.type.addr ≠ b.type.addr
        ∧ (a.is_interface_instance = true ∨ b.is_interface_instance = true)) →
      intrastage_match R a b prog = R prog b a)
    ∧ (¬ ((a.get_interface_type.map glsl_type.addr = b.get_interface_type.map glsl_type.addr
          ∨ (a.data.how_declared = ir_var_declared_implicitly
              ∧ b.data.how_declared = ir_var_declared_implicitly))
        ∧ a.is_interface_instance = b.is_interface_instance
        ∧ (a.is_interface_instance = false ∨ b.data.mode = ir_var_uniform
            ∨ b.data.mode = ir_var_shader_storage ∨ a.name = b.name)
        ∧ a.type.addr ≠ b.type.addr
        ∧ (a.is_interface_instance = true ∨ b.is_interface_instance = true)) →
      (intrastage_match R a b prog).2 = (prog, a)) := by
  refine ⟨intrastage_match_verdict R a b prog, ?_, ?_⟩
  · rintro ⟨h1, h2, h3, h4, h5⟩
    have h4c : (b.type.addr != a.type.addr) = true := by
      simpa using fun h => h4 h.symm
    have h5c : (b.is_interface_instance || a.is_interface_instance) = true := by
      rcases h5 with h5 | h5 <;> simp [h5]
    have h1c : glsl_type_ptr_eq a.get_interface_type b.get_interface_type = true
        ∨ (a.data.how_declared = ir_var_declared_implicitly
            ∧ b.data.how_declared = ir_var_declared_implicitly) := by
      rcases h1 with h1 | h1
      · left
        simpa [glsl_type_ptr_eq] using h1
      · right
        exact h1
    unfold intrastage_match
    rw [if_neg, if_neg, if_neg, if_pos]
    · simp [h4c, h5c]
    · rcases h3 with h3 | h3 | h3 | h3 <;> simp [h3]
    · simp [h2]
    · rcases h1c with h1c | ⟨ha, hb⟩
      · simp [h1c]
      · simp [ha, hb]
  · intro hn
    unfold intrastage_match
    split_ifs with c1 c2 c3 c4
    · rfl
    · rfl
    · rfl
    · exfalso
      apply hn
      simp only [Bool.and_eq_true, Bool.or_eq_true, Bool.not_eq_true', bne_iff_ne, ne_eq,
        not_and, not_or, Decidable.not_not, glsl_type_ptr_eq, beq_eq_false_iff_ne] at c1 c2 c3 c4
      refine ⟨?_, c2, ?_, fun h => c4.1 h.symm, c4.2.symm⟩
      · by_cases h : a.get_interface_type.map glsl_type.addr
            = b.get_interface_type.map glsl_type.addr
        · exact Or.inl h
        · exact Or.inr (c1 h)
      · cases ha : a.is_interface_instance
        · exact Or.inl rfl
        · by_cases hu : b.data.mode = ir_var_uniform
          · exact Or.inr (Or.inl hu)
          · by_cases hs : b.data.mode = ir_var_shader_storage
            · exact Or.inr (Or.inr (Or.inl hs))
            · exact Or.inr (Or.inr (Or.inr (c3 ⟨⟨ha, hu⟩, hs⟩)))
    · rfl

/-- C7, as stated, fails: two implicitly declared variables of the implicit
block `gl_PerVertex`, with different interface types, of which only the first
is a block instance, do not match, even when the array reconciliation accepts
every pair. -/
theorem intrastage_match_implicit_counterexample :
    (some (glsl_type.iface 1 "gl_PerVertex" [⟨9, "gl_Position", -1, false, 0, false, false⟩])).map
        glsl_type.addr
      ≠ (some (glsl_type.iface 2 "gl_PerVertex"
          [⟨9, "gl_Position", -1, false, 0, false, false⟩,
           ⟨8, "gl_PointSize", -1, false, 0, false, false⟩])).map glsl_type.addr
    ∧ (intrastage_match (fun (s : Unit) _ existing => (true, s, existing))
        { name := "gl_in"
          type := .array 3 "gl_PerVertex[]"
            (.iface 1 "gl_PerVertex" [⟨9, "gl_Position", -1, false, 0, false, false⟩]) 0
          interface_type :=
            some (.iface 1 "gl_PerVertex" [⟨9, "gl_Position", -1, false, 0, false, false⟩])
          data := ⟨ir_var_shader_in, ir_var_declared_implicitly, false, 0⟩
          is_interface_instance := true }
        { name := "gl_Position"
          type := .basic 9 "vec4"
          interface_type :=
            some (.iface 2 "gl_PerVertex"
              [⟨9, "gl_Position", -1, false, 0, false, false⟩,
               ⟨8, "gl_PointSize", -1, false, 0, false, false⟩])
          data := ⟨ir_var_shader_in, ir_var_declared_implicitly, false, 0⟩
          is_interface_instance := false }
        ()).1 = false := by
  decide

/-- C7, amended: for two variables with different interface type identity that
are both declared implicitly, `intrastage_match` skips the type check only: it
returns true exactly when the two agree on being an interface instance, the
instance names agree (unless `a` is not an instance or the mode of `b` is
uniform or shader-storage), and the raw types are identical, or neither is an
instance, or the array reconciliation `R b a` accepts; the member shapes of the
two interface types play no part. -/
theorem intrastage_match_implicit {σ : Type}
    (R : σ → ir_variable → ir_variable → Bool × σ × ir_variable) (a b : ir_variable) (prog : σ)
    (_hne : a.get_interface_type.map glsl_type.addr ≠ b.get_interface_type.map glsl_type.addr)
    (ha : a.data.how_declared = ir_var_declared_implicitly)
    (hb : b.data.how_declared = ir_var_declared_implicitly) :
    (intrastage_match R a b prog).1 = true ↔
      a.is_interface_instance = b.is_interface_instance
      ∧ (a.is_interface_instance = false ∨ b.data.mode = ir_var_uniform
          ∨ b.data.mode = ir_var_shader_storage ∨ a.name = b.name)
      ∧ (a.type.addr = b.type.addr
          ∨ (a.is_interface_instance = false ∧ b.is_interface_instance = false)
          ∨ (R prog b a).1 = true) := by
  rw [intrastage_match_verdict R a b prog]
  constructor
  · rintro ⟨-, h2⟩
    exact h2
  · intro h2
    exact ⟨Or.inr ⟨ha, hb⟩, h2⟩

/-- Witness of C7 amended: the implicit output `gl_Position` of two compilation
units whose `gl_PerVertex` blocks have different members matches, without the
array reconciliation being asked. -/
theorem intrastage_match_implicit_witness :
    (intrastage_match (fun (s : Unit) _ existing => (false, s, existing))
        { name := "gl_Position"
          type := .basic 9 "vec4"
          interface_type :=
            some (.iface 1 "gl_PerVertex" [⟨9, "gl_Position", -1, false, 0, false, false⟩])
          data := ⟨ir_var_shader_out, ir_var_declared_implicitly, false, 0⟩
          is_interface_instance := false }
        { name := "gl_Position"
          type := .basic 9 "vec4"
          interface_type :=
            some (.iface 2 "gl_PerVertex"
              [⟨9, "gl_Position", -1, false, 0, false, false⟩,
               ⟨8, "gl_PointSize", -1, false, 0, false, false⟩])
          data := ⟨ir_var_shader_out, ir_var_declared_implicitly, false, 0⟩
          is_interface_instance := false }
        ()).1 = true :=
  (intrastage_match_implicit (fun (s : Unit) _ existing => (false, s, existing)) _ _ ()
    (by decide) rfl rfl).2 ⟨rfl, Or.inl rfl, Or.inl rfl⟩

/-! ## Properties of `interstage_match` -/

/-- The array check of `interstage_match` passes exactly when the consumer's
instance type exists and either neither side is an instance array or the two
types are identical. -/
theorem interstage_match_arrays_eq_some_true_iff (producer consumer : ir_variable)
    (extra_array_level : Bool) :
    interstage_match_arrays producer consumer extra_array_level = some true ↔
      ∃ E : glsl_type,
        ((extra_array_level = true ∧ consumer.type.fields_array = some E)
          ∨ (extra_array_level = false ∧ E = consumer.type))
        ∧ ((¬ (consumer.is_interface_instance = true ∧ E.is_array = true)
            ∧ ¬ (producer.is_interface_instance = true ∧ producer.type.is_array = true))
          ∨ E.addr = producer.type.addr) := by
  unfold interstage_match_arrays interstage_match_consumer_instance_type
  cases extra_array_level
  · simp only [Bool.false_eq_true, if_false, false_and, true_and, false_or, exists_eq_left]
    by_cases hE : consumer.type.addr = producer.type.addr
    · simp [hE]
    · cases hc : consumer.is_interface_instance <;> cases hp : producer.is_interface_instance
        <;> cases hca : consumer.type.is_array <;> cases hpa : producer.type.is_array
        <;> simp [hE]
  · simp only [if_true, true_and, Bool.true_eq_false, false_and, or_false]
    cases hf : consumer.type.fields_array with
    | none => simp
    | some E =>
      simp only [Option.some.injEq, exists_eq_left']
      by_cases hE : E.addr = producer.type.addr
      · simp [hE]
      · cases hc : consumer.is_interface_instance <;> cases hp : producer.is_interface_instance
          <;> cases hca : E.is_array <;> cases hpa : producer.type.is_array
          <;> simp [hE]

/-- The array check of `interstage_match` gives a verdict whenever the
consumer's instance type exists. -/
theorem interstage_match_arrays_isSome (producer consumer : ir_variable)
    (extra_array_level : Bool)
    (h : extra_array_level = true → consumer.type.is_array = true) :
    (interstage_match_arrays producer consumer extra_array_level).isSome = true := by
  unfold interstage_match_arrays interstage_match_consumer_instance_type
  cases extra_array_level
  · simp only [Bool.false_eq_true, if_false]
    split_ifs <;> rfl
  · have ha := h rfl
    cases ht : consumer.type with
    | basic a n => simp [ht, glsl_type.is_array] at ha
    | iface a n fs => simp [ht, glsl_type.is_array] at ha
    | array a n e l =>
      simp only [if_true, glsl_type.fields_array]
      split_ifs <;> rfl

/-- C8: `interstage_match` returns true if and only if (1) the two interface
types are identical, or both variables are implicitly declared, or
`interstage_member_mismatch` on the consumer's and the producer's interface
types is false, and (2) writing `E` for the consumer's declared type with one
array dimension stripped when `extra_array_level` is true (the declared type
itself otherwise), either neither "consumer is an instance and `E` is an array"
nor "producer is an instance and its type is an array" holds, or `E` is
identical to the producer's type.  The function gives a verdict whenever both
variables have an interface type and, under `extra_array_level`, the
consumer's declared type is an array. -/
theorem interstage_match_iff (prog : gl_shader_program) (producer consumer : ir_variable)
    (extra_array_level : Bool) :
    (interstage_match prog producer consumer extra_array_level = some true ↔
      (consumer.get_interface_type.map glsl_type.addr
          = producer.get_interface_type.map glsl_type.addr
        ∨ (consumer.data.how_declared = ir_var_declared_implicitly
            ∧ producer.data.how_declared = ir_var_declared_implicitly)
        ∨ ∃ c p : glsl_type, consumer.get_interface_type = some c
            ∧ producer.get_interface_type = some p
            ∧ interstage_member_mismatch prog c p = false)
      ∧ ∃ E : glsl_type,
          ((extra_array_level = true ∧ consumer.type.fields_array = some E)
            ∨ (extra_array_level = false ∧ E = consumer.type))
          ∧ ((¬ (consumer.is_interface_instance = true ∧ E.is_array = true)
              ∧ ¬ (producer.is_interface_instance = true ∧ producer.type.is_array = true))
            ∨ E.addr = producer.type.addr))
    ∧ ((∃ c : glsl_type, consumer.get_interface_type = some c) →
        (∃ p : glsl_type, producer.get_interface_type = some p) →
        (extra_array_level = true → consumer.type.is_array = true) →
        (interstage_match prog producer consumer extra_array_level).isSome = true) := by
  constructor
  · rw [← interstage_match_arrays_eq_some_true_iff]
    unfold interstage_match glsl_type_ptr_eq
    by_cases h1 : consumer.get_interface_type.map glsl_type.addr
        = producer.get_interface_type.map glsl_type.addr
    · simp [h1]
    · by_cases h2 : consumer.data.how_declared = ir_var_declared_implicitly
          ∧ producer.data.how_declared = ir_var_declared_implicitly
      · simp [h2.1, h2.2]
      · have hc : (!(consumer.get_interface_type.map glsl_type.addr
            == producer.get_interface_type.map glsl_type.addr)
            && (consumer.data.how_declared != ir_var_declared_implicitly
              || producer.data.how_declared != ir_var_declared_implicitly)) = true := by
          by_cases h3 : consumer.data.how_declared = ir_var_declared_implicitly
          · have h4 : ¬ producer.data.how_declared = ir_var_declared_implicitly :=
              fun h => h2 ⟨h3, h⟩
            simp [h1, h3, h4]
          · simp [h1, h3]
        rw [if_pos hc]
        cases hci : consumer.get_interface_type with
        | none =>
          simp only [hci, Option.map_none'] at h1
          simp [h1, h2]
        | some c =>
          cases hpi : producer.get_interface_type with
          | none => simp [h2]
          | some p =>
            simp only [hci, hpi, Option.map_some', Option.some.injEq] at h1
            cases hm : interstage_member_mismatch prog c p <;> simp [h1, h2, hm]
  · rintro ⟨c, hc⟩ ⟨p, hp⟩ hE
    unfold interstage_match
    rw [hc, hp]
    have ha := interstage_match_arrays_isSome producer consumer extra_array_level hE
    split_ifs
    · simp only
      split_ifs
      · rfl
      · exact ha
    · exact ha

/-- C9: when the consumer is declared as the array `T[n]`, the producer as
plain `T`, and both have the same interface type, `interstage_match` with
`extra_array_level` set returns true (whether or not `T` is itself an
array). -/
theorem interstage_match_extra_array_level (prog : gl_shader_program)
    (producer consumer : ir_variable) (T : glsl_type) (addr : Nat) (name : String) (n : Nat)
    (hc : consumer.type = .array addr name T n)
    (hp : producer.type = T)
    (hi : consumer.get_interface_type.map glsl_type.addr
      = producer.get_interface_type.map glsl_type.addr) :
    interstage_match prog producer consumer true = some true := by
  unfold interstage_match glsl_type_ptr_eq
  simp only [hi, beq_self_eq_true, Bool.not_true, Bool.false_and, Bool.false_eq_true, if_false]
  unfold interstage_match_arrays interstage_match_consumer_instance_type
  simp [hc, hp, glsl_type.fields_array]

/-- Witness of C9: a consumer instance `blk` declared `Block[4]` against a
producer instance declared `Block`, on a desktop 4.50 program. -/
theorem interstage_match_extra_array_level_witness :
    interstage_match ⟨false, 450⟩
      { name := "blk"
        type := .iface 1 "Block" [⟨9, "pos", -1, false, 0, false, false⟩]
        interface_type := some (.iface 1 "Block" [⟨9, "pos", -1, false, 0, false, false⟩])
        data := ⟨ir_var_shader_out, ir_var_declared_normally, false, 0⟩
        is_interface_instance := true }
      { name := "blk"
        type := .array 5 "Block[4]"
          (.iface 1 "Block" [⟨9, "pos", -1, false, 0, false, false⟩]) 4
        interface_type := some (.iface 1 "Block" [⟨9, "pos", -1, false, 0, false, false⟩])
        data := ⟨ir_var_shader_in, ir_var_declared_normally, false, 0⟩
        is_interface_instance := true }
      true = some true :=
  interstage_match_extra_array_level ⟨false, 450⟩ _ _
    (.iface 1 "Block" [⟨9, "pos", -1, false, 0, false, false⟩]) 5 "Block[4]" 4 rfl rfl rfl

/-! ## Properties of `interface_block_definitions` -/

/-- The buffer of 11 bytes holds the whole decimal form of every non-negative
`int`: nothing is cut. -/
theorem snprintf_d_eq_toString (v : Int) (h0 : 0 ≤ v) (h : v ≤ 2147483647) :
    snprintf_d 11 v = toString v := by
  obtain ⟨n, rfl⟩ := Int.eq_ofNat_of_zero_le h0
  have hn : n < 10 ^ 10 := by
    have : (n : Int) ≤ 2147483647 := h
    omega
  have hlen : (Nat.repr n).length ≤ 10 := Nat.repr_length n 10 (by decide) hn
  have hs : toString ((n : Nat) : Int) = Nat.repr n := rfl
  unfold snprintf_d
  rw [hs]
  have hd : (Nat.repr n).data.length ≤ 11 - 1 := hlen
  rw [List.take_of_length_le hd]

/-- Searching a one-entry table. -/
theorem _mesa_hash_table_search_insert_nil (k key : String) (v : ir_variable) :
    _mesa_hash_table_search (_mesa_hash_table_insert [] k v) key
      = if key = k then some v else none := by
  simp only [_mesa_hash_table_insert, _mesa_hash_table_search]
  by_cases h : k = key
  · simp [h]
  · have h2 : ¬ key = k := fun e => h e.symm
    simp [h, h2]

/-- The key under which `store` inserts and `lookup` searches is the key of the
specification, for every variable that has an interface type and whose
location is an `int`. -/
theorem store_lookup_after_empty (VARYING_SLOT_VAR0 : Nat) (v w : ir_variable)
    (tv tw : glsl_type)
    (hv : v.get_interface_type = some tv) (hw : w.get_interface_type = some tw)
    (hvl : v.data.location ≤ 2147483647) (hwl : w.data.location ≤ 2147483647) :
    (interface_block_definitions.empty.store VARYING_SLOT_VAR0 v).bind
        (fun defs => defs.lookup VARYING_SLOT_VAR0 w)
      = some (if spec_registry_key VARYING_SLOT_VAR0 w tw
                = spec_registry_key VARYING_SLOT_VAR0 v tv then some v else none) := by
  unfold interface_block_definitions.store interface_block_definitions.lookup
    interface_block_definitions.empty spec_registry_key
  rw [hv, hw]
  by_cases h1 : v.data.explicit_location = true ∧ (VARYING_SLOT_VAR0 : Int) ≤ v.data.location
  · have e1 := snprintf_d_eq_toString v.data.location (by omega) hvl
    by_cases h2 : w.data.explicit_location = true ∧ (VARYING_SLOT_VAR0 : Int) ≤ w.data.location
    · have e2 := snprintf_d_eq_toString w.data.location (by omega) hwl
      simp [h1, h2, e1, e2, _mesa_hash_table_search_insert_nil]
    · simp [h1, h2, e1, _mesa_hash_table_search_insert_nil]
  · by_cases h2 : w.data.explicit_location = true ∧ (VARYING_SLOT_VAR0 : Int) ≤ w.data.location
    · have e2 := snprintf_d_eq_toString w.data.location (by omega) hwl
      simp [h1, h2, e2, _mesa_hash_table_search_insert_nil]
    · simp [h1, h2, _mesa_hash_table_search_insert_nil]

/-- C10: with `key v` the decimal string of the location when `v` has an
explicit location at or above `VARYING_SLOT_VAR0`, and the name of the
array-stripped interface type otherwise: after `store v` on an empty registry,
`lookup w` returns `v` if `key w = key v` and nothing otherwise.  In
particular `lookup v` returns `v`; two blocks pinned to the same explicit
user-range location find each other whatever their names; and a variable
whose location is below `VARYING_SLOT_VAR0` is found by a variable without
explicit location exactly when the names of their array-stripped interface
types are equal. -/
theorem registry_key_derivation (VARYING_SLOT_VAR0 : Nat) (v w : ir_variable)
    (tv tw : glsl_type)
    (hv : v.get_interface_type = some tv) (hw : w.get_interface_type = some tw)
    (hvl : v.data.location ≤ 2147483647) (hwl : w.data.location ≤ 2147483647) :
    ((interface_block_definitions.empty.store VARYING_SLOT_VAR0 v).bind
        (fun defs => defs.lookup VARYING_SLOT_VAR0 w)
      = some (if spec_registry_key VARYING_SLOT_VAR0 w tw
                = spec_registry_key VARYING_SLOT_VAR0 v tv then some v else none))
    ∧ ((interface_block_definitions.empty.store VARYING_SLOT_VAR0 v).bind
        (fun defs => defs.lookup VARYING_SLOT_VAR0 v) = some (some v))
    ∧ (v.data.explicit_location = true → w.data.explicit_location = true →
        (VARYING_SLOT_VAR0 : Int) ≤ v.data.location → w.data.location = v.data.location →
        (interface_block_definitions.empty.store VARYING_SLOT_VAR0 v).bind
          (fun defs => defs.lookup VARYING_SLOT_VAR0 w) = some (some v))
    ∧ (v.data.location < (VARYING_SLOT_VAR0 : Int) → w.data.explicit_location = false →
        (interface_block_definitions.empty.store VARYING_SLOT_VAR0 v).bind
          (fun defs => defs.lookup VARYING_SLOT_VAR0 w)
        = some (if tw.without_array.name = tv.without_array.name then some v else none)) := by
  have hvw := store_lookup_after_empty VARYING_SLOT_VAR0 v w tv tw hv hw hvl hwl
  have hvv := store_lookup_after_empty VARYING_SLOT_VAR0 v v tv tv hv hv hvl hvl
  refine ⟨hvw, ?_, ?_, ?_⟩
  · rw [hvv, if_pos rfl]
  · intro h1 h2 h3 h4
    rw [hvw]
    have hk : spec_registry_key VARYING_SLOT_VAR0 w tw
        = spec_registry_key VARYING_SLOT_VAR0 v tv := by
      unfold spec_registry_key
      rw [if_pos ⟨h2, by omega⟩, if_pos ⟨h1, h3⟩, h4]
    rw [if_pos hk]
  · intro h1 h2
    rw [hvw]
    unfold spec_registry_key
    have n1 : ¬ (v.data.explicit_location = true
        ∧ (VARYING_SLOT_VAR0 : Int) ≤ v.data.location) := by
      rintro ⟨-, h⟩
      omega
    have n2 : ¬ (w.data.explicit_location = true
        ∧ (VARYING_SLOT_VAR0 : Int) ≤ w.data.location) := by
      rintro ⟨h, -⟩
      rw [h2] at h
      exact Bool.false_ne_true h
    rw [if_neg n1, if_neg n2]

/-- Witness of C10, with 32 for `VARYING_SLOT_VAR0`: after storing the block
`A` pinned to location 40, a lookup of the block `B` pinned to location 40
returns the stored variable. -/
theorem registry_key_derivation_witness :
    (interface_block_definitions.empty.store 32
        { name := "a"
          type := .iface 1 "A" [⟨9, "pos", -1, false, 0, false, false⟩]
          interface_type := some (.iface 1 "A" [⟨9, "pos", -1, false, 0, false, false⟩])
          data := ⟨ir_var_shader_in, ir_var_declared_normally, true, 40⟩
          is_interface_instance := true }).bind
      (fun defs => defs.lookup 32
        { name := "b"
          type := .iface 2 "B" [⟨9, "pos", -1, false, 0, false, false⟩]
          interface_type := some (.iface 2 "B" [⟨9, "pos", -1, false, 0, false, false⟩])
          data := ⟨ir_var_shader_out, ir_var_declared_normally, true, 40⟩
          is_interface_instance := true })
    = some (some
        { name := "a"
          type := .iface 1 "A" [⟨9, "pos", -1, false, 0, false, false⟩]
          interface_type := some (.iface 1 "A" [⟨9, "pos", -1, false, 0, false, false⟩])
          data := ⟨ir_var_shader_in, ir_var_declared_normally, true, 40⟩
          is_interface_instance := true }) :=
  (registry_key_derivation 32
    { name := "a"
      type := .iface 1 "A" [⟨9, "pos", -1, false, 0, false, false⟩]
      interface_type := some (.iface 1 "A" [⟨9, "pos", -1, false, 0, false, false⟩])
      data := ⟨ir_var_shader_in, ir_var_declared_normally, true, 40⟩
      is_interface_instance := true }
    { name := "b"
      type := .iface 2 "B" [⟨9, "pos", -1, false, 0, false, false⟩]
      interface_type := some (.iface 2 "B" [⟨9, "pos", -1, false, 0, false, false⟩])
      data := ⟨ir_var_shader_out, ir_var_declared_normally, true, 40⟩
      is_interface_instance := true }
    (.iface 1 "A" [⟨9, "pos", -1, false, 0, false, false⟩])
    (.iface 2 "B" [⟨9, "pos", -1, false, 0, false, false⟩])
    rfl rfl (by decide) (by decide)).2.2.1 rfl rfl (by decide) rfl

/-! ## Lemmas on the registry, the loops and the scans of the validators -/

/-- A search after an insertion finds what the table held under the searched
key, and the inserted data only when the table held nothing under it. -/
theorem _mesa_hash_table_search_insert (ht : hash_table) (k key : String) (v : ir_variable) :
    _mesa_hash_table_search (_mesa_hash_table_insert ht k v) key
      = (_mesa_hash_table_search ht key).or (if k = key then some v else none) := by
  induction ht with
  | nil => simp [_mesa_hash_table_insert, _mesa_hash_table_search]
  | cons e ht ih =>
    obtain ⟨k0, d0⟩ := e
    by_cases h0 : k0 = k
    · subst h0
      by_cases h1 : k0 = key
      · simp [_mesa_hash_table_insert, _mesa_hash_table_search, h1]
      · simp [_mesa_hash_table_insert, _mesa_hash_table_search, h1]
    · by_cases h1 : k0 = key
      · subst h1
        simp [_mesa_hash_table_insert, _mesa_hash_table_search, h0]
      · simp [_mesa_hash_table_insert, _mesa_hash_table_search, h0, h1, ih]

/-- The method `lookup` searches the table for the registry key of the variable. -/
theorem lookup_eq_registry_key (VARYING_SLOT_VAR0 : Nat) (d : interface_block_definitions)
    (var : ir_variable) :
    d.lookup VARYING_SLOT_VAR0 var
      = (registry_key VARYING_SLOT_VAR0 var).map (_mesa_hash_table_search d.ht) := by
  unfold interface_block_definitions.lookup registry_key
  split_ifs
  · rfl
  · cases var.get_interface_type <;> rfl

/-- The method `store` inserts the variable under its registry key. -/
theorem store_eq_registry_key (VARYING_SLOT_VAR0 : Nat) (d : interface_block_definitions)
    (var : ir_variable) :
    d.store VARYING_SLOT_VAR0 var
      = (registry_key VARYING_SLOT_VAR0 var).map
          (fun key => ⟨_mesa_hash_table_insert d.ht key var⟩) := by
  unfold interface_block_definitions.store registry_key
  split_ifs
  · rfl
  · cases var.get_interface_type <;> rfl

/-- The empty registry holds the empty list of variables. -/
theorem registry_holds_empty (VARYING_SLOT_VAR0 : Nat) :
    registry_holds VARYING_SLOT_VAR0 interface_block_definitions.empty [] := by
  intro key
  rfl

/-- In a registry that holds `stored`, a lookup returns the first variable of
`stored` that has the key of the variable looked up. -/
theorem registry_holds_lookup (VARYING_SLOT_VAR0 : Nat) (d : interface_block_definitions)
    (stored : List ir_variable) (var : ir_variable) (key : String)
    (h : registry_holds VARYING_SLOT_VAR0 d stored)
    (hk : registry_key VARYING_SLOT_VAR0 var = some key) :
    d.lookup VARYING_SLOT_VAR0 var
      = some (stored.find? (fun u => registry_key VARYING_SLOT_VAR0 u
          == registry_key VARYING_SLOT_VAR0 var)) := by
  rw [lookup_eq_registry_key, hk, Option.map_some', h key]

/-- Storing a variable in a registry that holds `stored` succeeds and gives a
registry that holds `stored` followed by the variable. -/
theorem registry_holds_store (VARYING_SLOT_VAR0 : Nat) (d : interface_block_definitions)
    (stored : List ir_variable) (var : ir_variable) (key : String)
    (h : registry_holds VARYING_SLOT_VAR0 d stored)
    (hk : registry_key VARYING_SLOT_VAR0 var = some key) :
    ∃ d', d.store VARYING_SLOT_VAR0 var = some d'
      ∧ registry_holds VARYING_SLOT_VAR0 d' (stored ++ [var]) := by
  refine ⟨⟨_mesa_hash_table_insert d.ht key var⟩, ?_, ?_⟩
  · rw [store_eq_registry_key, hk, Option.map_some']
  · intro key'
    simp only [_mesa_hash_table_search_insert, h key', List.find?_append]
    congr 1
    by_cases h2 : key = key'
    · simp [List.find?_cons, hk, h2]
    · simp [List.find?_cons, hk, h2]

/-- A registry that holds `stored` also holds `stored` followed by a variable
whose key is already taken. -/
theorem registry_holds_hit (VARYING_SLOT_VAR0 : Nat) (d : interface_block_definitions)
    (stored : List ir_variable) (var u : ir_variable)
    (h : registry_holds VARYING_SLOT_VAR0 d stored)
    (hu : stored.find? (fun u => registry_key VARYING_SLOT_VAR0 u
          == registry_key VARYING_SLOT_VAR0 var) = some u) :
    registry_holds VARYING_SLOT_VAR0 d (stored ++ [var]) := by
  intro key'
  rw [h key', List.find?_append]
  cases hf : stored.find? (fun u => registry_key VARYING_SLOT_VAR0 u == some key') with
  | some x => rfl
  | none =>
    simp only [Option.none_or, List.find?_cons, List.find?_nil]
    by_cases hv : registry_key VARYING_SLOT_VAR0 var = some key'
    · rw [hv] at hu
      rw [hu] at hf
      exact absurd hf (by simp)
    · have hb : (registry_key VARYING_SLOT_VAR0 var == some key') = false :=
        beq_false_of_ne hv
      rw [hb]

/-- A loop over two lists in a row runs the second when the first falls through. -/
theorem foreach_in_list_append {α β σ : Type} (body : β → α → σ → loop_step α σ)
    (l₁ l₂ : List β) (st : α) (prog : σ) :
    foreach_in_list body (l₁ ++ l₂) st prog =
      match foreach_in_list body l₁ st prog with
      | .next st' prog' => foreach_in_list body l₂ st' prog'
      | .ret prog' => .ret prog'
      | .abort => .abort := by
  induction l₁ generalizing st prog with
  | nil => rfl
  | cons b l₁ ih =>
    simp only [List.cons_append, foreach_in_list]
    cases body b st prog with
    | next st' prog' => exact ih st' prog'
    | ret prog' => rfl
    | abort => rfl

/-- A loop over the entries of an array of possibly-NULL units, with an inner loop over the
instruction list of each, visits the instructions of the units in order -/
theorem foreach_in_list_foreach_unit {α β γ σ : Type} (body : β → α → σ → loop_step α σ)
    (ir : γ → List β) (units : List (Option γ)) (st : α) (prog : σ) :
    foreach_in_list (foreach_unit body ir) units st prog
    = foreach_in_list body ((units.filterMap id).flatMap ir) st prog := by
  induction units generalizing st prog with
  | nil => rfl
  | cons u units ih =>
    cases u with
    | none =>
      simp only [foreach_in_list, foreach_unit, List.filterMap_cons, id]
      exact ih st prog
    | some sh =>
      simp only [foreach_in_list, foreach_unit, List.filterMap_cons, id, List.flatMap_cons,
        foreach_in_list_append]
      cases foreach_in_list body (ir sh) st prog with
      | next st' prog' => exact ih st' prog'
      | ret prog' => rfl
      | abort => rfl

/-- Nodes on which the body falls through unchanged can be left out. -/
theorem foreach_in_list_filterMap {α β γ σ : Type} (body : β → α → σ → loop_step α σ)
    (body' : γ → α → σ → loop_step α σ) (f : β → Option γ)
    (l : List β)
    (hnone : ∀ b ∈ l, ∀ st prog, f b = none → body b st prog = .next st prog)
    (hsome : ∀ b ∈ l, ∀ c st prog, f b = some c → body b st prog = body' c st prog)
    (st : α) (prog : σ) :
    foreach_in_list body l st prog = foreach_in_list body' (l.filterMap f) st prog := by
  induction l generalizing st prog with
  | nil => rfl
  | cons b l ih =>
    have ih' := ih (fun b hb => hnone b (List.mem_cons_of_mem _ hb))
      (fun b hb => hsome b (List.mem_cons_of_mem _ hb))
    cases hb : f b with
    | none =>
      simp only [foreach_in_list, List.filterMap_cons, hb,
        hnone b (List.mem_cons_self _ _) st prog hb]
      exact ih' st prog
    | some c =>
      simp only [foreach_in_list, List.filterMap_cons, hb,
        hsome b (List.mem_cons_self _ _) c st prog hb]
      cases body' c st prog with
      | next st' prog' => exact ih' st' prog'
      | ret prog' => rfl
      | abort => rfl

/-- No first mismatch: no element is bad after the elements before it. -/
theorem first_mismatch_eq_none_iff {α : Type} (bad : List α → α → Bool) (pre vars : List α) :
    first_mismatch bad pre vars = none ↔
      ∀ (p : List α) (v : α) (q : List α), vars = p ++ v :: q → bad (pre ++ p) v = false := by
  induction vars generalizing pre with
  | nil =>
    simp only [first_mismatch, true_iff]
    intro p v q h
    exact absurd h (by simp)
  | cons x vars ih =>
    simp only [first_mismatch]
    by_cases hx : bad pre x = true
    · simp only [hx, if_true]
      constructor
      · intro h
        exact absurd h (by simp)
      · intro h
        have := h [] x vars rfl
        simp [hx] at this
    · simp only [hx, if_false, Bool.false_eq_true]
      rw [ih]
      constructor
      · intro h p v q hpq
        cases p with
        | nil =>
          simp only [List.nil_append, List.cons.injEq] at hpq
          obtain ⟨rfl, rfl⟩ := hpq
          simpa using hx
        | cons y p =>
          simp only [List.cons_append, List.cons.injEq] at hpq
          obtain ⟨rfl, rfl⟩ := hpq
          have := h p v q rfl
          simpa using this
      · intro h p v q hpq
        have := h (x :: p) v q (by simp [hpq])
        simpa using this

/-- The first mismatch is an element that is bad after the elements before it,
none of which is bad after its own predecessors. -/
theorem first_mismatch_eq_some_of {α : Type} (bad : List α → α → Bool) (pre p : List α) (v : α)
    (q : List α) (hv : bad (pre ++ p) v = true)
    (hp : ∀ (p' : List α) (w : α) (q' : List α), p = p' ++ w :: q' → bad (pre ++ p') w = false) :
    first_mismatch bad pre (p ++ v :: q) = some v := by
  induction p generalizing pre with
  | nil =>
    simp only [List.nil_append, first_mismatch]
    simp only [List.append_nil] at hv
    simp [hv]
  | cons x p ih =>
    simp only [List.cons_append, first_mismatch]
    have hx : bad pre x = false := by
      have := hp [] x p rfl
      simpa using this
    simp only [hx, Bool.false_eq_true, if_false]
    apply ih
    · simpa using hv
    · intro p' w q' hpq
      have := hp (x :: p') w q' (by simp [hpq])
      simpa using this

/-- The first mismatch is `v` exactly when `v` is bad at some position before
which no element is bad. -/
theorem first_mismatch_eq_some_iff {α : Type} (bad : List α → α → Bool) (pre vars : List α)
    (v : α) :
    first_mismatch bad pre vars = some v ↔
      ∃ (p q : List α), vars = p ++ v :: q ∧ bad (pre ++ p) v = true
        ∧ ∀ (p' : List α) (w : α) (q' : List α), p = p' ++ w :: q' →
            bad (pre ++ p') w = false := by
  constructor
  · intro h
    induction vars generalizing pre with
    | nil => simp [first_mismatch] at h
    | cons x vars ih =>
      simp only [first_mismatch] at h
      by_cases hx : bad pre x = true
      · simp only [hx, if_true, Option.some.injEq] at h
        subst h
        refine ⟨[], vars, rfl, by simpa using hx, ?_⟩
        intro p' w q' hpq
        exact absurd hpq (by simp)
      · simp only [hx, if_false, Bool.false_eq_true] at h
        obtain ⟨p, q, rfl, hb, hp⟩ := ih (pre ++ [x]) h
        refine ⟨x :: p, q, rfl, by simpa using hb, ?_⟩
        intro p' w q' hpq
        cases p' with
        | nil =>
          simp only [List.nil_append, List.cons.injEq] at hpq
          obtain ⟨rfl, -⟩ := hpq
          simpa using hx
        | cons y p' =>
          simp only [List.cons_append, List.cons.injEq] at hpq
          obtain ⟨rfl, rfl⟩ := hpq
          have := hp p' w q' rfl
          simpa using this
  · rintro ⟨p, q, rfl, hb, hp⟩
    exact first_mismatch_eq_some_of bad pre p v q hb hp

/-- With a pure reconciliation, `intrastage_match` leaves the program state
and the first interface alone, and its verdict does not depend on the state. -/
theorem intrastage_match_pure {σ : Type} (P : ir_variable → ir_variable → Bool)
    (a b : ir_variable) (prog : σ) :
    intrastage_match (pure_validate_intrastage_arrays P) a b prog
      = ((intrastage_match (pure_validate_intrastage_arrays P) a b ()).1, prog, a) := by
  unfold intrastage_match pure_validate_intrastage_arrays
  split_ifs <;> rfl

/-- A write of the data that a search finds leaves the table as it was. -/
theorem hash_table_write_of_search (ht : hash_table) (key : String) (u : ir_variable)
    (h : _mesa_hash_table_search ht key = some u) : hash_table_write ht key u = ht := by
  induction ht with
  | nil => rfl
  | cons e ht ih =>
    obtain ⟨k, d⟩ := e
    simp only [_mesa_hash_table_search] at h
    simp only [hash_table_write]
    by_cases hk : k = key
    · simp only [hk, if_true, Option.some.injEq] at h
      simp [hk, h]
    · simp only [hk, if_false] at h
      simp [hk, ih h]

/-- A write-back of the declaration that a lookup returns leaves the registry
as it was. -/
theorem write_back_of_lookup (VARYING_SLOT_VAR0 : Nat) (d : interface_block_definitions)
    (var u : ir_variable) (h : d.lookup VARYING_SLOT_VAR0 var = some (some u)) :
    d.write_back VARYING_SLOT_VAR0 var u = d := by
  unfold interface_block_definitions.lookup at h
  unfold interface_block_definitions.write_back
  split_ifs at h ⊢ with hc
  · simp only [Option.some.injEq] at h
    simp only [hash_table_write_of_search _ _ _ h]
  · cases ht : var.get_interface_type with
    | none => rfl
    | some t =>
      simp only [ht, Option.some.injEq] at h
      simp only [hash_table_write_of_search _ _ _ h]

/-- One run of the lookup, store or match statements on a registry that holds
`stored`: a return after one report if the variable mismatches, and otherwise a
registry that holds `stored` followed by the variable. -/
theorem lookup_store_or_match_step {σ : Type} (VARYING_SLOT_VAR0 : Nat)
    (linker_error : σ → String → σ) (P : ir_variable → ir_variable → Bool)
    (d : interface_block_definitions) (stored : List ir_variable) (var : ir_variable)
    (key : String) (message : String) (prog : σ)
    (h : registry_holds VARYING_SLOT_VAR0 d stored)
    (hk : registry_key VARYING_SLOT_VAR0 var = some key) :
    ∃ d', registry_holds VARYING_SLOT_VAR0 d' (stored ++ [var]) ∧
      lookup_store_or_match VARYING_SLOT_VAR0 linker_error (pure_validate_intrastage_arrays P)
          d var message prog
        = if mismatch_after (fun u v => registry_key VARYING_SLOT_VAR0 u
              == registry_key VARYING_SLOT_VAR0 v) P stored var
          then .ret (linker_error prog message) else .next d' prog := by
  have hl := registry_holds_lookup VARYING_SLOT_VAR0 d stored var key h hk
  unfold lookup_store_or_match mismatch_after
  rw [hl]
  cases hf : stored.find? (fun u => registry_key VARYING_SLOT_VAR0 u
      == registry_key VARYING_SLOT_VAR0 var) with
  | none =>
    obtain ⟨d', hs, hd'⟩ := registry_holds_store VARYING_SLOT_VAR0 d stored var key h hk
    refine ⟨d', hd', ?_⟩
    simp [hs]
  | some u =>
    refine ⟨d, registry_holds_hit VARYING_SLOT_VAR0 d stored var u h hf, ?_⟩
    rw [hf] at hl
    simp only
    rw [intrastage_match_pure]
    by_cases hb : (intrastage_match (pure_validate_intrastage_arrays P) u var ()).1 = true
    · simp [hb, write_back_of_lookup VARYING_SLOT_VAR0 d var u hl]
    · simp only [Bool.not_eq_true] at hb
      simp [hb]

/-- A variable with an interface type has a registry key. -/
theorem registry_key_isSome_of_interface_type (VARYING_SLOT_VAR0 : Nat) (var : ir_variable)
    (h : var.get_interface_type.isSome = true) :
    ∃ key, registry_key VARYING_SLOT_VAR0 var = some key := by
  unfold registry_key
  split_ifs
  · exact ⟨_, rfl⟩
  · obtain ⟨t, ht⟩ := Option.isSome_iff_exists.1 h
    exact ⟨t.without_array.name, by rw [ht]; rfl⟩

/-- Reading a registry after a write through the pointer chosen by the switch. -/
theorem intrastage_interfaces_get_set (defs : intrastage_interfaces) (m m' : ir_variable_mode)
    (d : interface_block_definitions) (hm : is_interface_mode m = true) :
    (defs.set m d).get m' = if m' = m then some d else defs.get m' := by
  cases m <;> cases m' <;> simp_all [intrastage_interfaces.get, intrastage_interfaces.set,
    is_interface_mode]

/-- The switch chooses a registry for each of the four modes. -/
theorem intrastage_interfaces_get_isSome (defs : intrastage_interfaces) (m : ir_variable_mode)
    (hm : is_interface_mode m = true) : ∃ d, defs.get m = some d := by
  cases m <;> simp_all [intrastage_interfaces.get, is_interface_mode]

/-- A mismatch in the registry of the mode of `v` is a mismatch with the first
variable of the same mode and key. -/
theorem mismatch_after_filter_mode (VARYING_SLOT_VAR0 : Nat)
    (P : ir_variable → ir_variable → Bool) (stored : List ir_variable) (v : ir_variable) :
    mismatch_after (fun u v => registry_key VARYING_SLOT_VAR0 u
        == registry_key VARYING_SLOT_VAR0 v) P
      (stored.filter (fun u => u.data.mode == v.data.mode)) v
    = mismatch_after (same_mode_and_key VARYING_SLOT_VAR0) P stored v := by
  unfold mismatch_after same_mode_and_key same_key
  rw [List.find?_filter]
  have hp : (fun a : ir_variable => decide ((a.data.mode == v.data.mode) = true
        ∧ (registry_key VARYING_SLOT_VAR0 a == registry_key VARYING_SLOT_VAR0 v) = true))
      = (fun u => u.data.mode == v.data.mode
          && registry_key VARYING_SLOT_VAR0 u == registry_key VARYING_SLOT_VAR0 v) := by
    funext a
    by_cases h1 : a.data.mode = v.data.mode
      <;> by_cases h2 : registry_key VARYING_SLOT_VAR0 a = registry_key VARYING_SLOT_VAR0 v
      <;> simp [h1, h2]
  rw [hp]

/-- The inner loop body of `validate_intrastage_interface_blocks`, run over
variables with an interface type and one of the four modes: the first mismatch
is reported, if any. -/
theorem intrastage_scan {σ : Type} (VARYING_SLOT_VAR0 : Nat) (NDEBUG : Bool)
    (linker_error : σ → String → σ) (P : ir_variable → ir_variable → Bool)
    (vars : List ir_variable) :
    ∀ (stored : List ir_variable) (defs : intrastage_interfaces) (prog : σ),
      intrastage_holds VARYING_SLOT_VAR0 defs stored →
      (∀ v ∈ vars, v.get_interface_type.isSome = true ∧ is_interface_mode v.data.mode = true) →
      (foreach_in_list
        (fun v defs prog => validate_intrastage_interface_blocks_node VARYING_SLOT_VAR0 NDEBUG
          linker_error (pure_validate_intrastage_arrays P) ⟨some v⟩ defs prog)
        vars defs prog).finish
      = some (match first_mismatch (mismatch_after (same_mode_and_key VARYING_SLOT_VAR0) P)
            stored vars with
          | none => prog
          | some v => linker_error prog
              ("definitions of interface block `" ++ v.interface_type_name
                ++ "' do not match\n")) := by
  induction vars with
  | nil =>
    intro stored defs prog _ _
    rfl
  | cons v vars ih =>
    intro stored defs prog h hv
    obtain ⟨hi, hm⟩ := hv v (List.mem_cons_self _ _)
    obtain ⟨t, ht⟩ := Option.isSome_iff_exists.1 hi
    obtain ⟨key, hk⟩ := registry_key_isSome_of_interface_type VARYING_SLOT_VAR0 v hi
    obtain ⟨d, hd⟩ := intrastage_interfaces_get_isSome defs v.data.mode hm
    obtain ⟨d', hd', hstep⟩ := lookup_store_or_match_step VARYING_SLOT_VAR0 linker_error P
      d (stored.filter (fun u => u.data.mode == v.data.mode)) v key
      ("definitions of interface block `" ++ t.name ++ "' do not match\n") prog
      (h v.data.mode d hd) hk
    rw [mismatch_after_filter_mode] at hstep
    have hname : v.interface_type_name = t.name := by
      unfold ir_variable.interface_type_name
      rw [ht]
    simp only [foreach_in_list, first_mismatch, validate_intrastage_interface_blocks_node,
      ht, hd, hstep]
    by_cases hb : mismatch_after (same_mode_and_key VARYING_SLOT_VAR0) P stored v = true
    · simp only [hb, if_true, hname]
      rfl
    · simp only [hb, if_false, Bool.false_eq_true]
      apply ih (stored ++ [v]) (defs.set v.data.mode d') prog
      · intro m dm hdm
        rw [intrastage_interfaces_get_set defs v.data.mode m d' hm] at hdm
        by_cases hmm : m = v.data.mode
        · subst hmm
          simp only [if_true, Option.some.injEq] at hdm
          subst hdm
          simpa [List.filter_append, List.filter_cons] using hd'
        · simp only [hmm, if_false] at hdm
          have hne : (v.data.mode == m) = false := beq_false_of_ne (fun e => hmm e.symm)
          have := h m dm hdm
          simpa [List.filter_append, List.filter_cons, hne] using this
      · exact fun w hw => hv w (List.mem_cons_of_mem _ hw)

/-- The four empty registries hold the empty list of variables. -/
theorem intrastage_holds_empty (VARYING_SLOT_VAR0 : Nat) :
    intrastage_holds VARYING_SLOT_VAR0
      ⟨interface_block_definitions.empty, interface_block_definitions.empty,
        interface_block_definitions.empty, interface_block_definitions.empty⟩ [] := by
  intro m d hd
  have : d = interface_block_definitions.empty := by
    cases m <;> simp_all [intrastage_interfaces.get]
  subst this
  exact registry_holds_empty VARYING_SLOT_VAR0

/-- With a pure reconciliation, and no failing assertion,
`validate_intrastage_interface_blocks` reports the first filed variable that
mismatches after those before it, and nothing if there is none. -/
theorem validate_intrastage_interface_blocks_eq {σ : Type} (VARYING_SLOT_VAR0 : Nat)
    (NDEBUG : Bool) (linker_error : σ → String → σ) (P : ir_variable → ir_variable → Bool)
    (prog : σ) (shader_list : List (Option gl_shader))
    (hassert : NDEBUG = true ∨
      ∀ node ∈ shader_list_ir shader_list, ∀ var : ir_variable,
        node.as_variable = some var → var.get_interface_type.isSome = true →
        is_interface_mode var.data.mode = true) :
    validate_intrastage_interface_blocks VARYING_SLOT_VAR0 NDEBUG linker_error
      (pure_validate_intrastage_arrays P) prog shader_list
    = some (match first_mismatch (mismatch_after (same_mode_and_key VARYING_SLOT_VAR0) P) []
          (intrastage_block_variables shader_list) with
        | none => prog
        | some v => linker_error prog
            ("definitions of interface block `" ++ v.interface_type_name
              ++ "' do not match\n")) := by
  unfold validate_intrastage_interface_blocks intrastage_block_variables
  unfold shader_list_ir at hassert ⊢
  rw [foreach_in_list_foreach_unit]
  rw [foreach_in_list_filterMap _
    (fun v defs prog => validate_intrastage_interface_blocks_node VARYING_SLOT_VAR0 NDEBUG
      linker_error (pure_validate_intrastage_arrays P) ⟨some v⟩ defs prog)
    intrastage_block_variable]
  · apply intrastage_scan VARYING_SLOT_VAR0 NDEBUG linker_error P _ [] _ prog
      (intrastage_holds_empty VARYING_SLOT_VAR0)
    intro v hv
    obtain ⟨node, -, hn⟩ := List.mem_filterMap.1 hv
    unfold intrastage_block_variable at hn
    cases hav : node.as_variable with
    | none => simp [hav] at hn
    | some var =>
      simp only [hav, Option.some_bind] at hn
      split_ifs at hn with hc
      simp only [Option.some.injEq] at hn
      subst hn
      simpa using hc
  · intro node hmem st prog hn
    unfold intrastage_block_variable at hn
    unfold validate_intrastage_interface_blocks_node
    cases hav : node.as_variable with
    | none => rfl
    | some var =>
      simp only [hav, Option.some_bind] at hn
      cases hit : var.get_interface_type with
      | none => simp [hit]
      | some t =>
        have hm : is_interface_mode var.data.mode = false := by
          simpa [hit] using hn
        have hg : st.get var.data.mode = none := by
          cases hmode : var.data.mode <;> simp_all [is_interface_mode, intrastage_interfaces.get]
        rcases hassert with hN | hall
        · simp [hit, hg, hN]
        · have := hall node hmem var hav (by simp [hit])
          rw [hm] at this
          exact absurd this (by simp)
  · intro node _ c st prog hn
    unfold intrastage_block_variable at hn
    cases hav : node.as_variable with
    | none => simp [hav] at hn
    | some var =>
      simp only [hav, Option.some_bind] at hn
      split_ifs at hn with hc
      simp only [Option.some.injEq] at hn
      subst hn
      have : node = ⟨some var⟩ := by
        cases node
        simp_all
      rw [this]

/-- No first mismatch among the outputs: every verdict is true. -/
theorem first_inout_mismatch_eq_some_none_iff {α : Type} (verdict : α → Option Bool)
    (vars : List α) :
    first_inout_mismatch verdict vars = some none ↔ ∀ v ∈ vars, verdict v = some true := by
  induction vars with
  | nil => simp [first_inout_mismatch]
  | cons x vars ih =>
    simp only [first_inout_mismatch, List.mem_cons, forall_eq_or_imp]
    cases hx : verdict x with
    | none => simp
    | some b =>
      cases b with
      | true => simpa using ih
      | false => simp

/-- The first mismatch among the outputs is `v` exactly when the verdict of `v`
is false at a position before which every verdict is true. -/
theorem first_inout_mismatch_eq_some_some_iff {α : Type} (verdict : α → Option Bool)
    (vars : List α) (v : α) :
    first_inout_mismatch verdict vars = some (some v) ↔
      ∃ (p q : List α), vars = p ++ v :: q ∧ (∀ w ∈ p, verdict w = some true)
        ∧ verdict v = some false := by
  induction vars with
  | nil => simp [first_inout_mismatch]
  | cons x vars ih =>
    simp only [first_inout_mismatch]
    cases hx : verdict x with
    | none =>
      simp only
      constructor
      · intro h
        exact absurd h (by simp)
      rintro ⟨p, q, hpq, hp, hv⟩
      exfalso
      cases p with
      | nil =>
        simp only [List.nil_append, List.cons.injEq] at hpq
        rw [← hpq.1, hx] at hv
        exact absurd hv (by simp)
      | cons y p =>
        simp only [List.cons_append, List.cons.injEq] at hpq
        have := hp y (List.mem_cons_self _ _)
        rw [← hpq.1, hx] at this
        exact absurd this (by simp)
    | some b =>
      cases b with
      | true =>
        simp only
        rw [ih]
        constructor
        · rintro ⟨p, q, rfl, hp, hv⟩
          refine ⟨x :: p, q, rfl, ?_, hv⟩
          intro w hw
          rcases List.mem_cons.1 hw with rfl | hw
          · exact hx
          · exact hp w hw
        · rintro ⟨p, q, hpq, hp, hv⟩
          cases p with
          | nil =>
            simp only [List.nil_append, List.cons.injEq] at hpq
            rw [← hpq.1, hx] at hv
            exact absurd hv (by simp)
          | cons y p =>
            simp only [List.cons_append, List.cons.injEq] at hpq
            exact ⟨p, q, hpq.2, fun w hw => hp w (List.mem_cons_of_mem _ hw), hv⟩
      | false =>
        simp only [Option.some.injEq]
        constructor
        · rintro rfl
          exact ⟨[], vars, rfl, by simp, hx⟩
        · rintro ⟨p, q, hpq, hp, hv⟩
          cases p with
          | nil =>
            simp only [List.nil_append, List.cons.injEq] at hpq
            exact hpq.1
          | cons y p =>
            simp only [List.cons_append, List.cons.injEq] at hpq
            have := hp y (List.mem_cons_self _ _)
            rw [← hpq.1, hx] at this
            exact absurd this (by simp)

/-- The first loop of `validate_interstage_inout_blocks`, run over shader inputs
with an interface type, falls through with a registry that holds them. -/
theorem consumer_scan {σ : Type} (VARYING_SLOT_VAR0 : Nat) (vars : List ir_variable) :
    ∀ (stored : List ir_variable) (d : interface_block_definitions) (log : σ),
      registry_holds VARYING_SLOT_VAR0 d stored →
      (∀ v ∈ vars, v.get_interface_type.isSome = true ∧ v.data.mode = ir_var_shader_in) →
      ∃ d', foreach_in_list
          (fun v d (log : σ) =>
            validate_interstage_inout_blocks_consumer_node VARYING_SLOT_VAR0 ⟨some v⟩ d log)
          vars d log = .next d' log
        ∧ registry_holds VARYING_SLOT_VAR0 d' (stored ++ vars) := by
  induction vars with
  | nil =>
    intro stored d log h _
    exact ⟨d, rfl, by simpa using h⟩
  | cons v vars ih =>
    intro stored d log h hv
    obtain ⟨hi, hm⟩ := hv v (List.mem_cons_self _ _)
    obtain ⟨key, hk⟩ := registry_key_isSome_of_interface_type VARYING_SLOT_VAR0 v hi
    obtain ⟨d1, hs, hd1⟩ := registry_holds_store VARYING_SLOT_VAR0 d stored v key h hk
    obtain ⟨d', hd', hh⟩ := ih (stored ++ [v]) d1 log hd1
      (fun w hw => hv w (List.mem_cons_of_mem _ hw))
    refine ⟨d', ?_, by simpa using hh⟩
    have hnone : v.get_interface_type.isNone = false := by
      rw [Option.isNone_eq_false_iff]  
      exact hi
    have hstep : validate_interstage_inout_blocks_consumer_node VARYING_SLOT_VAR0 ⟨some v⟩ d log
        = .next d1 log := by
      simp [validate_interstage_inout_blocks_consumer_node, hnone, hm, hs]
    simp only [foreach_in_list, hstep]
    exact hd'

/-- The second loop of `validate_interstage_inout_blocks`, run over shader
outputs with an interface type against a registry that holds the inputs. -/
theorem producer_scan {σ : Type} (VARYING_SLOT_VAR0 : Nat) (linker_error : σ → String → σ)
    (prog : gl_shader_program) (extra_array_level : Bool) (d : interface_block_definitions)
    (inputs : List ir_variable) (h : registry_holds VARYING_SLOT_VAR0 d inputs)
    (outs : List ir_variable) (log : σ)
    (hv : ∀ v ∈ outs, v.get_interface_type.isSome = true ∧ v.data.mode = ir_var_shader_out) :
    (foreach_in_list
      (fun v st log => validate_interstage_inout_blocks_producer_node VARYING_SLOT_VAR0
        linker_error prog extra_array_level d ⟨some v⟩ st log) outs () log).finish
    = (first_inout_mismatch (inout_verdict VARYING_SLOT_VAR0 prog extra_array_level inputs)
        outs).map (fun r =>
          match r with
          | none => log
          | some v => linker_error log
              ("definitions of interface block `" ++ v.interface_type_name
                ++ "' do not match\n")) := by
  induction outs with
  | nil => rfl
  | cons v outs ih =>
    obtain ⟨hi, hm⟩ := hv v (List.mem_cons_self _ _)
    have ih' := ih (fun w hw => hv w (List.mem_cons_of_mem _ hw))
    obtain ⟨t, ht⟩ := Option.isSome_iff_exists.1 hi
    obtain ⟨key, hk⟩ := registry_key_isSome_of_interface_type VARYING_SLOT_VAR0 v hi
    have hl := registry_holds_lookup VARYING_SLOT_VAR0 d inputs v key h hk
    have hname : v.interface_type_name = t.name := by
      unfold ir_variable.interface_type_name
      rw [ht]
    cases hf : inputs.find? (fun u => registry_key VARYING_SLOT_VAR0 u
        == registry_key VARYING_SLOT_VAR0 v) with
    | none =>
      have hstep : validate_interstage_inout_blocks_producer_node VARYING_SLOT_VAR0
          linker_error prog extra_array_level d ⟨some v⟩ () log = .next () log := by
        simp [validate_interstage_inout_blocks_producer_node, ht, hm, hl, hf]
      simp only [foreach_in_list, hstep, first_inout_mismatch, inout_verdict, same_key, hf]
      exact ih'
    | some e =>
      cases hmatch : interstage_match prog v e extra_array_level with
      | none =>
        have hstep : validate_interstage_inout_blocks_producer_node VARYING_SLOT_VAR0
            linker_error prog extra_array_level d ⟨some v⟩ () log = .abort := by
          simp [validate_interstage_inout_blocks_producer_node, ht, hm, hl, hf, hmatch]
        simp only [foreach_in_list, hstep, first_inout_mismatch, inout_verdict, same_key, hf,
          hmatch]
        rfl
      | some b =>
        cases b with
        | true =>
          have hstep : validate_interstage_inout_blocks_producer_node VARYING_SLOT_VAR0
              linker_error prog extra_array_level d ⟨some v⟩ () log = .next () log := by
            simp [validate_interstage_inout_blocks_producer_node, ht, hm, hl, hf, hmatch]
          simp only [foreach_in_list, hstep, first_inout_mismatch, inout_verdict, same_key, hf,
            hmatch]
          exact ih'
        | false =>
          have hstep : validate_interstage_inout_blocks_producer_node VARYING_SLOT_VAR0
              linker_error prog extra_array_level d ⟨some v⟩ () log
              = .ret (linker_error log
                  ("definitions of interface block `" ++ v.interface_type_name
                    ++ "' do not match\n")) := by
            simp [validate_interstage_inout_blocks_producer_node, ht, hm, hl, hf, hmatch, hname]
          simp only [foreach_in_list, hstep, first_inout_mismatch, inout_verdict, same_key, hf,
            hmatch]
          rfl

/-- The function `validate_interstage_inout_blocks` reports the first producer
output whose verdict against the consumer inputs is false, nothing if all
verdicts are true, and is stopped by an undefined verdict before that. -/
theorem validate_interstage_inout_blocks_eq {σ : Type} (VARYING_SLOT_VAR0 : Nat)
    (linker_error : σ → String → σ) (prog : gl_shader_program) (log : σ)
    (producer consumer : gl_linked_shader) :
    validate_interstage_inout_blocks VARYING_SLOT_VAR0 linker_error prog log producer consumer
    = (first_inout_mismatch
        (inout_verdict VARYING_SLOT_VAR0 prog
          (validate_interstage_inout_blocks_extra_array_level producer consumer)
          (consumer_inputs consumer))
        (producer_outputs producer)).map (fun r =>
          match r with
          | none => log
          | some v => linker_error log
              ("definitions of interface block `" ++ v.interface_type_name
                ++ "' do not match\n")) := by
  unfold consumer_inputs producer_outputs
  have hmem_in : ∀ v ∈ consumer.ir.filterMap consumer_input,
      v.get_interface_type.isSome = true ∧ v.data.mode = ir_var_shader_in := by
    intro v hv
    obtain ⟨node, -, hn⟩ := List.mem_filterMap.1 hv
    unfold consumer_input at hn
    cases hav : node.as_variable with
    | none => simp [hav] at hn
    | some var =>
      simp only [hav, Option.some_bind] at hn
      split_ifs at hn with hc
      simp only [Option.some.injEq] at hn
      subst hn
      simpa using hc
  have hmem_out : ∀ v ∈ producer.ir.filterMap producer_output,
      v.get_interface_type.isSome = true ∧ v.data.mode = ir_var_shader_out := by
    intro v hv
    obtain ⟨node, -, hn⟩ := List.mem_filterMap.1 hv
    unfold producer_output at hn
    cases hav : node.as_variable with
    | none => simp [hav] at hn
    | some var =>
      simp only [hav, Option.some_bind] at hn
      split_ifs at hn with hc
      simp only [Option.some.injEq] at hn
      subst hn
      simpa using hc
  have hcons : foreach_in_list (validate_interstage_inout_blocks_consumer_node VARYING_SLOT_VAR0)
      consumer.ir interface_block_definitions.empty log
      = foreach_in_list
          (fun v d (log : σ) =>
            validate_interstage_inout_blocks_consumer_node VARYING_SLOT_VAR0 ⟨some v⟩ d log)
          (consumer.ir.filterMap consumer_input) interface_block_definitions.empty log := by
    apply foreach_in_list_filterMap
    · intro node _ st lg hn
      unfold consumer_input at hn
      unfold validate_interstage_inout_blocks_consumer_node
      cases hav : node.as_variable with
      | none => rfl
      | some var =>
        simp only [hav, Option.some_bind, ite_eq_right_iff, imp_false, Bool.and_eq_true,
          beq_iff_eq, not_and, reduceCtorEq] at hn
        cases hit : var.get_interface_type with
        | none => simp [hit]
        | some t =>
          have := hn (by simp [hit])
          simp [hit, this]
    · intro node _ c st lg hn
      unfold consumer_input at hn
      cases hav : node.as_variable with
      | none => simp [hav] at hn
      | some var =>
        simp only [hav, Option.some_bind] at hn
        split_ifs at hn with hc
        simp only [Option.some.injEq] at hn
        subst hn
        have : node = ⟨some var⟩ := by
          cases node
          simp_all
        rw [this]
  obtain ⟨d, hd, hh⟩ := consumer_scan VARYING_SLOT_VAR0 (consumer.ir.filterMap consumer_input)
    [] interface_block_definitions.empty log (registry_holds_empty VARYING_SLOT_VAR0) hmem_in
  simp only [List.nil_append] at hh
  unfold validate_interstage_inout_blocks
  rw [hcons, hd]
  simp only
  rw [← producer_scan VARYING_SLOT_VAR0 linker_error prog _ d _ hh _ log hmem_out]
  congr 1
  apply foreach_in_list_filterMap
  · intro node _ st lg hn
    unfold producer_output at hn
    unfold validate_interstage_inout_blocks_producer_node
    cases hav : node.as_variable with
    | none => rfl
    | some var =>
      simp only [hav, Option.some_bind, ite_eq_right_iff, imp_false, Bool.and_eq_true,
        beq_iff_eq, not_and, reduceCtorEq] at hn
      cases hit : var.get_interface_type with
      | none => simp [hit]
      | some t =>
        have := hn (by simp [hit])
        simp [hit, this]
  · intro node _ c st lg hn
    unfold producer_output at hn
    cases hav : node.as_variable with
    | none => simp [hav] at hn
    | some var =>
      simp only [hav, Option.some_bind] at hn
      split_ifs at hn with hc
      simp only [Option.some.injEq] at hn
      subst hn
      have : node = ⟨some var⟩ := by
        cases node
        simp_all
      rw [this]

/-! ## Properties of the registry and of the validators -/

/-- A variable mismatches after `pre` exactly when the first variable of `pre`
in its slot exists and the match with it is false. -/
theorem mismatch_after_eq_true_iff (slot : ir_variable → ir_variable → Bool)
    (P : ir_variable → ir_variable → Bool) (pre : List ir_variable) (v : ir_variable) :
    mismatch_after slot P pre v = true ↔
      ∃ u, pre.find? (fun u => slot u v) = some u
        ∧ (intrastage_match (pure_validate_intrastage_arrays P) u v ()).1 = false := by
  unfold mismatch_after
  cases pre.find? (fun u => slot u v) with
  | none => simp
  | some u => simp

/-- C11 fails as stated: in a registry that already holds `a` under the key
`A`, storing `b` and then `c` under that key changes nothing, and a lookup of
the key returns `a`, not `b`. -/
theorem registry_first_key_wins_counterexample :
    ((((interface_block_definitions.empty.store 32
          ⟨"a", .iface 1 "A" [], some (.iface 1 "A" []),
            ⟨ir_var_shader_in, ir_var_declared_normally, false, 0⟩, true⟩).bind
        (fun d => d.store 32
          ⟨"b", .iface 1 "A" [], some (.iface 1 "A" []),
            ⟨ir_var_shader_in, ir_var_declared_normally, false, 0⟩, true⟩)).bind
        (fun d => d.store 32
          ⟨"c", .iface 1 "A" [], some (.iface 1 "A" []),
            ⟨ir_var_shader_in, ir_var_declared_normally, false, 0⟩, true⟩)).bind
        (fun d => d.lookup 32
          ⟨"b", .iface 1 "A" [], some (.iface 1 "A" []),
            ⟨ir_var_shader_in, ir_var_declared_normally, false, 0⟩, true⟩))
      = some (some ⟨"a", .iface 1 "A" [], some (.iface 1 "A" []),
            ⟨ir_var_shader_in, ir_var_declared_normally, false, 0⟩, true⟩) := by
  decide

/-- An insertion under a key the table holds changes nothing. -/
theorem _mesa_hash_table_insert_of_search_some (ht : hash_table) (key : String)
    (v x : ir_variable) (h : _mesa_hash_table_search ht key = some x) :
    _mesa_hash_table_insert ht key v = ht := by
  induction ht with
  | nil => simp [_mesa_hash_table_search] at h
  | cons e ht ih =>
    obtain ⟨k0, d0⟩ := e
    by_cases h0 : k0 = key
    · simp [_mesa_hash_table_insert, h0]
    · simp only [_mesa_hash_table_search, h0, if_false] at h
      simp [_mesa_hash_table_insert, h0, ih h]

/-- After an insertion under a key, the table holds something under that key. -/
theorem _mesa_hash_table_search_insert_self (ht : hash_table) (key : String)
    (v : ir_variable) :
    ∃ x, _mesa_hash_table_search (_mesa_hash_table_insert ht key v) key = some x := by
  rw [_mesa_hash_table_search_insert]
  cases _mesa_hash_table_search ht key with
  | none => exact ⟨v, by simp⟩
  | some x => exact ⟨x, rfl⟩

/-- C11, amended: the second of two stores under one key is a no-op in every
registry; after both, a lookup of the key returns the first-stored variable
`v1` when the registry held nothing under the key before, and the variable it
already held otherwise.  In `validate_interstage_inout_blocks`, which stores
every consumer input without a lookup, the only output of a producer is so
matched against the first consumer input that has its key. -/
theorem registry_first_key_wins {σ : Type} (VARYING_SLOT_VAR0 : Nat)
    (d : interface_block_definitions) (v1 v2 w : ir_variable) (key : String)
    (h1 : registry_key VARYING_SLOT_VAR0 v1 = some key)
    (h2 : registry_key VARYING_SLOT_VAR0 v2 = some key)
    (hw : registry_key VARYING_SLOT_VAR0 w = some key) :
    (d.store VARYING_SLOT_VAR0 v1).bind (fun d1 => d1.store VARYING_SLOT_VAR0 v2)
        = d.store VARYING_SLOT_VAR0 v1
    ∧ (d.lookup VARYING_SLOT_VAR0 v1 = some none →
        ((d.store VARYING_SLOT_VAR0 v1).bind (fun d1 => d1.store VARYING_SLOT_VAR0 v2)).bind
          (fun d2 => d2.lookup VARYING_SLOT_VAR0 w) = some (some v1))
    ∧ (∀ v0, d.lookup VARYING_SLOT_VAR0 v1 = some (some v0) →
        ((d.store VARYING_SLOT_VAR0 v1).bind (fun d1 => d1.store VARYING_SLOT_VAR0 v2)).bind
          (fun d2 => d2.lookup VARYING_SLOT_VAR0 w) = some (some v0))
    ∧ (∀ (linker_error : σ → String → σ) (prog : gl_shader_program) (log : σ)
        (producer consumer : gl_linked_shader) (var : ir_variable),
        producer_outputs producer = [var] →
        validate_interstage_inout_blocks VARYING_SLOT_VAR0 linker_error prog log
          producer consumer
        = match (consumer_inputs consumer).find? (fun u => same_key VARYING_SLOT_VAR0 u var) with
          | none => some log
          | some consumer_def =>
            (interstage_match prog var consumer_def
              (validate_interstage_inout_blocks_extra_array_level producer consumer)).map
              (fun ok => if ok then log else linker_error log
                ("definitions of interface block `" ++ var.interface_type_name
                  ++ "' do not match\n"))) := by
  have hs1 : d.store VARYING_SLOT_VAR0 v1
      = some ⟨_mesa_hash_table_insert d.ht key v1⟩ := by
    rw [store_eq_registry_key, h1, Option.map_some']
  obtain ⟨x, hx⟩ := _mesa_hash_table_search_insert_self d.ht key v1
  have hs2 : (d.store VARYING_SLOT_VAR0 v1).bind (fun d1 => d1.store VARYING_SLOT_VAR0 v2)
      = d.store VARYING_SLOT_VAR0 v1 := by
    rw [hs1, Option.some_bind, store_eq_registry_key, h2, Option.map_some']
    simp only [_mesa_hash_table_insert_of_search_some _ key v2 x hx]
  refine ⟨hs2, ?_, ?_, ?_⟩
  · intro hl
    rw [lookup_eq_registry_key, h1, Option.map_some'] at hl
    simp only [Option.some.injEq] at hl
    rw [hs2, hs1, Option.some_bind, lookup_eq_registry_key, hw, Option.map_some',
      _mesa_hash_table_search_insert, hl]
    simp
  · intro v0 hl
    rw [lookup_eq_registry_key, h1, Option.map_some'] at hl
    simp only [Option.some.injEq] at hl
    rw [hs2, hs1, Option.some_bind, lookup_eq_registry_key, hw, Option.map_some',
      _mesa_hash_table_search_insert, hl]
    simp
  · intro linker_error prog log producer consumer var hout
    rw [validate_interstage_inout_blocks_eq, hout]
    simp only [first_inout_mismatch, inout_verdict]
    cases (consumer_inputs consumer).find? (fun u => same_key VARYING_SLOT_VAR0 u var) with
    | none => rfl
    | some e =>
      simp only
      cases interstage_match prog var e
          (validate_interstage_inout_blocks_extra_array_level producer consumer) with
      | none => rfl
      | some b => cases b <;> rfl

/-- A variable does not mismatch after `pre` exactly when the match with the
first variable of `pre` in its slot, if any, is true. -/
theorem mismatch_after_eq_false_iff (slot : ir_variable → ir_variable → Bool)
    (P : ir_variable → ir_variable → Bool) (pre : List ir_variable) (v : ir_variable) :
    mismatch_after slot P pre v = false ↔
      ∀ u, pre.find? (fun u => slot u v) = some u →
        (intrastage_match (pure_validate_intrastage_arrays P) u v ()).1 = true := by
  unfold mismatch_after
  cases pre.find? (fun u => slot u v) with
  | none => simp
  | some u => simp

/-- The variables filed by a validator have an interface type. -/
theorem interface_type_of_mem_intrastage_block_variables (shader_list : List (Option gl_shader))
    (v : ir_variable) (hv : v ∈ intrastage_block_variables shader_list) :
    ∃ t, v.get_interface_type = some t := by
  unfold intrastage_block_variables at hv
  obtain ⟨node, -, hn⟩ := List.mem_filterMap.1 hv
  unfold intrastage_block_variable at hn
  cases hav : node.as_variable with
  | none => simp [hav] at hn
  | some var =>
    simp only [hav, Option.some_bind] at hn
    split_ifs at hn with hc
    simp only [Option.some.injEq] at hn
    subst hn
    simp only [Bool.and_eq_true] at hc
    exact Option.isSome_iff_exists.1 hc.1

/-- The printed name of the interface type of a variable that has one. -/
theorem interface_type_name_eq (v : ir_variable) (t : glsl_type)
    (h : v.get_interface_type = some t) : v.interface_type_name = t.name := by
  unfold ir_variable.interface_type_name
  rw [h]

/-- C12: with the reconciliation a pure predicate `P` and the reporter a log,
`validate_intrastage_interface_blocks` reports an error if and only if some
filed variable `v` (one with an interface type and mode in, out, uniform or
storage) is preceded in scan order by a variable of the same mode and registry
key and `intrastage_match` of the first such variable `u` and `v` is false;
otherwise it reports nothing.  It reports exactly one error, which names the
interface type of the first such `v`, whatever follows `v`; and `u` has the
mode of `v`.  (Where `assert` is live, the variables with an interface type
are assumed to have one of the four modes.) -/
theorem validate_intrastage_interface_blocks_reports (VARYING_SLOT_VAR0 : Nat)
    (NDEBUG : Bool) (P : ir_variable → ir_variable → Bool)
    (shader_list : List (Option gl_shader))
    (hassert : NDEBUG = true ∨
      ∀ node ∈ shader_list_ir shader_list, ∀ var : ir_variable,
        node.as_variable = some var → var.get_interface_type.isSome = true →
        is_interface_mode var.data.mode = true) :
    ((∃ message, validate_intrastage_interface_blocks VARYING_SLOT_VAR0 NDEBUG report_log
        (pure_validate_intrastage_arrays P) [] shader_list = some [message]) ↔
      ∃ (pre : List ir_variable) (v : ir_variable) (post : List ir_variable) (u : ir_variable),
        intrastage_block_variables shader_list = pre ++ v :: post
        ∧ pre.find? (fun u => same_mode_and_key VARYING_SLOT_VAR0 u v) = some u
        ∧ (intrastage_match (pure_validate_intrastage_arrays P) u v ()).1 = false)
    ∧ ((¬ ∃ (pre : List ir_variable) (v : ir_variable) (post : List ir_variable)
          (u : ir_variable),
        intrastage_block_variables shader_list = pre ++ v :: post
        ∧ pre.find? (fun u => same_mode_and_key VARYING_SLOT_VAR0 u v) = some u
        ∧ (intrastage_match (pure_validate_intrastage_arrays P) u v ()).1 = false) →
      validate_intrastage_interface_blocks VARYING_SLOT_VAR0 NDEBUG report_log
        (pure_validate_intrastage_arrays P) [] shader_list = some [])
    ∧ (∀ (pre : List ir_variable) (v : ir_variable) (post : List ir_variable)
        (u : ir_variable) (t : glsl_type),
        intrastage_block_variables shader_list = pre ++ v :: post →
        pre.find? (fun u => same_mode_and_key VARYING_SLOT_VAR0 u v) = some u →
        (intrastage_match (pure_validate_intrastage_arrays P) u v ()).1 = false →
        (∀ (pre' : List ir_variable) (w : ir_variable) (post' : List ir_variable)
          (u' : ir_variable), pre = pre' ++ w :: post' →
          pre'.find? (fun u => same_mode_and_key VARYING_SLOT_VAR0 u w) = some u' →
          (intrastage_match (pure_validate_intrastage_arrays P) u' w ()).1 = true) →
        v.get_interface_type = some t →
        u.data.mode = v.data.mode
        ∧ validate_intrastage_interface_blocks VARYING_SLOT_VAR0 NDEBUG report_log
            (pure_validate_intrastage_arrays P) [] shader_list
          = some ["definitions of interface block `" ++ t.name ++ "' do not match\n"]) := by
  have heq := validate_intrastage_interface_blocks_eq VARYING_SLOT_VAR0 NDEBUG report_log P []
    shader_list hassert
  refine ⟨?_, ?_, ?_⟩
  · rw [heq]
    constructor
    · rintro ⟨m, hm⟩
      cases hf : first_mismatch (mismatch_after (same_mode_and_key VARYING_SLOT_VAR0) P) []
          (intrastage_block_variables shader_list) with
      | none => simp [hf] at hm
      | some v =>
        obtain ⟨p, q, hpq, hb, -⟩ := (first_mismatch_eq_some_iff _ [] _ v).1 hf
        simp only [List.nil_append] at hb
        obtain ⟨u, hu, hv⟩ := (mismatch_after_eq_true_iff _ P p v).1 hb
        exact ⟨p, v, q, u, hpq, hu, hv⟩
    · rintro ⟨pre, v, post, u, hpq, hu, hv⟩
      cases hf : first_mismatch (mismatch_after (same_mode_and_key VARYING_SLOT_VAR0) P) []
          (intrastage_block_variables shader_list) with
      | none =>
        have := (first_mismatch_eq_none_iff _ [] _).1 hf pre v post hpq
        simp only [List.nil_append] at this
        rw [(mismatch_after_eq_true_iff _ P pre v).2 ⟨u, hu, hv⟩] at this
        exact absurd this (by simp)
      | some w => exact ⟨_, rfl⟩
  · intro hno
    rw [heq]
    have hf : first_mismatch (mismatch_after (same_mode_and_key VARYING_SLOT_VAR0) P) []
        (intrastage_block_variables shader_list) = none := by
      rw [first_mismatch_eq_none_iff]
      intro p v q hpq
      simp only [List.nil_append]
      rw [mismatch_after_eq_false_iff]
      intro u hu
      by_contra hv
      simp only [Bool.not_eq_true] at hv
      exact hno ⟨p, v, q, u, hpq, hu, hv⟩
    rw [hf]
  · intro pre v post u t hpq hu hv hpre ht
    refine ⟨?_, ?_⟩
    · have := List.find?_some hu
      simp only [same_mode_and_key, Bool.and_eq_true, beq_iff_eq] at this
      exact this.1
    · rw [heq, hpq]
      have hf : first_mismatch (mismatch_after (same_mode_and_key VARYING_SLOT_VAR0) P) []
          (pre ++ v :: post) = some v := by
        apply first_mismatch_eq_some_of
        · simp only [List.nil_append]
          exact (mismatch_after_eq_true_iff _ P pre v).2 ⟨u, hu, hv⟩
        · intro p' w q' hp'
          simp only [List.nil_append]
          rw [mismatch_after_eq_false_iff]
          intro u' hu'
          exact hpre p' w q' u' hp' hu'
      rw [hf]
      simp only [report_log, List.nil_append, interface_type_name_eq v t ht]

/-- The verdict on a producer output is false exactly when it finds a consumer
input under its key and `interstage_match` with it is false. -/
theorem inout_verdict_eq_some_false_iff (VARYING_SLOT_VAR0 : Nat) (prog : gl_shader_program)
    (extra_array_level : Bool) (inputs : List ir_variable) (v : ir_variable) :
    inout_verdict VARYING_SLOT_VAR0 prog extra_array_level inputs v = some false ↔
      ∃ e, inputs.find? (fun u => same_key VARYING_SLOT_VAR0 u v) = some e
        ∧ interstage_match prog v e extra_array_level = some false := by
  unfold inout_verdict
  cases inputs.find? (fun u => same_key VARYING_SLOT_VAR0 u v) with
  | none => simp
  | some e => simp

/-- The verdict on a producer output is true exactly when `interstage_match`
with the consumer input found under its key, if any, is true. -/
theorem inout_verdict_eq_some_true_iff (VARYING_SLOT_VAR0 : Nat) (prog : gl_shader_program)
    (extra_array_level : Bool) (inputs : List ir_variable) (v : ir_variable) :
    inout_verdict VARYING_SLOT_VAR0 prog extra_array_level inputs v = some true ↔
      ∀ e, inputs.find? (fun u => same_key VARYING_SLOT_VAR0 u v) = some e →
        interstage_match prog v e extra_array_level = some true := by
  unfold inout_verdict
  cases inputs.find? (fun u => same_key VARYING_SLOT_VAR0 u v) with
  | none => simp
  | some e => simp

/-- C13: with the reporter a log, and no undefined `interstage_match` among the
producer outputs that find a consumer entry, `validate_interstage_inout_blocks`
reports an error if and only if some producer variable of mode shader-out with
an interface type finds a consumer shader-in entry under its key and
`interstage_match` of that variable and the entry is false; otherwise it
reports nothing.  It reports exactly one error, naming the interface type of
the first such producer variable in declaration order, whatever follows it. -/
theorem validate_interstage_inout_blocks_reports (VARYING_SLOT_VAR0 : Nat)
    (prog : gl_shader_program) (producer consumer : gl_linked_shader)
    (hdef : ∀ v ∈ producer_outputs producer, ∀ e : ir_variable,
      (consumer_inputs consumer).find? (fun u => same_key VARYING_SLOT_VAR0 u v) = some e →
      interstage_match prog v e
        (validate_interstage_inout_blocks_extra_array_level producer consumer) ≠ none) :
    ((∃ message, validate_interstage_inout_blocks VARYING_SLOT_VAR0 report_log prog []
        producer consumer = some [message]) ↔
      ∃ v ∈ producer_outputs producer, ∃ e : ir_variable,
        (consumer_inputs consumer).find? (fun u => same_key VARYING_SLOT_VAR0 u v) = some e
        ∧ interstage_match prog v e
            (validate_interstage_inout_blocks_extra_array_level producer consumer) = some false)
    ∧ ((¬ ∃ v ∈ producer_outputs producer, ∃ e : ir_variable,
        (consumer_inputs consumer).find? (fun u => same_key VARYING_SLOT_VAR0 u v) = some e
        ∧ interstage_match prog v e
            (validate_interstage_inout_blocks_extra_array_level producer consumer)
          = some false) →
      validate_interstage_inout_blocks VARYING_SLOT_VAR0 report_log prog []
        producer consumer = some [])
    ∧ (∀ (pre : List ir_variable) (v : ir_variable) (post : List ir_variable)
        (e : ir_variable) (t : glsl_type),
        producer_outputs producer = pre ++ v :: post →
        (consumer_inputs consumer).find? (fun u => same_key VARYING_SLOT_VAR0 u v) = some e →
        interstage_match prog v e
          (validate_interstage_inout_blocks_extra_array_level producer consumer) = some false →
        (∀ w ∈ pre, ∀ e' : ir_variable,
          (consumer_inputs consumer).find? (fun u => same_key VARYING_SLOT_VAR0 u w) = some e' →
          interstage_match prog w e'
            (validate_interstage_inout_blocks_extra_array_level producer consumer)
          = some true) →
        v.get_interface_type = some t →
        validate_interstage_inout_blocks VARYING_SLOT_VAR0 report_log prog []
            producer consumer
          = some ["definitions of interface block `" ++ t.name ++ "' do not match\n"]) := by
  have heq := validate_interstage_inout_blocks_eq VARYING_SLOT_VAR0 report_log prog []
    producer consumer
  have hverdict : ∀ v ∈ producer_outputs producer,
      inout_verdict VARYING_SLOT_VAR0 prog
        (validate_interstage_inout_blocks_extra_array_level producer consumer)
        (consumer_inputs consumer) v ≠ none := by
    intro v hv
    unfold inout_verdict
    cases hf : (consumer_inputs consumer).find? (fun u => same_key VARYING_SLOT_VAR0 u v) with
    | none => simp
    | some e => exact hdef v hv e hf
  refine ⟨?_, ?_, ?_⟩
  · rw [heq]
    constructor
    · rintro ⟨m, hm⟩
      cases hf : first_inout_mismatch (inout_verdict VARYING_SLOT_VAR0 prog
          (validate_interstage_inout_blocks_extra_array_level producer consumer)
          (consumer_inputs consumer)) (producer_outputs producer) with
      | none => simp [hf] at hm
      | some r =>
        cases r with
        | none => simp [hf] at hm
        | some v =>
          obtain ⟨p, q, hpq, -, hv⟩ := (first_inout_mismatch_eq_some_some_iff _ _ v).1 hf
          obtain ⟨e, he, hm'⟩ := (inout_verdict_eq_some_false_iff _ _ _ _ v).1 hv
          exact ⟨v, by rw [hpq]; simp, e, he, hm'⟩
    · rintro ⟨v, hv, e, he, hm⟩
      cases hf : first_inout_mismatch (inout_verdict VARYING_SLOT_VAR0 prog
          (validate_interstage_inout_blocks_extra_array_level producer consumer)
          (consumer_inputs consumer)) (producer_outputs producer) with
      | none =>
        exfalso
        clear heq
        revert hverdict hf
        generalize producer_outputs producer = outs
        intro hverdict hf
        induction outs with
        | nil => simp [first_inout_mismatch] at hf
        | cons x outs ih =>
          simp only [first_inout_mismatch] at hf
          cases hx : inout_verdict VARYING_SLOT_VAR0 prog
              (validate_interstage_inout_blocks_extra_array_level producer consumer)
              (consumer_inputs consumer) x with
          | none => exact hverdict x (List.mem_cons_self _ _) hx
          | some b =>
            cases b with
            | true =>
              simp only [hx] at hf
              exact ih (fun w hw => hverdict w (List.mem_cons_of_mem _ hw)) hf
            | false => simp [hx] at hf
      | some r =>
        cases r with
        | none =>
          have := (first_inout_mismatch_eq_some_none_iff _ _).1 hf v hv
          rw [(inout_verdict_eq_some_false_iff _ _ _ _ v).2 ⟨e, he, hm⟩] at this
          exact absurd this (by simp)
        | some w => exact ⟨_, rfl⟩
  · intro hno
    rw [heq]
    have hf : first_inout_mismatch (inout_verdict VARYING_SLOT_VAR0 prog
        (validate_interstage_inout_blocks_extra_array_level producer consumer)
        (consumer_inputs consumer)) (producer_outputs producer) = some none := by
      rw [first_inout_mismatch_eq_some_none_iff]
      intro v hv
      rw [inout_verdict_eq_some_true_iff]
      intro e he
      cases hm : interstage_match prog v e
          (validate_interstage_inout_blocks_extra_array_level producer consumer) with
      | none => exact absurd hm (hdef v hv e he)
      | some b =>
        cases b with
        | true => rfl
        | false => exact absurd ⟨v, hv, e, he, hm⟩ hno
    rw [hf]
    rfl
  · intro pre v post e t hpq he hm hpre ht
    rw [heq]
    have hf : first_inout_mismatch (inout_verdict VARYING_SLOT_VAR0 prog
        (validate_interstage_inout_blocks_extra_array_level producer consumer)
        (consumer_inputs consumer)) (producer_outputs producer) = some (some v) := by
      rw [first_inout_mismatch_eq_some_some_iff]
      refine ⟨pre, post, hpq, ?_, (inout_verdict_eq_some_false_iff _ _ _ _ v).2 ⟨e, he, hm⟩⟩
      intro w hw
      rw [inout_verdict_eq_some_true_iff]
      exact hpre w hw
    rw [hf]
    simp only [Option.map_some', report_log, List.nil_append, interface_type_name_eq v t ht]

/-- C14: when no consumer shader-in interface variable has the registry key of
a producer shader-out interface variable, `validate_interstage_inout_blocks`
reports nothing: it leaves the state of the reporter as it was, whatever the
reporter and whatever the types of the producer's output blocks. -/
theorem validate_interstage_inout_blocks_unused_output {σ : Type} (VARYING_SLOT_VAR0 : Nat)
    (linker_error : σ → String → σ) (prog : gl_shader_program) (log : σ)
    (producer consumer : gl_linked_shader)
    (hunused : ∀ u ∈ consumer_inputs consumer, ∀ v ∈ producer_outputs producer,
      registry_key VARYING_SLOT_VAR0 u ≠ registry_key VARYING_SLOT_VAR0 v) :
    validate_interstage_inout_blocks VARYING_SLOT_VAR0 linker_error prog log producer consumer
      = some log := by
  rw [validate_interstage_inout_blocks_eq]
  have hf : first_inout_mismatch (inout_verdict VARYING_SLOT_VAR0 prog
      (validate_interstage_inout_blocks_extra_array_level producer consumer)
      (consumer_inputs consumer)) (producer_outputs producer) = some none := by
    rw [first_inout_mismatch_eq_some_none_iff]
    intro v hv
    unfold inout_verdict
    have hnone : (consumer_inputs consumer).find? (fun u => same_key VARYING_SLOT_VAR0 u v)
        = none := by
      rw [List.find?_eq_none]
      intro u hu
      simp only [same_key, beq_iff_eq]
      exact hunused u hu v hv
    rw [hnone]
  rw [hf]
  rfl

/-- The variables filed by `validate_interstage_uniform_blocks` have an
interface type and mode uniform or shader storage. -/
theorem of_mem_uniform_block_variables (stages : List (Option gl_linked_shader))
    (v : ir_variable) (hv : v ∈ uniform_block_variables stages) :
    v.get_interface_type.isSome = true
      ∧ (v.data.mode = ir_var_uniform ∨ v.data.mode = ir_var_shader_storage) := by
  unfold uniform_block_variables at hv
  obtain ⟨node, -, hn⟩ := List.mem_filterMap.1 hv
  unfold uniform_block_variable at hn
  cases hav : node.as_variable with
  | none => simp [hav] at hn
  | some var =>
    simp only [hav, Option.some_bind] at hn
    split_ifs at hn with hc
    simp only [Option.some.injEq] at hn
    subst hn
    simpa using hc

/-- The first mismatch only depends on the values of `bad` along the scan. -/
theorem first_mismatch_congr {α : Type} (bad₁ bad₂ : List α → α → Bool) (vars : List α) :
    ∀ pre : List α,
      (∀ (p : List α) (v : α) (q : List α), vars = p ++ v :: q →
        bad₁ (pre ++ p) v = bad₂ (pre ++ p) v) →
      first_mismatch bad₁ pre vars = first_mismatch bad₂ pre vars := by
  induction vars with
  | nil =>
    intro pre _
    rfl
  | cons x vars ih =>
    intro pre h
    have hx := h [] x vars rfl
    simp only [List.append_nil] at hx
    simp only [first_mismatch, hx]
    rw [ih (pre ++ [x])]
    intro p v q hpq
    have := h (x :: p) v q (by rw [hpq]; rfl)
    simpa using this

/-- Two predicates that agree on a list find the same element in it. -/
theorem find?_congr_of_mem {α : Type} (p q : α → Bool) (l : List α)
    (h : ∀ x ∈ l, p x = q x) : l.find? p = l.find? q := by
  induction l with
  | nil => rfl
  | cons x l ih =>
    simp only [List.find?_cons, h x (List.mem_cons_self _ _)]
    rw [ih (fun y hy => h y (List.mem_cons_of_mem _ hy))]

/-- Stages read as compilation units have the same instructions. -/
theorem shader_list_ir_map_as_unit (stages : List (Option gl_linked_shader)) :
    shader_list_ir (stages.map (Option.map gl_linked_shader.as_unit)) = stages_ir stages := by
  unfold shader_list_ir stages_ir
  induction stages with
  | nil => rfl
  | cons s stages ih =>
    cases s with
    | none => simpa using ih
    | some sh =>
      simp only [List.map_cons, Option.map_some', List.filterMap_cons, id, List.flatMap_cons, ih]
      rfl

/-- C19: in `validate_interstage_inout_blocks`, `extra_array_level` is true
exactly when the producer is the vertex stage and the consumer is not the
fragment stage, or the consumer is the geometry stage; `interstage_match` is
called with that flag.  Among the legal adjacent stage pairs it is true for
VS to TCS, VS to TES, VS to GS and TES to GS, and false for VS to FS, TCS to
TES, TES to FS and GS to FS. -/
theorem validate_interstage_inout_blocks_extra_array_level_iff :
    (∀ producer consumer : gl_linked_shader,
      validate_interstage_inout_blocks_extra_array_level producer consumer = true ↔
        (producer.Stage = MESA_SHADER_VERTEX ∧ consumer.Stage ≠ MESA_SHADER_FRAGMENT)
          ∨ consumer.Stage = MESA_SHADER_GEOMETRY)
    ∧ (∀ (VARYING_SLOT_VAR0 : Nat) (prog : gl_shader_program) (log : List String)
        (producer consumer : gl_linked_shader),
        validate_interstage_inout_blocks VARYING_SLOT_VAR0 report_log prog log
          producer consumer
        = (first_inout_mismatch
            (inout_verdict VARYING_SLOT_VAR0 prog
              (decide ((producer.Stage = MESA_SHADER_VERTEX
                  ∧ consumer.Stage ≠ MESA_SHADER_FRAGMENT)
                ∨ consumer.Stage = MESA_SHADER_GEOMETRY))
              (consumer_inputs consumer))
            (producer_outputs producer)).map (fun r =>
              match r with
              | none => log
              | some v => report_log log
                  ("definitions of interface block `" ++ v.interface_type_name
                    ++ "' do not match\n")))
    ∧ (∀ pir cir : List ir_instruction,
        validate_interstage_inout_blocks_extra_array_level
            ⟨MESA_SHADER_VERTEX, pir⟩ ⟨MESA_SHADER_TESS_CTRL, cir⟩ = true
        ∧ validate_interstage_inout_blocks_extra_array_level
            ⟨MESA_SHADER_VERTEX, pir⟩ ⟨MESA_SHADER_TESS_EVAL, cir⟩ = true
        ∧ validate_interstage_inout_blocks_extra_array_level
            ⟨MESA_SHADER_VERTEX, pir⟩ ⟨MESA_SHADER_GEOMETRY, cir⟩ = true
        ∧ validate_interstage_inout_blocks_extra_array_level
            ⟨MESA_SHADER_VERTEX, pir⟩ ⟨MESA_SHADER_FRAGMENT, cir⟩ = false
        ∧ validate_interstage_inout_blocks_extra_array_level
            ⟨MESA_SHADER_TESS_CTRL, pir⟩ ⟨MESA_SHADER_TESS_EVAL, cir⟩ = false
        ∧ validate_interstage_inout_blocks_extra_array_level
            ⟨MESA_SHADER_TESS_EVAL, pir⟩ ⟨MESA_SHADER_GEOMETRY, cir⟩ = true
        ∧ validate_interstage_inout_blocks_extra_array_level
            ⟨MESA_SHADER_TESS_EVAL, pir⟩ ⟨MESA_SHADER_FRAGMENT, cir⟩ = false
        ∧ validate_interstage_inout_blocks_extra_array_level
            ⟨MESA_SHADER_GEOMETRY, pir⟩ ⟨MESA_SHADER_FRAGMENT, cir⟩ = false) := by
  have hiff : ∀ producer consumer : gl_linked_shader,
      validate_interstage_inout_blocks_extra_array_level producer consumer = true ↔
        (producer.Stage = MESA_SHADER_VERTEX ∧ consumer.Stage ≠ MESA_SHADER_FRAGMENT)
          ∨ consumer.Stage = MESA_SHADER_GEOMETRY := by
    intro producer consumer
    unfold validate_interstage_inout_blocks_extra_array_level
    simp
  refine ⟨hiff, ?_, ?_⟩
  · intro VARYING_SLOT_VAR0 prog log producer consumer
    rw [validate_interstage_inout_blocks_eq]
    have : validate_interstage_inout_blocks_extra_array_level producer consumer
        = decide ((producer.Stage = MESA_SHADER_VERTEX
            ∧ consumer.Stage ≠ MESA_SHADER_FRAGMENT)
          ∨ consumer.Stage = MESA_SHADER_GEOMETRY) := by
      rw [Bool.eq_iff_iff, hiff]
      simp
    rw [this]
  · intro pir cir
    refine ⟨rfl, rfl, rfl, rfl, rfl, rfl, rfl, rfl⟩

/-- The scan of the outputs is defined when every verdict is. -/
theorem first_inout_mismatch_ne_none {α : Type} (verdict : α → Option Bool) (vars : List α)
    (h : ∀ v ∈ vars, verdict v ≠ none) : first_inout_mismatch verdict vars ≠ none := by
  induction vars with
  | nil => simp [first_inout_mismatch]
  | cons x vars ih =>
    simp only [first_inout_mismatch]
    cases hx : verdict x with
    | none => exact absurd hx (h x (List.mem_cons_self _ _))
    | some b =>
      cases b with
      | true => exact ih (fun w hw => h w (List.mem_cons_of_mem _ hw))
      | false => simp

/-- The first mismatch is one of the scanned elements. -/
theorem mem_of_first_mismatch_eq_some {α : Type} (bad : List α → α → Bool) (pre vars : List α)
    (v : α) (h : first_mismatch bad pre vars = some v) : v ∈ vars := by
  obtain ⟨p, q, hpq, -, -⟩ := (first_mismatch_eq_some_iff bad pre vars v).1 h
  rw [hpq]
  simp

/-- The producer outputs have an interface type and mode shader out. -/
theorem of_mem_producer_outputs (producer : gl_linked_shader) (v : ir_variable)
    (hv : v ∈ producer_outputs producer) :
    v.get_interface_type.isSome = true ∧ v.data.mode = ir_var_shader_out := by
  unfold producer_outputs at hv
  obtain ⟨node, -, hn⟩ := List.mem_filterMap.1 hv
  unfold producer_output at hn
  cases hav : node.as_variable with
  | none => simp [hav] at hn
  | some var =>
    simp only [hav, Option.some_bind] at hn
    split_ifs at hn with hc
    simp only [Option.some.injEq] at hn
    subst hn
    simpa using hc

/-! ## Witnesses of the properties of the validators -/

/-- Witness of C11 amended: in an empty registry, after the stores of the
instances `b` and `c` of the block `A`, a lookup of `c` returns `b`. -/
theorem registry_first_key_wins_witness :
    ((interface_block_definitions.empty.store 32
          (example_instance "b" (example_block 1 "A" 0) ir_var_shader_in)).bind
        (fun d1 => d1.store 32
          (example_instance "c" (example_block 1 "A" 0) ir_var_shader_in))).bind
      (fun d2 => d2.lookup 32
          (example_instance "c" (example_block 1 "A" 0) ir_var_shader_in))
    = some (some (example_instance "b" (example_block 1 "A" 0) ir_var_shader_in)) :=
  (@registry_first_key_wins Unit 32 interface_block_definitions.empty
    (example_instance "b" (example_block 1 "A" 0) ir_var_shader_in)
    (example_instance "c" (example_block 1 "A" 0) ir_var_shader_in)
    (example_instance "c" (example_block 1 "A" 0) ir_var_shader_in)
    "A" (by decide) (by decide) (by decide)).2.1 (by decide)

/-- Witness of C12: two compilation units declare the uniform block `U` with
different types, the second before a further block: one error names `U`. -/
theorem validate_intrastage_interface_blocks_reports_witness :
    validate_intrastage_interface_blocks 32 true report_log
        (pure_validate_intrastage_arrays (fun _ _ => false)) []
        [some ⟨[⟨some (example_instance "u" (example_block 1 "U" 0) ir_var_uniform)⟩]⟩,
         some ⟨[⟨some (example_instance "u" (example_block 2 "U" 1) ir_var_uniform)⟩,
                ⟨some (example_instance "w" (example_block 3 "W" 0) ir_var_uniform)⟩]⟩]
      = some ["definitions of interface block `" ++ "U" ++ "' do not match\n"] :=
  ((validate_intrastage_interface_blocks_reports 32 true (fun _ _ => false)
    [some ⟨[⟨some (example_instance "u" (example_block 1 "U" 0) ir_var_uniform)⟩]⟩,
     some ⟨[⟨some (example_instance "u" (example_block 2 "U" 1) ir_var_uniform)⟩,
            ⟨some (example_instance "w" (example_block 3 "W" 0) ir_var_uniform)⟩]⟩]
    (Or.inl rfl)).2.2
    [example_instance "u" (example_block 1 "U" 0) ir_var_uniform]
    (example_instance "u" (example_block 2 "U" 1) ir_var_uniform)
    [example_instance "w" (example_block 3 "W" 0) ir_var_uniform]
    (example_instance "u" (example_block 1 "U" 0) ir_var_uniform)
    (example_block 2 "U" 1)
    (by decide) (by decide) (by decide)
    (by
      intro pre' w post' u' h hf
      cases pre' with
      | nil => simp at hf
      | cons x xs => cases xs <;> simp at h)
    rfl).2

/-- Witness of C13: a vertex stage outputs `V { vec4 pos; }`, the fragment
stage inputs a block `V` of another type with another interpolation, on a
desktop 3.30 program: one error names `V`. -/
theorem validate_interstage_inout_blocks_reports_witness :
    validate_interstage_inout_blocks 32 report_log ⟨false, 330⟩ []
        ⟨MESA_SHADER_VERTEX,
          [⟨some (example_instance "blk" (example_block 1 "V" 1) ir_var_shader_out)⟩]⟩
        ⟨MESA_SHADER_FRAGMENT,
          [⟨some (example_instance "blk" (example_block 2 "V" 2) ir_var_shader_in)⟩]⟩
      = some ["definitions of interface block `" ++ "V" ++ "' do not match\n"] :=
  (validate_interstage_inout_blocks_reports 32 ⟨false, 330⟩
    ⟨MESA_SHADER_VERTEX,
      [⟨some (example_instance "blk" (example_block 1 "V" 1) ir_var_shader_out)⟩]⟩
    ⟨MESA_SHADER_FRAGMENT,
      [⟨some (example_instance "blk" (example_block 2 "V" 2) ir_var_shader_in)⟩]⟩
    (by
      intro v hv e he
      have hv' : v = example_instance "blk" (example_block 1 "V" 1) ir_var_shader_out :=
        List.mem_singleton.1 hv
      subst hv'
      have he' : some (example_instance "blk" (example_block 2 "V" 2) ir_var_shader_in)
          = some e := he
      cases he'
      decide)).2.2
    []
    (example_instance "blk" (example_block 1 "V" 1) ir_var_shader_out)
    []
    (example_instance "blk" (example_block 2 "V" 2) ir_var_shader_in)
    (example_block 1 "V" 1)
    rfl (by decide) (by decide) (by simp) rfl

/-- Witness of C14: the producer outputs a block `A` that the consumer, whose
only input is a block `B`, does not use: nothing is reported. -/
theorem validate_interstage_inout_blocks_unused_output_witness :
    validate_interstage_inout_blocks 32 report_log ⟨true, 300⟩ []
        ⟨MESA_SHADER_VERTEX,
          [⟨some (example_instance "a" (example_block 1 "A" 0) ir_var_shader_out)⟩]⟩
        ⟨MESA_SHADER_FRAGMENT,
          [⟨some (example_instance "b" (example_block 2 "B" 0) ir_var_shader_in)⟩]⟩
      = some [] :=
  validate_interstage_inout_blocks_unused_output 32 report_log ⟨true, 300⟩ []
    ⟨MESA_SHADER_VERTEX,
      [⟨some (example_instance "a" (example_block 1 "A" 0) ir_var_shader_out)⟩]⟩
    ⟨MESA_SHADER_FRAGMENT,
      [⟨some (example_instance "b" (example_block 2 "B" 0) ir_var_shader_in)⟩]⟩
    (by decide)

/-- An element on which the body falls through, leaving everything as it was,
can be taken out of the list the loop runs over. -/
theorem foreach_in_list_skip {α β σ : Type} (body : β → α → σ → loop_step α σ) (b : β)
    (hb : ∀ st prog, body b st prog = .next st prog) (l₁ l₂ : List β) (st : α) (prog : σ) :
    foreach_in_list body (l₁ ++ b :: l₂) st prog = foreach_in_list body (l₁ ++ l₂) st prog := by
  rw [foreach_in_list_append, foreach_in_list_append]
  cases foreach_in_list body l₁ st prog with
  | next st' prog' => simp only [foreach_in_list, hb]
  | ret prog' => rfl
  | abort => rfl

/-- The same, for an instruction of one of the units of an array of units. -/
theorem foreach_in_list_foreach_unit_skip {α β γ σ : Type}
    (body : β → α → σ → loop_step α σ) (ir : γ → List β) (b : β)
    (hb : ∀ st prog, body b st prog = .next st prog)
    (units₁ units₂ : List (Option γ)) (u u' : γ) (pre post : List β)
    (hu : ir u = pre ++ b :: post) (hu' : ir u' = pre ++ post) (st : α) (prog : σ) :
    foreach_in_list (foreach_unit body ir) (units₁ ++ some u :: units₂) st prog
      = foreach_in_list (foreach_unit body ir) (units₁ ++ some u' :: units₂) st prog := by
  rw [foreach_in_list_foreach_unit, foreach_in_list_foreach_unit]
  simp only [List.filterMap_append, List.filterMap_cons, id, List.flatMap_append,
    List.flatMap_cons, hu, hu']
  have h := foreach_in_list_skip body b hb
    ((units₁.filterMap id).flatMap ir ++ pre) (post ++ (units₂.filterMap id).flatMap ir) st prog
  simpa [List.append_assoc] using h

/-- C18: a variable with no interface type never participates in matching.
For each of the three validators, whatever the reporter and the array
reconciliation, taking such a variable out of (or putting it into) any
position of any compilation unit, of the producer, of the consumer or of any
stage leaves the outcome as it is: the same errors are reported, naming the
same blocks. -/
theorem no_interface_type_never_participates {σ : Type} (VARYING_SLOT_VAR0 : Nat)
    (NDEBUG : Bool) (linker_error : σ → String → σ)
    (validate_intrastage_arrays : σ → ir_variable → ir_variable → Bool × σ × ir_variable)
    (var : ir_variable) (hvar : var.get_interface_type = none) :
    (∀ (prog : σ) (units₁ units₂ : List (Option gl_shader)) (pre post : List ir_instruction),
      validate_intrastage_interface_blocks VARYING_SLOT_VAR0 NDEBUG linker_error
          validate_intrastage_arrays prog
          (units₁ ++ some ⟨pre ++ ⟨some var⟩ :: post⟩ :: units₂)
        = validate_intrastage_interface_blocks VARYING_SLOT_VAR0 NDEBUG linker_error
          validate_intrastage_arrays prog (units₁ ++ some ⟨pre ++ post⟩ :: units₂))
    ∧ (∀ (prog : gl_shader_program) (log : σ) (stage : gl_shader_stage)
        (pre post : List ir_instruction) (consumer : gl_linked_shader),
      validate_interstage_inout_blocks VARYING_SLOT_VAR0 linker_error prog log
          ⟨stage, pre ++ ⟨some var⟩ :: post⟩ consumer
        = validate_interstage_inout_blocks VARYING_SLOT_VAR0 linker_error prog log
          ⟨stage, pre ++ post⟩ consumer)
    ∧ (∀ (prog : gl_shader_program) (log : σ) (stage : gl_shader_stage)
        (pre post : List ir_instruction) (producer : gl_linked_shader),
      validate_interstage_inout_blocks VARYING_SLOT_VAR0 linker_error prog log
          producer ⟨stage, pre ++ ⟨some var⟩ :: post⟩
        = validate_interstage_inout_blocks VARYING_SLOT_VAR0 linker_error prog log
          producer ⟨stage, pre ++ post⟩)
    ∧ (∀ (prog : σ) (stages₁ stages₂ : List (Option gl_linked_shader))
        (stage : gl_shader_stage) (pre post : List ir_instruction),
      validate_interstage_uniform_blocks VARYING_SLOT_VAR0 linker_error
          validate_intrastage_arrays prog
          (stages₁ ++ some ⟨stage, pre ++ ⟨some var⟩ :: post⟩ :: stages₂)
        = validate_interstage_uniform_blocks VARYING_SLOT_VAR0 linker_error
          validate_intrastage_arrays prog
          (stages₁ ++ some ⟨stage, pre ++ post⟩ :: stages₂)) := by
  have hintra : ∀ (defs : intrastage_interfaces) (prog : σ),
      validate_intrastage_interface_blocks_node VARYING_SLOT_VAR0 NDEBUG linker_error
        validate_intrastage_arrays ⟨some var⟩ defs prog = .next defs prog := by
    intro defs prog
    simp [validate_intrastage_interface_blocks_node, hvar]
  have hcons : ∀ (d : interface_block_definitions) (log : σ),
      validate_interstage_inout_blocks_consumer_node VARYING_SLOT_VAR0 ⟨some var⟩ d log
        = .next d log := by
    intro d log
    simp [validate_interstage_inout_blocks_consumer_node, hvar]
  have hprod : ∀ (prog : gl_shader_program) (extra : Bool) (d : interface_block_definitions)
      (st : Unit) (log : σ),
      validate_interstage_inout_blocks_producer_node VARYING_SLOT_VAR0 linker_error prog extra d
        ⟨some var⟩ st log = .next st log := by
    intro prog extra d st log
    simp [validate_interstage_inout_blocks_producer_node, hvar]
  have huni : ∀ (d : interface_block_definitions) (prog : σ),
      validate_interstage_uniform_blocks_node VARYING_SLOT_VAR0 linker_error
        validate_intrastage_arrays ⟨some var⟩ d prog = .next d prog := by
    intro d prog
    simp [validate_interstage_uniform_blocks_node, hvar]
  refine ⟨?_, ?_, ?_, ?_⟩
  · intro prog units₁ units₂ pre post
    unfold validate_intrastage_interface_blocks
    rw [foreach_in_list_foreach_unit_skip _ gl_shader.ir ⟨some var⟩ hintra units₁ units₂
      ⟨pre ++ ⟨some var⟩ :: post⟩ ⟨pre ++ post⟩ pre post rfl rfl]
  · intro prog log stage pre post consumer
    unfold validate_interstage_inout_blocks
    have hextra : validate_interstage_inout_blocks_extra_array_level
          ⟨stage, pre ++ ⟨some var⟩ :: post⟩ consumer
        = validate_interstage_inout_blocks_extra_array_level ⟨stage, pre ++ post⟩ consumer :=
      rfl
    rw [hextra]
    cases foreach_in_list (validate_interstage_inout_blocks_consumer_node VARYING_SLOT_VAR0)
        consumer.ir interface_block_definitions.empty log with
    | next d log' =>
      simp only
      rw [foreach_in_list_skip _ ⟨some var⟩ (hprod prog _ d) pre post]
    | ret log' => rfl
    | abort => rfl
  · intro prog log stage pre post producer
    unfold validate_interstage_inout_blocks
    have hextra : validate_interstage_inout_blocks_extra_array_level producer
          ⟨stage, pre ++ ⟨some var⟩ :: post⟩
        = validate_interstage_inout_blocks_extra_array_level producer ⟨stage, pre ++ post⟩ :=
      rfl
    rw [hextra]
    simp only
    rw [foreach_in_list_skip _ ⟨some var⟩ hcons pre post]
  · intro prog stages₁ stages₂ stage pre post
    unfold validate_interstage_uniform_blocks
    rw [foreach_in_list_foreach_unit_skip _ gl_linked_shader.ir ⟨some var⟩ huni stages₁ stages₂
      ⟨stage, pre ++ ⟨some var⟩ :: post⟩ ⟨stage, pre ++ post⟩ pre post rfl rfl]

/-- Witness of C18: a plain global `x` (no interface type) put before the
uniform block `U` of a compilation unit changes nothing. -/
theorem no_interface_type_never_participates_witness :
    validate_intrastage_interface_blocks 32 false report_log
        (pure_validate_intrastage_arrays (fun _ _ => false)) []
        ([] ++ some ⟨[] ++ ⟨some ⟨"x", .basic 9 "vec4", none,
            ⟨ir_var_uniform, ir_var_declared_normally, false, 0⟩, false⟩⟩
          :: [⟨some (example_instance "u" (example_block 1 "U" 0) ir_var_uniform)⟩]⟩ :: [])
      = validate_intrastage_interface_blocks 32 false report_log
        (pure_validate_intrastage_arrays (fun _ _ => false)) []
        ([] ++ some ⟨[] ++
          [⟨some (example_instance "u" (example_block 1 "U" 0) ir_var_uniform)⟩]⟩ :: []) :=
  (no_interface_type_never_participates 32 false report_log
    (pure_validate_intrastage_arrays (fun _ _ => false))
    ⟨"x", .basic 9 "vec4", none, ⟨ir_var_uniform, ir_var_declared_normally, false, 0⟩, false⟩
    rfl).1 [] [] []
    [] [⟨some (example_instance "u" (example_block 1 "U" 0) ir_var_uniform)⟩]

/-! ## Symmetry of the member comparison -/

/-- The comparisons of one loop iteration do not depend on the order of the two
fields. -/
theorem interstage_member_mismatch_at_comm (prog : gl_shader_program)
    (cf pf : glsl_struct_field) :
    interstage_member_mismatch_at prog cf pf = interstage_member_mismatch_at prog pf cf := by
  rw [Bool.eq_iff_iff, interstage_member_mismatch_at_eq_true_iff,
    interstage_member_mismatch_at_eq_true_iff]
  simp only [ne_comm]

/-- The loop over the fields does not depend on the order of the two field
arrays. -/
theorem interstage_member_mismatch_loop_comm (prog : gl_shader_program) :
    ∀ cs ps : List glsl_struct_field,
      interstage_member_mismatch_loop prog cs ps = interstage_member_mismatch_loop prog ps cs
  | [], [] => rfl
  | [], _ :: _ => rfl
  | _ :: _, [] => rfl
  | cf :: cs, pf :: ps => by
    simp only [interstage_member_mismatch_loop, interstage_member_mismatch_at_comm prog cf pf,
      interstage_member_mismatch_loop_comm prog cs ps]

/-- C22: `interstage_member_mismatch` is symmetric in its two type arguments:
for every program and every two types `c` and `p`, the verdict on `c` and `p`
is the verdict on `p` and `c`. -/
theorem interstage_member_mismatch_symmetric (prog : gl_shader_program) (c p : glsl_type) :
    interstage_member_mismatch prog c p = interstage_member_mismatch prog p c := by
  have hlen : (c.length != p.length) = (p.length != c.length) := by
    rw [Bool.eq_iff_iff]
    simp only [bne_iff_ne, ne_comm]
  simp only [interstage_member_mismatch, hlen,
    interstage_member_mismatch_loop_comm prog c.fields_structure p.fields_structure]

/-! ## Identical redeclarations -/

/-- An identical redeclaration matches, whatever the reconciliation of array
sizes is, and the program state and the first interface are left as they
were. -/
theorem intrastage_match_of_identical_redeclaration {σ : Type}
    (R : σ → ir_variable → ir_variable → Bool × σ × ir_variable) (a b : ir_variable) (prog : σ)
    (h : identical_redeclaration a b = true) :
    intrastage_match R a b prog = (true, prog, a) := by
  unfold identical_redeclaration at h
  simp only [Bool.and_eq_true, beq_iff_eq] at h
  obtain ⟨⟨⟨h1, h2⟩, h3⟩, h4⟩ := h
  unfold intrastage_match
  simp [h1, h2, h3, h4]

/-- The lookup, store or match statements on a variable that repeats the
variable stored under its key, if there is one: the loop goes on, and the
program state is left as it was. -/
theorem lookup_store_or_match_identical {σ : Type} (VARYING_SLOT_VAR0 : Nat)
    (linker_error : σ → String → σ) (R : σ → ir_variable → ir_variable → Bool × σ × ir_variable)
    (d : interface_block_definitions) (stored : List ir_variable) (var : ir_variable)
    (key : String) (message : String) (prog : σ)
    (h : registry_holds VARYING_SLOT_VAR0 d stored)
    (hk : registry_key VARYING_SLOT_VAR0 var = some key)
    (hid : ∀ u, stored.find? (fun u => registry_key VARYING_SLOT_VAR0 u
        == registry_key VARYING_SLOT_VAR0 var) = some u → identical_redeclaration u var = true) :
    ∃ d', registry_holds VARYING_SLOT_VAR0 d' (stored ++ [var]) ∧
      lookup_store_or_match VARYING_SLOT_VAR0 linker_error R d var message prog
        = .next d' prog := by
  have hl := registry_holds_lookup VARYING_SLOT_VAR0 d stored var key h hk
  unfold lookup_store_or_match
  rw [hl]
  cases hf : stored.find? (fun u => registry_key VARYING_SLOT_VAR0 u
      == registry_key VARYING_SLOT_VAR0 var) with
  | none =>
    obtain ⟨d', hs, hd'⟩ := registry_holds_store VARYING_SLOT_VAR0 d stored var key h hk
    refine ⟨d', hd', ?_⟩
    simp [hs]
  | some u =>
    refine ⟨d, registry_holds_hit VARYING_SLOT_VAR0 d stored var u h hf, ?_⟩
    rw [hf] at hl
    simp only
    rw [intrastage_match_of_identical_redeclaration R u var prog (hid u hf)]
    simp only [write_back_of_lookup VARYING_SLOT_VAR0 d var u hl]

/-- The inner loop body of `validate_intrastage_interface_blocks`, run over
variables of which each repeats the declarations of the same mode and key
before it: the loop runs to its end and leaves the program state as it was. -/
theorem intrastage_scan_identical {σ : Type} (VARYING_SLOT_VAR0 : Nat) (NDEBUG : Bool)
    (linker_error : σ → String → σ) (R : σ → ir_variable → ir_variable → Bool × σ × ir_variable)
    (vars : List ir_variable) :
    ∀ (stored : List ir_variable) (defs : intrastage_interfaces) (prog : σ),
      intrastage_holds VARYING_SLOT_VAR0 defs stored →
      (∀ v ∈ vars, v.get_interface_type.isSome = true ∧ is_interface_mode v.data.mode = true) →
      (∀ u ∈ stored ++ vars, ∀ v ∈ stored ++ vars,
        same_mode_and_key VARYING_SLOT_VAR0 u v = true → identical_redeclaration u v = true) →
      (foreach_in_list
        (fun v defs prog => validate_intrastage_interface_blocks_node VARYING_SLOT_VAR0 NDEBUG
          linker_error R ⟨some v⟩ defs prog)
        vars defs prog).finish = some prog := by
  induction vars with
  | nil =>
    intro stored defs prog _ _ _
    rfl
  | cons v vars ih =>
    intro stored defs prog h hv hid
    obtain ⟨hi, hm⟩ := hv v (List.mem_cons_self _ _)
    obtain ⟨t, ht⟩ := Option.isSome_iff_exists.1 hi
    obtain ⟨key, hk⟩ := registry_key_isSome_of_interface_type VARYING_SLOT_VAR0 v hi
    obtain ⟨d, hd⟩ := intrastage_interfaces_get_isSome defs v.data.mode hm
    obtain ⟨d', hd', hstep⟩ := lookup_store_or_match_identical VARYING_SLOT_VAR0 linker_error R
      d (stored.filter (fun u => u.data.mode == v.data.mode)) v key
      ("definitions of interface block `" ++ t.name ++ "' do not match\n") prog
      (h v.data.mode d hd) hk
      (by
        intro u hu
        have hmem := List.mem_of_find?_eq_some hu
        have hp := List.find?_some hu
        rw [List.mem_filter] at hmem
        apply hid u (List.mem_append_left _ hmem.1) v
          (List.mem_append_right _ (List.mem_cons_self _ _))
        unfold same_mode_and_key same_key
        rw [hmem.2, hp]
        rfl)
    simp only [foreach_in_list, validate_intrastage_interface_blocks_node, ht, hd, hstep]
    apply ih (stored ++ [v]) (defs.set v.data.mode d') prog
    · intro m dm hdm
      rw [intrastage_interfaces_get_set defs v.data.mode m d' hm] at hdm
      by_cases hmm : m = v.data.mode
      · subst hmm
        simp only [if_true, Option.some.injEq] at hdm
        subst hdm
        simpa [List.filter_append, List.filter_cons] using hd'
      · simp only [hmm, if_false] at hdm
        have hne : (v.data.mode == m) = false := beq_false_of_ne (fun e => hmm e.symm)
        have := h m dm hdm
        simpa [List.filter_append, List.filter_cons, hne] using this
    · exact fun w hw => hv w (List.mem_cons_of_mem _ hw)
    · simpa [List.append_assoc] using hid

/-- A stage of which each filed variable repeats the declarations of the same
mode and key passes `validate_intrastage_interface_blocks`, whatever the
reconciliation of array sizes is. -/
theorem validate_intrastage_interface_blocks_identical {σ : Type} (VARYING_SLOT_VAR0 : Nat)
    (NDEBUG : Bool) (linker_error : σ → String → σ)
    (R : σ → ir_variable → ir_variable → Bool × σ × ir_variable)
    (prog : σ) (shader_list : List (Option gl_shader))
    (hassert : NDEBUG = true ∨
      ∀ node ∈ shader_list_ir shader_list, ∀ var : ir_variable,
        node.as_variable = some var → var.get_interface_type.isSome = true →
        is_interface_mode var.data.mode = true)
    (hid : ∀ u ∈ intrastage_block_variables shader_list,
      ∀ v ∈ intrastage_block_variables shader_list,
        same_mode_and_key VARYING_SLOT_VAR0 u v = true → identical_redeclaration u v = true) :
    validate_intrastage_interface_blocks VARYING_SLOT_VAR0 NDEBUG linker_error R prog shader_list
      = some prog := by
  unfold validate_intrastage_interface_blocks
  unfold intrastage_block_variables at hid
  unfold shader_list_ir at hassert hid
  rw [foreach_in_list_foreach_unit]
  rw [foreach_in_list_filterMap _
    (fun v defs prog => validate_intrastage_interface_blocks_node VARYING_SLOT_VAR0 NDEBUG
      linker_error R ⟨some v⟩ defs prog)
    intrastage_block_variable]
  · apply intrastage_scan_identical VARYING_SLOT_VAR0 NDEBUG linker_error R _ [] _ prog
      (intrastage_holds_empty VARYING_SLOT_VAR0)
    · intro v hv
      obtain ⟨node, -, hn⟩ := List.mem_filterMap.1 hv
      unfold intrastage_block_variable at hn
      cases hav : node.as_variable with
      | none => simp [hav] at hn
      | some var =>
        simp only [hav, Option.some_bind] at hn
        split_ifs at hn with hc
        simp only [Option.some.injEq] at hn
        subst hn
        simpa using hc
    · simpa using hid
  · intro node hmem st prog hn
    unfold intrastage_block_variable at hn
    unfold validate_intrastage_interface_blocks_node
    cases hav : node.as_variable with
    | none => rfl
    | some var =>
      simp only [hav, Option.some_bind] at hn
      cases hit : var.get_interface_type with
      | none => simp [hit]
      | some t =>
        have hm : is_interface_mode var.data.mode = false := by
          simpa [hit] using hn
        have hg : st.get var.data.mode = none := by
          cases hmode : var.data.mode <;> simp_all [is_interface_mode, intrastage_interfaces.get]
        rcases hassert with hN | hall
        · simp [hit, hg, hN]
        · have := hall node hmem var hav (by simp [hit])
          rw [hm] at this
          exact absurd this (by simp)
  · intro node _ c st prog hn
    unfold intrastage_block_variable at hn
    cases hav : node.as_variable with
    | none => simp [hav] at hn
    | some var =>
      simp only [hav, Option.some_bind] at hn
      split_ifs at hn with hc
      simp only [Option.some.injEq] at hn
      subst hn
      have : node = ⟨some var⟩ := by
        cases node
        simp_all
      rw [this]

/-- C23: an identical redeclaration always matches.  For every program state
and every two variables `a` and `b` with the same interface type, the same
type, the same interface-instance flag and the same name, `intrastage_match`
gives true and leaves the program state and the first interface as they were,
whatever the reconciliation of array sizes would answer: it is not consulted.  Hence a stage in which every
two filed variables of the same mode and registry key are such redeclarations
of each other passes `validate_intrastage_interface_blocks`: no error is
reported and the program state is left as it was.  (Where `assert` is live, the
variables with an interface type are assumed to have one of the four modes.) -/
theorem identical_redeclaration_matches {σ : Type} (VARYING_SLOT_VAR0 : Nat)
    (NDEBUG : Bool) (linker_error : σ → String → σ)
    (validate_intrastage_arrays : σ → ir_variable → ir_variable → Bool × σ × ir_variable)
    (a b : ir_variable) (prog : σ) (shader_list : List (Option gl_shader))
    (hinterface : glsl_type_ptr_eq a.get_interface_type b.get_interface_type = true)
    (htype : a.type.addr = b.type.addr)
    (hinstance : a.is_interface_instance = b.is_interface_instance)
    (hname : a.name = b.name)
    (hassert : NDEBUG = true ∨
      ∀ node ∈ shader_list_ir shader_list, ∀ var : ir_variable,
        node.as_variable = some var → var.get_interface_type.isSome = true →
        is_interface_mode var.data.mode = true)
    (hrepeat : ∀ u ∈ intrastage_block_variables shader_list,
      ∀ v ∈ intrastage_block_variables shader_list,
        same_mode_and_key VARYING_SLOT_VAR0 u v = true → identical_redeclaration u v = true) :
    intrastage_match validate_intrastage_arrays a b prog = (true, prog, a)
    ∧ validate_intrastage_interface_blocks VARYING_SLOT_VAR0 NDEBUG linker_error
        validate_intrastage_arrays prog shader_list = some prog :=
  ⟨intrastage_match_of_identical_redeclaration validate_intrastage_arrays a b prog
      (by simp [identical_redeclaration, hinterface, htype, hinstance, hname]),
    validate_intrastage_interface_blocks_identical VARYING_SLOT_VAR0 NDEBUG linker_error
      validate_intrastage_arrays prog shader_list hassert hrepeat⟩

/-- Witness of C23: two compilation units repeat the uniform block `U` and the
output block `V`; a reconciliation that would reject and log is never called. -/
theorem identical_redeclaration_matches_witness :
    intrastage_match (fun (log : List String) _ existing => (false, log ++ ["consulted"], existing))
        (example_instance "u" (example_block 1 "U" 0) ir_var_uniform)
        (example_instance "u" (example_block 1 "U" 0) ir_var_uniform) []
      = (true, [], example_instance "u" (example_block 1 "U" 0) ir_var_uniform)
    ∧ validate_intrastage_interface_blocks 32 false report_log
        (fun (log : List String) _ existing => (false, log ++ ["consulted"], existing)) []
        [some ⟨[⟨some (example_instance "u" (example_block 1 "U" 0) ir_var_uniform)⟩,
                ⟨some (example_instance "v" (example_block 2 "V" 0) ir_var_shader_out)⟩]⟩,
         some ⟨[⟨some (example_instance "u" (example_block 1 "U" 0) ir_var_uniform)⟩,
                ⟨some (example_instance "v" (example_block 2 "V" 0) ir_var_shader_out)⟩]⟩]
      = some [] :=
  identical_redeclaration_matches 32 false report_log
    (fun (log : List String) _ existing => (false, log ++ ["consulted"], existing))
    (example_instance "u" (example_block 1 "U" 0) ir_var_uniform)
    (example_instance "u" (example_block 1 "U" 0) ir_var_uniform) []
    [some ⟨[⟨some (example_instance "u" (example_block 1 "U" 0) ir_var_uniform)⟩,
            ⟨some (example_instance "v" (example_block 2 "V" 0) ir_var_shader_out)⟩]⟩,
     some ⟨[⟨some (example_instance "u" (example_block 1 "U" 0) ir_var_uniform)⟩,
            ⟨some (example_instance "v" (example_block 2 "V" 0) ir_var_shader_out)⟩]⟩]
    (by decide) (by decide) (by decide) (by decide)
    (Or.inr (by simp [shader_list_ir, example_instance, ir_variable.get_interface_type,
      is_interface_mode]))
    (by decide)

/-! ## The extra array level and the producer's type -/

/-- C24: uniform and storage blocks share one registry in
`validate_interstage_uniform_blocks` and use separate registries in
`validate_intrastage_interface_blocks`.  There are an explicitly declared
uniform block `u` and an explicitly declared shader-storage block `s` with the
same block name and different interface types such that, for the unit that
declares `u` then `s`, whatever the reconciliation of array sizes,
`validate_intrastage_interface_blocks` reports no error, while
`validate_interstage_uniform_blocks` on the same instruction list as a
one-stage program reports one. -/
theorem uniform_and_storage_registries :
    ∃ (u s : ir_variable) (unit : gl_shader) (stage : gl_linked_shader),
      u.data.mode = ir_var_uniform ∧ s.data.mode = ir_var_shader_storage
      ∧ u.data.how_declared = ir_var_declared_normally
      ∧ s.data.how_declared = ir_var_declared_normally
      ∧ u.interface_type_name = s.interface_type_name
      ∧ glsl_type_ptr_eq u.get_interface_type s.get_interface_type = false
      ∧ unit.ir = [⟨some u⟩, ⟨some s⟩] ∧ stage.as_unit = unit
      ∧ ∀ (VARYING_SLOT_VAR0 : Nat) (NDEBUG : Bool)
          (validate_intrastage_arrays : List String → ir_variable → ir_variable
            → Bool × List String × ir_variable),
        validate_intrastage_interface_blocks VARYING_SLOT_VAR0 NDEBUG report_log
            validate_intrastage_arrays [] [some unit] = some []
        ∧ validate_interstage_uniform_blocks VARYING_SLOT_VAR0 report_log
            validate_intrastage_arrays [] [some stage]
          = some ["definitions of uniform block `" ++ "B" ++ "' do not match\n"] :=
  ⟨example_instance "u" (example_block 1 "B" 0) ir_var_uniform,
    example_instance "s" (example_block 2 "B" 0) ir_var_shader_storage,
    ⟨[⟨some (example_instance "u" (example_block 1 "B" 0) ir_var_uniform)⟩,
      ⟨some (example_instance "s" (example_block 2 "B" 0) ir_var_shader_storage)⟩]⟩,
    ⟨MESA_SHADER_VERTEX,
      [⟨some (example_instance "u" (example_block 1 "B" 0) ir_var_uniform)⟩,
       ⟨some (example_instance "s" (example_block 2 "B" 0) ir_var_shader_storage)⟩]⟩,
    rfl, rfl, rfl, rfl, by decide, by decide, rfl, rfl,
    fun _ _ _ => ⟨by rfl, by rfl⟩⟩

/-! ## Location-keyed outputs against name-keyed inputs -/

/-- The digits pushed on an accumulator are the digits, then the accumulator. -/
theorem toDigitsCore_append (fuel : Nat) :
    ∀ (n : Nat) (ds : List Char),
      Nat.toDigitsCore 10 fuel n ds = Nat.toDigitsCore 10 fuel n [] ++ ds := by
  induction fuel with
  | zero =>
    intro n ds
    simp [Nat.toDigitsCore]
  | succ fuel ih =>
    intro n ds
    simp only [Nat.toDigitsCore]
    by_cases h : n / 10 = 0
    · simp [h]
    · simp only [h, if_false]
      rw [ih (n / 10) (Nat.digitChar (n % 10) :: ds), ih (n / 10) [Nat.digitChar (n % 10)]]
      simp

/-- The value of a decimal digit character. -/
theorem digitChar_toNat (k : Nat) (h : k < 10) : (Nat.digitChar k).toNat - 48 = k := by
  interval_cases k <;> rfl

/-- The decimal digits of a number denote the number. -/
theorem decimal_value_toDigitsCore (fuel : Nat) :
    ∀ n : Nat, n < fuel → decimal_value (Nat.toDigitsCore 10 fuel n []) = n := by
  induction fuel with
  | zero =>
    intro n h
    omega
  | succ fuel ih =>
    intro n h
    simp only [Nat.toDigitsCore]
    by_cases h0 : n / 10 = 0
    · simp only [h0, if_true, decimal_value, List.foldl]
      rw [digitChar_toNat _ (Nat.mod_lt _ (by decide))]
      omega
    · simp only [h0, if_false]
      rw [toDigitsCore_append]
      have hlt : n / 10 < fuel := by omega
      have := ih (n / 10) hlt
      unfold decimal_value at this ⊢
      rw [List.foldl_append, this]
      simp only [List.foldl]
      rw [digitChar_toNat _ (Nat.mod_lt _ (by decide))]
      omega

/-- The decimal form of a natural number determines it. -/
theorem repr_injective (n m : Nat) (h : Nat.repr n = Nat.repr m) : n = m := by
  have hd : Nat.toDigits 10 n = Nat.toDigits 10 m := by
    have := congrArg String.data h
    simpa [Nat.repr, List.asString] using this
  have hn := decimal_value_toDigitsCore (n + 1) n (Nat.lt_succ_self n)
  have hm := decimal_value_toDigitsCore (m + 1) m (Nat.lt_succ_self m)
  unfold Nat.toDigits at hd
  rw [← hn, ← hm, hd]

/-- The decimal form of a location that is not negative determines it. -/
theorem toString_location_injective (l1 l2 : Int) (h1 : 0 ≤ l1) (h2 : 0 ≤ l2)
    (h : toString l1 = toString l2) : l1 = l2 := by
  obtain ⟨n, rfl⟩ := Int.eq_ofNat_of_zero_le h1
  obtain ⟨m, rfl⟩ := Int.eq_ofNat_of_zero_le h2
  have hn : toString ((n : Nat) : Int) = Nat.repr n := rfl
  have hm : toString ((m : Nat) : Int) = Nat.repr m := rfl
  rw [hn, hm] at h
  rw [repr_injective n m h]

/-- The decimal form of a location that fits a 32-bit `int` and is not negative
has at most 10 characters. -/
theorem toString_location_length (l : Int) (h0 : 0 ≤ l) (h : l ≤ 2147483647) :
    (toString l).length ≤ 10 := by
  obtain ⟨n, rfl⟩ := Int.eq_ofNat_of_zero_le h0
  have hn : n < 10 ^ 10 := by
    have : (n : Int) ≤ 2147483647 := h
    omega
  exact Nat.repr_length n 10 (by decide) hn

/-- C28: the location key is injective.  For every two locations `l1` and `l2`
of a 32-bit `int` that are at or above `VARYING_SLOT_VAR0`: the strings that
`snprintf` with `"%d"` leaves in the 11-byte buffer are the whole decimal
forms, of at most 10 characters; they are equal if and only if `l1 = l2`; and
two variables pinned to the explicit locations `l1 ≠ l2` do not share a
registry key: after a store of the one in an empty registry, the lookup of the
other misses. -/
theorem location_key_injective (VARYING_SLOT_VAR0 : Nat) (l1 l2 : Int)
    (h1 : (VARYING_SLOT_VAR0 : Int) ≤ l1) (hint1 : l1 ≤ 2147483647)
    (h2 : (VARYING_SLOT_VAR0 : Int) ≤ l2) (hint2 : l2 ≤ 2147483647) :
    (snprintf_d 11 l1 = toString l1 ∧ (snprintf_d 11 l1).length ≤ 10)
    ∧ (snprintf_d 11 l2 = toString l2 ∧ (snprintf_d 11 l2).length ≤ 10)
    ∧ (snprintf_d 11 l1 = snprintf_d 11 l2 ↔ l1 = l2)
    ∧ ∀ v1 v2 : ir_variable,
        v1.data.explicit_location = true → v1.data.location = l1 →
        v2.data.explicit_location = true → v2.data.location = l2 → l1 ≠ l2 →
        registry_key VARYING_SLOT_VAR0 v1 ≠ registry_key VARYING_SLOT_VAR0 v2
        ∧ (interface_block_definitions.empty.store VARYING_SLOT_VAR0 v1).bind
            (fun definitions => definitions.lookup VARYING_SLOT_VAR0 v2) = some none := by
  have p1 : (0 : Int) ≤ l1 := le_trans (Int.ofNat_nonneg _) h1
  have p2 : (0 : Int) ≤ l2 := le_trans (Int.ofNat_nonneg _) h2
  have e1 := snprintf_d_eq_toString l1 p1 hint1
  have e2 := snprintf_d_eq_toString l2 p2 hint2
  have hinj : snprintf_d 11 l1 = snprintf_d 11 l2 ↔ l1 = l2 := by
    rw [e1, e2]
    exact ⟨toString_location_injective l1 l2 p1 p2, fun h => by rw [h]⟩
  refine ⟨⟨e1, ?_⟩, ⟨e2, ?_⟩, hinj, ?_⟩
  · rw [e1]
    exact toString_location_length l1 p1 hint1
  · rw [e2]
    exact toString_location_length l2 p2 hint2
  · intro v1 v2 he1 hl1 he2 hl2 hne
    have hk : snprintf_d 11 l1 ≠ snprintf_d 11 l2 := fun h => hne (hinj.1 h)
    constructor
    · unfold registry_key
      simp [he1, hl1, he2, hl2, h1, h2, hk]
    · unfold interface_block_definitions.store interface_block_definitions.lookup
      simp [he1, hl1, he2, hl2, h1, h2, interface_block_definitions.empty,
        _mesa_hash_table_insert, _mesa_hash_table_search, hk]

/-- Witness of C28: the locations 2147483647 and 214748364, of which the
decimal form of the second is a prefix of that of the first. -/
theorem location_key_injective_witness :
    (snprintf_d 11 2147483647 = toString (2147483647 : Int)
      ∧ (snprintf_d 11 2147483647).length ≤ 10)
    ∧ (snprintf_d 11 214748364 = toString (214748364 : Int)
      ∧ (snprintf_d 11 214748364).length ≤ 10)
    ∧ (snprintf_d 11 2147483647 = snprintf_d 11 214748364 ↔ (2147483647 : Int) = 214748364)
    ∧ ∀ v1 v2 : ir_variable,
        v1.data.explicit_location = true → v1.data.location = 2147483647 →
        v2.data.explicit_location = true → v2.data.location = 214748364 →
        (2147483647 : Int) ≠ 214748364 →
        registry_key 32 v1 ≠ registry_key 32 v2
        ∧ (interface_block_definitions.empty.store 32 v1).bind
            (fun definitions => definitions.lookup 32 v2) = some none :=
  location_key_injective 32 2147483647 214748364 (by decide) (by decide) (by decide)
    (by decide)

/-! ## Properties of `etna_vertex_elements_state_create` -/

/-- Whether the first loop flags `element`: its vertex buffer is not one of the
streams of the hardware, or it has an instance divisor. -/
theorem etna_check_step (ctx : etna_context) (elements : List pipe_vertex_element)
    (idx : Nat) (incompatible : Bool) (element : pipe_vertex_element)
    (he : elements[idx]? = some element) :
    etna_vertex_elements_state_create_check ctx elements idx incompatible
      = some (incompatible
          || (decide (element.vertex_buffer_index ≥ ctx.specs.stream_count)
              || decide (element.instance_divisor > 0))) := by
  unfold etna_vertex_elements_state_create_check
  rw [he]
  by_cases hc : (decide (element.vertex_buffer_index ≥ ctx.specs.stream_count)
      || decide (element.instance_divisor > 0)) = true
  · simp only [hc, if_true, Bool.or_true]
  · simp only [hc, if_false, Bool.not_eq_true] at hc ⊢
    simp only [hc, Bool.or_false, Bool.false_eq_true, if_false]

/-- The first loop, from `idx` on: `incompatible` is set if and only if it was
set or one of the elements from `idx` on is flagged. -/
theorem etna_check_loop (ctx : etna_context) (elements : List pipe_vertex_element) :
    ∀ (fuel idx : Nat) (incompatible : Bool), idx + fuel = elements.length →
      for_idx (etna_vertex_elements_state_create_check ctx elements) fuel idx incompatible
        = some (incompatible
            || (elements.drop idx).any (fun element =>
                decide (element.vertex_buffer_index ≥ ctx.specs.stream_count)
                  || decide (element.instance_divisor > 0))) := by
  intro fuel
  induction fuel with
  | zero =>
    intro idx incompatible h
    have : elements.drop idx = [] := List.drop_eq_nil_of_le (by omega)
    simp [for_idx, this]
  | succ fuel ih =>
    intro idx incompatible h
    have hlt : idx < elements.length := by omega
    have he : elements[idx]? = some elements[idx] := List.getElem?_eq_getElem hlt
    have hd : elements.drop idx = elements[idx] :: elements.drop (idx + 1) :=
      List.drop_eq_getElem_cons hlt
    simp only [for_idx, etna_check_step ctx elements idx incompatible _ he]
    rw [ih (idx + 1) _ (by omega), hd]
    simp only [List.any_cons, Bool.or_assoc]

/-- One iteration of the second loop at `idx`, where `elements[idx]` is
`element`: it stops on a failed assertion, and otherwise writes the word of
`element`, relative to the start of the current stretch. -/
theorem etna_config_step (h : vertex_format_helpers) (NDEBUG : Bool)
    (elements : List pipe_vertex_element) (idx : Nat) (st : vertex_elements_locals)
    (element : pipe_vertex_element) (he : elements[idx]? = some element) :
    etna_vertex_elements_state_create_config h NDEBUG elements.length elements idx st
      = if !NDEBUG && !vertex_element_assertion h element then none
        else some
          { start_offset := if st.nonconsecutive then element.src_offset else st.start_offset
            nonconsecutive := !consecutive_at h elements idx
            cs :=
              { st.cs with
                FE_VERTEX_ELEMENT_CONFIG := st.cs.FE_VERTEX_ELEMENT_CONFIG ++
                  [vertex_element_config h elements idx element
                    (if st.nonconsecutive then element.src_offset else st.start_offset)] } } := by
  have hlt : idx < elements.length := by
    by_contra hge
    rw [List.getElem?_eq_none (by omega)] at he
    exact absurd he (by simp)
  unfold etna_vertex_elements_state_create_config vertex_element_assertion
    vertex_element_config consecutive_at
  simp only [he]
  by_cases ha : (!NDEBUG && !(h.util_format_get_blocksize element.src_format != 0
      && decide (end_offset h element ≤ 256))) = true
  · have ha' : (!NDEBUG && !(h.util_format_get_blocksize element.src_format != 0
        && decide (unsigned_add element.src_offset
            (h.util_format_get_blocksize element.src_format) ≤ 256))) = true := ha
    simp only [ha, ha', if_true]
  · have ha' : ¬ (!NDEBUG && !(h.util_format_get_blocksize element.src_format != 0
        && decide (unsigned_add element.src_offset
            (h.util_format_get_blocksize element.src_format) ≤ 256))) = true := ha
    simp only [ha, ha', if_false]
    by_cases hlast : idx = elements.length - 1
    · have hn : elements[idx + 1]? = none := List.getElem?_eq_none (by omega)
      have hb : (idx == elements.length - 1) = true := beq_iff_eq.2 hlast
      simp only [hb, hn, if_true, end_offset, Bool.not_false]
    · have hlt' : idx + 1 < elements.length := by omega
      have hn : elements[idx + 1]? = some elements[idx + 1] := List.getElem?_eq_getElem hlt'
      have hb : (idx == elements.length - 1) = false := beq_false_of_ne hlast
      simp only [hb, hn, Bool.false_eq_true, if_false]
      have hnc : (elements[idx + 1].vertex_buffer_index != element.vertex_buffer_index
          || unsigned_add element.src_offset (h.util_format_get_blocksize element.src_format)
              != elements[idx + 1].src_offset)
          = !(elements[idx + 1].vertex_buffer_index == element.vertex_buffer_index
              && end_offset h element == elements[idx + 1].src_offset) := by
        unfold end_offset
        simp only [bne, Bool.not_and]
      simp only [hnc, end_offset]

/-- Where no assertion fails, the second loop runs to its end. -/
theorem etna_config_loop_isSome (h : vertex_format_helpers) (NDEBUG : Bool)
    (elements : List pipe_vertex_element)
    (hassert : NDEBUG = true ∨ ∀ element ∈ elements, vertex_element_assertion h element = true) :
    ∀ (fuel idx : Nat) (st : vertex_elements_locals), idx + fuel = elements.length →
      ∃ st', for_idx (etna_vertex_elements_state_create_config h NDEBUG elements.length elements)
        fuel idx st = some st' := by
  intro fuel
  induction fuel with
  | zero =>
    intro idx st _
    exact ⟨st, rfl⟩
  | succ fuel ih =>
    intro idx st hn
    have hlt : idx < elements.length := by omega
    have he : elements[idx]? = some elements[idx] := List.getElem?_eq_getElem hlt
    have ha : (!NDEBUG && !vertex_element_assertion h elements[idx]) = false := by
      rcases hassert with hN | hall
      · simp [hN]
      · simp [hall _ (List.getElem_mem hlt)]
    simp only [for_idx, etna_config_step h NDEBUG elements idx st _ he, ha, Bool.false_eq_true,
      if_false]
    exact ih (idx + 1) _ (by omega)

/-- The second loop, from `idx` on: it keeps `num_elements` and the words
written before `idx`, and writes at every later index the word of the element,
relative to the first element of its run. -/
theorem etna_config_loop (h : vertex_format_helpers) (NDEBUG : Bool)
    (elements : List pipe_vertex_element) :
    ∀ (fuel idx : Nat) (st st' : vertex_elements_locals), idx + fuel = elements.length →
      st.cs.FE_VERTEX_ELEMENT_CONFIG.length = idx →
      vertex_elements_locals_hold h elements idx st →
      for_idx (etna_vertex_elements_state_create_config h NDEBUG elements.length elements)
        fuel idx st = some st' →
      st'.cs.num_elements = st.cs.num_elements
      ∧ (∀ j, j < idx →
          st'.cs.FE_VERTEX_ELEMENT_CONFIG[j]? = st.cs.FE_VERTEX_ELEMENT_CONFIG[j]?)
      ∧ ∀ j element, idx ≤ j → elements[j]? = some element →
          ∃ first, elements[run_start h elements j]? = some first
            ∧ st'.cs.FE_VERTEX_ELEMENT_CONFIG[j]?
              = some (vertex_element_config h elements j element first.src_offset) := by
  intro fuel
  induction fuel with
  | zero =>
    intro idx st st' hn _ _ hrun
    simp only [for_idx, Option.some.injEq] at hrun
    subst hrun
    refine ⟨rfl, fun _ _ => rfl, ?_⟩
    intro j element hj he
    have : elements[j]? = none := List.getElem?_eq_none (by omega)
    rw [this] at he
    exact absurd he (by simp)
  | succ fuel ih =>
    intro idx st st' hn hlen hinv hrun
    have hlt : idx < elements.length := by omega
    have he : elements[idx]? = some elements[idx] := List.getElem?_eq_getElem hlt
    simp only [for_idx, etna_config_step h NDEBUG elements idx st _ he] at hrun
    by_cases ha : (!NDEBUG && !vertex_element_assertion h elements[idx]) = true
    · simp [ha] at hrun
    · simp only [ha, if_false] at hrun
      -- the start of the stretch of `idx`
      have hstart : ∃ first, elements[run_start h elements idx]? = some first
          ∧ (if st.nonconsecutive then elements[idx].src_offset else st.start_offset)
            = first.src_offset := by
        by_cases hnc : st.nonconsecutive = true
        · refine ⟨elements[idx], ?_, by simp [hnc]⟩
          rw [hinv.1 hnc]
          exact he
        · simp only [Bool.not_eq_true] at hnc
          obtain ⟨first, hf, hs⟩ := hinv.2 hnc
          exact ⟨first, hf, by simp [hnc, hs]⟩
      obtain ⟨first, hfirst, hstart_eq⟩ := hstart
      have hinv' : vertex_elements_locals_hold h elements (idx + 1)
          { start_offset := if st.nonconsecutive then elements[idx].src_offset
              else st.start_offset
            nonconsecutive := !consecutive_at h elements idx
            cs :=
              { st.cs with
                FE_VERTEX_ELEMENT_CONFIG := st.cs.FE_VERTEX_ELEMENT_CONFIG ++
                  [vertex_element_config h elements idx elements[idx]
                    (if st.nonconsecutive then elements[idx].src_offset
                      else st.start_offset)] } } := by
        constructor
        · intro hc
          simp only [Bool.not_eq_true'] at hc
          simp [run_start, hc]
        · intro hc
          simp only [Bool.not_eq_false'] at hc
          refine ⟨first, ?_, hstart_eq⟩
          simp only [run_start, hc, if_true]
          exact hfirst
      obtain ⟨h1, h2, h3⟩ := ih (idx + 1) _ st' (by omega) (by simp [hlen]) hinv' hrun
      refine ⟨h1, ?_, ?_⟩
      · intro j hj
        rw [h2 j (by omega)]
        simp only
        rw [List.getElem?_append_left (by omega)]
      · intro j element hj hej
        by_cases hji : j = idx
        · subst hji
          refine ⟨first, hfirst, ?_⟩
          rw [h2 j (by omega)]
          simp only
          rw [List.getElem?_append_right (by omega)]
          have hel : element = elements[j] := by
            rw [he] at hej
            exact (Option.some.inj hej).symm
          simp [hlen, hel, hstart_eq]
        · exact h3 j element (by omega) hej

/-- The function up to its second loop: `NULL` for an empty or incompatible
list of elements, and the second loop on the state with `num_elements` set
otherwise. -/
theorem etna_vertex_elements_state_create_eq (h : vertex_format_helpers) (NDEBUG : Bool)
    (ctx : etna_context) (elements : List pipe_vertex_element) :
    etna_vertex_elements_state_create h NDEBUG true ctx elements
      = if elements.any (fun element =>
            decide (element.vertex_buffer_index ≥ ctx.specs.stream_count)
              || decide (element.instance_divisor > 0)) || elements.length == 0
        then some none
        else (for_idx
            (etna_vertex_elements_state_create_config h NDEBUG elements.length elements)
            elements.length 0 ⟨0, true, ⟨elements.length, []⟩⟩).map
          (fun st => some st.cs) := by
  unfold etna_vertex_elements_state_create
  simp only [Bool.not_true, Bool.false_eq_true, if_false]
  rw [etna_check_loop ctx elements elements.length 0 false (by omega)]
  simp only [List.drop_zero, Bool.false_or]
  split_ifs
  · rfl
  · cases for_idx (etna_vertex_elements_state_create_config h NDEBUG elements.length elements)
      elements.length 0 ⟨0, true, ⟨elements.length, []⟩⟩ <;> rfl

/-- C26: `etna_vertex_elements_state_create` checks that the vertex element
binding is compatible with the hardware.  When the allocation succeeds, it
returns `NULL` if and only if there is no element, or some element has a
`vertex_buffer_index` at or above the `stream_count` of the context, or some
element has an `instance_divisor` above 0; otherwise, where no assertion
fails, it returns a state whose `num_elements` is the number of elements. -/
theorem etna_vertex_elements_state_create_null_iff (h : vertex_format_helpers)
    (NDEBUG : Bool) (calloc_succeeds : Bool) (ctx : etna_context)
    (elements : List pipe_vertex_element) (halloc : calloc_succeeds = true) :
    (etna_vertex_elements_state_create h NDEBUG calloc_succeeds ctx elements = some none ↔
      elements.length = 0
      ∨ (∃ element ∈ elements, element.vertex_buffer_index ≥ ctx.specs.stream_count)
      ∨ ∃ element ∈ elements, element.instance_divisor > 0)
    ∧ (¬ (elements.length = 0
        ∨ (∃ element ∈ elements, element.vertex_buffer_index ≥ ctx.specs.stream_count)
        ∨ ∃ element ∈ elements, element.instance_divisor > 0) →
      (NDEBUG = true ∨ ∀ element ∈ elements, vertex_element_assertion h element = true) →
      ∃ cs, etna_vertex_elements_state_create h NDEBUG calloc_succeeds ctx elements
          = some (some cs)
        ∧ cs.num_elements = elements.length) := by
  subst halloc
  have hcond : (elements.any (fun element =>
          decide (element.vertex_buffer_index ≥ ctx.specs.stream_count)
            || decide (element.instance_divisor > 0)) || elements.length == 0) = true ↔
      (elements.length = 0
        ∨ (∃ element ∈ elements, element.vertex_buffer_index ≥ ctx.specs.stream_count)
        ∨ ∃ element ∈ elements, element.instance_divisor > 0) := by
    simp only [Bool.or_eq_true, List.any_eq_true, decide_eq_true_eq, beq_iff_eq]
    constructor
    · rintro (⟨e, he, hv | hd⟩ | h0)
      · exact Or.inr (Or.inl ⟨e, he, hv⟩)
      · exact Or.inr (Or.inr ⟨e, he, hd⟩)
      · exact Or.inl h0
    · rintro (h0 | ⟨e, he, hv⟩ | ⟨e, he, hd⟩)
      · exact Or.inr h0
      · exact Or.inl ⟨e, he, Or.inl hv⟩
      · exact Or.inl ⟨e, he, Or.inr hd⟩
  rw [etna_vertex_elements_state_create_eq, ← hcond]
  constructor
  · constructor
    · intro hnull
      by_contra hc
      rw [if_neg hc] at hnull
      cases hf : for_idx
          (etna_vertex_elements_state_create_config h NDEBUG elements.length elements)
          elements.length 0 ⟨0, true, ⟨elements.length, []⟩⟩ with
      | none => simp [hf] at hnull
      | some st => simp [hf] at hnull
    · intro hc
      rw [if_pos hc]
  · intro hc hassert
    rw [if_neg hc]
    obtain ⟨st', hst⟩ := etna_config_loop_isSome h NDEBUG elements hassert elements.length 0
      ⟨0, true, ⟨elements.length, []⟩⟩ (by omega)
    obtain ⟨hnum, -, -⟩ := etna_config_loop h NDEBUG elements elements.length 0
      ⟨0, true, ⟨elements.length, []⟩⟩ st' (by omega) rfl
      ⟨fun _ => rfl, fun hf => absurd hf (by simp)⟩ hst
    exact ⟨st'.cs, by rw [hst]; rfl, hnum⟩

/-- Witness of C26: three elements on the two streams of the hardware are
accepted. -/
theorem etna_vertex_elements_state_create_null_iff_witness :
    ∃ cs, etna_vertex_elements_state_create example_helpers false true ⟨⟨2⟩⟩
        [⟨0, 0, 0, 12⟩, ⟨12, 0, 0, 8⟩, ⟨0, 0, 1, 16⟩] = some (some cs)
      ∧ cs.num_elements = [(⟨0, 0, 0, 12⟩ : pipe_vertex_element), ⟨12, 0, 0, 8⟩,
          ⟨0, 0, 1, 16⟩].length :=
  (etna_vertex_elements_state_create_null_iff example_helpers false true ⟨⟨2⟩⟩
    [⟨0, 0, 0, 12⟩, ⟨12, 0, 0, 8⟩, ⟨0, 0, 1, 16⟩] rfl).2 (by decide) (Or.inr (by decide))

/-- The run of an element starts at or before it. -/
theorem run_start_le (h : vertex_format_helpers) (elements : List pipe_vertex_element) :
    ∀ idx, run_start h elements idx ≤ idx := by
  intro idx
  induction idx with
  | zero => simp [run_start]
  | succ idx ih =>
    simp only [run_start]
    split_ifs <;> omega

/-- From the start of its run up to an element, each element is followed by a
consecutive one. -/
theorem run_start_consecutive (h : vertex_format_helpers)
    (elements : List pipe_vertex_element) :
    ∀ idx k, run_start h elements idx ≤ k → k < idx → consecutive_at h elements k = true := by
  intro idx
  induction idx with
  | zero =>
    intro k _ hk
    omega
  | succ idx ih =>
    intro k hk hlt
    simp only [run_start] at hk
    by_cases hc : consecutive_at h elements idx = true
    · simp only [hc, if_true] at hk
      by_cases hki : k = idx
      · rw [hki]
        exact hc
      · exact ih k hk (by omega)
    · simp only [Bool.not_eq_true] at hc
      simp only [hc, Bool.false_eq_true, if_false] at hk
      omega

/-- The run of an element cannot be extended before its start. -/
theorem run_start_maximal (h : vertex_format_helpers) (elements : List pipe_vertex_element) :
    ∀ idx, run_start h elements idx = 0
      ∨ consecutive_at h elements (run_start h elements idx - 1) = false := by
  intro idx
  induction idx with
  | zero => exact Or.inl rfl
  | succ idx ih =>
    simp only [run_start]
    by_cases hc : consecutive_at h elements idx = true
    · simp only [hc, if_true]
      exact ih
    · simp only [hc, if_false]
      right
      simpa using hc

/-- An element is followed by a consecutive one exactly when there is a next
element, on the same vertex buffer, that starts at its end offset. -/
theorem consecutive_at_eq_true_iff (h : vertex_format_helpers)
    (elements : List pipe_vertex_element) (idx : Nat) (element : pipe_vertex_element)
    (he : elements[idx]? = some element) :
    consecutive_at h elements idx = true ↔
      ∃ next, elements[idx + 1]? = some next
        ∧ next.vertex_buffer_index = element.vertex_buffer_index
        ∧ next.src_offset = end_offset h element := by
  unfold consecutive_at
  rw [he]
  cases hn : elements[idx + 1]? with
  | none => simp
  | some next =>
    simp only [Bool.and_eq_true, beq_iff_eq, Option.some.injEq, exists_eq_left']
    constructor
    · rintro ⟨h1, h2⟩
      exact ⟨h1, h2.symm⟩
    · rintro ⟨h1, h2⟩
      exact ⟨h1, h2.symm⟩

/-- An element is not followed by a consecutive one exactly when it is the
last, or the next element is on another vertex buffer, or the next element
does not start at its end offset. -/
theorem consecutive_at_eq_false_iff (h : vertex_format_helpers)
    (elements : List pipe_vertex_element) (idx : Nat) (element : pipe_vertex_element)
    (he : elements[idx]? = some element) :
    consecutive_at h elements idx = false ↔
      idx = elements.length - 1
      ∨ ∃ next, elements[idx + 1]? = some next
        ∧ (next.vertex_buffer_index ≠ element.vertex_buffer_index
          ∨ next.src_offset ≠ end_offset h element) := by
  have hlt : idx < elements.length := by
    by_contra hge
    rw [List.getElem?_eq_none (by omega)] at he
    exact absurd he (by simp)
  rw [← Bool.not_eq_true, consecutive_at_eq_true_iff h elements idx element he]
  by_cases hlast : idx = elements.length - 1
  · have hn : elements[idx + 1]? = none := List.getElem?_eq_none (by omega)
    rw [hn]
    constructor
    · intro _
      exact Or.inl hlast
    · rintro _ ⟨next, hnx, -⟩
      exact absurd hnx (by simp)
  · have hn : elements[idx + 1]? = some elements[idx + 1] :=
      List.getElem?_eq_getElem (by omega)
    simp only [hn, Option.some.injEq, exists_eq_left', hlast, false_or]
    tauto

/-- Where the end offsets do not wrap, the offsets do not decrease from the
start of a run to an element of the run. -/
theorem src_offset_run_start_le (h : vertex_format_helpers)
    (elements : List pipe_vertex_element)
    (hwrap : ∀ element ∈ elements,
      element.src_offset + h.util_format_get_blocksize element.src_format < 2 ^ 32) :
    ∀ idx first element, elements[run_start h elements idx]? = some first →
      elements[idx]? = some element → first.src_offset ≤ element.src_offset := by
  intro idx
  induction idx with
  | zero =>
    intro first element hf he
    simp only [run_start] at hf
    rw [hf] at he
    rw [Option.some.inj he]
  | succ idx ih =>
    intro first element hf he
    have hlt : idx + 1 < elements.length := by
      by_contra hge
      rw [List.getElem?_eq_none (by omega)] at he
      exact absurd he (by simp)
    have he0 : elements[idx]? = some elements[idx] := List.getElem?_eq_getElem (by omega)
    simp only [run_start] at hf
    by_cases hc : consecutive_at h elements idx = true
    · simp only [hc, if_true] at hf
      obtain ⟨next, hn, -, hs⟩ := (consecutive_at_eq_true_iff h elements idx _ he0).1 hc
      rw [he] at hn
      have hn' : element = next := Option.some.inj hn
      subst hn'
      have h1 := ih first elements[idx] hf he0
      have h2 := hwrap elements[idx] (List.getElem_mem _)
      rw [hs]
      unfold end_offset unsigned_add
      rw [Nat.mod_eq_of_lt h2]
      omega
    · simp only [Bool.not_eq_true] at hc
      simp only [hc, Bool.false_eq_true, if_false] at hf
      rw [hf] at he
      rw [Option.some.inj he]

/-- Subtraction of `unsigned` values where it does not wrap. -/
theorem unsigned_sub_of_le (a b : Nat) (hb : b ≤ a) (ha : a < 2 ^ 32) :
    unsigned_sub a b = a - b := by
  unfold unsigned_sub
  have h1 : a % 2 ^ 32 = a := Nat.mod_eq_of_lt ha
  have h2 : b % 2 ^ 32 = b := Nat.mod_eq_of_lt (lt_of_le_of_lt hb ha)
  rw [h1, h2]
  have h3 : a + (2 ^ 32 - b) = (a - b) + 2 ^ 32 := by omega
  rw [h3, Nat.add_mod_right]
  exact Nat.mod_eq_of_lt (by omega)

/-- The words of an accepted list of elements: the word at `idx` is the word of
`elements[idx]`, relative to the first element of its run. -/
theorem etna_vertex_elements_state_create_config_at (h : vertex_format_helpers)
    (NDEBUG : Bool) (calloc_succeeds : Bool) (ctx : etna_context)
    (elements : List pipe_vertex_element) (cs : compiled_vertex_elements_state)
    (haccepted : etna_vertex_elements_state_create h NDEBUG calloc_succeeds ctx elements
      = some (some cs)) :
    ∀ idx element, elements[idx]? = some element →
      ∃ first, elements[run_start h elements idx]? = some first
        ∧ cs.FE_VERTEX_ELEMENT_CONFIG[idx]?
          = some (vertex_element_config h elements idx element first.src_offset) := by
  have halloc : calloc_succeeds = true := by
    by_contra hc
    simp only [Bool.not_eq_true] at hc
    subst hc
    simp [etna_vertex_elements_state_create] at haccepted
  subst halloc
  rw [etna_vertex_elements_state_create_eq] at haccepted
  split_ifs at haccepted with hcond
  · simp at haccepted
  · cases hf : for_idx
        (etna_vertex_elements_state_create_config h NDEBUG elements.length elements)
        elements.length 0 ⟨0, true, ⟨elements.length, []⟩⟩ with
    | none => simp [hf] at haccepted
    | some st' =>
      simp only [hf, Option.map_some', Option.some.injEq] at haccepted
      subst haccepted
      obtain ⟨-, -, h3⟩ := etna_config_loop h NDEBUG elements elements.length 0
        ⟨0, true, ⟨elements.length, []⟩⟩ st' (by omega) rfl
        ⟨fun _ => rfl, fun hf => absurd hf (by simp)⟩ hf
      intro idx element he
      exact h3 idx element (Nat.zero_le _) he

/-- C27: for every accepted list of elements and every index `idx` of it, the
word written at `idx` is such that: `NONCONSECUTIVE` is set if and only if the
element is the last, or the next element uses a different
`vertex_buffer_index`, or the `src_offset` of the next element differs from
the end offset of this element (`src_offset` plus the block size of the
format, in `unsigned` arithmetic); the argument of the `END` field is the end
offset of this element minus, in `unsigned` arithmetic, the `src_offset` of the
first element of the maximal run of consecutive elements that contains `idx`
(every element from the first up to `idx` is followed by a consecutive one, and
the first is not preceded by one); so the last element is always flagged, and,
where the block sizes are positive and the end offsets do not wrap, the `END`
value of an element that is not flagged is below that of the next element. -/
theorem etna_vertex_elements_state_create_nonconsecutive (h : vertex_format_helpers)
    (NDEBUG : Bool) (calloc_succeeds : Bool) (ctx : etna_context)
    (elements : List pipe_vertex_element) (cs : compiled_vertex_elements_state)
    (haccepted : etna_vertex_elements_state_create h NDEBUG calloc_succeeds ctx elements
      = some (some cs)) :
    ∀ idx element, elements[idx]? = some element →
      ∃ config, cs.FE_VERTEX_ELEMENT_CONFIG[idx]? = some config
        ∧ (config.NONCONSECUTIVE = true ↔
            idx = elements.length - 1
            ∨ ∃ next, elements[idx + 1]? = some next
              ∧ (next.vertex_buffer_index ≠ element.vertex_buffer_index
                ∨ next.src_offset ≠ end_offset h element))
        ∧ (∃ first_idx first, first_idx ≤ idx ∧ elements[first_idx]? = some first
            ∧ (∀ k, first_idx ≤ k → k < idx → consecutive_at h elements k = true)
            ∧ (first_idx = 0 ∨ consecutive_at h elements (first_idx - 1) = false)
            ∧ config.END = unsigned_sub (end_offset h element) first.src_offset)
        ∧ ((∀ element ∈ elements, 0 < h.util_format_get_blocksize element.src_format
              ∧ element.src_offset + h.util_format_get_blocksize element.src_format < 2 ^ 32) →
            config.NONCONSECUTIVE = false →
            ∃ config', cs.FE_VERTEX_ELEMENT_CONFIG[idx + 1]? = some config'
              ∧ config.END < config'.END) := by
  intro idx element he
  obtain ⟨first, hfirst, hcfg⟩ := etna_vertex_elements_state_create_config_at h NDEBUG
    calloc_succeeds ctx elements cs haccepted idx element he
  refine ⟨_, hcfg, ?_, ?_, ?_⟩
  · simp only [vertex_element_config, Bool.not_eq_true']
    exact consecutive_at_eq_false_iff h elements idx element he
  · exact ⟨run_start h elements idx, first, run_start_le h elements idx, hfirst,
      run_start_consecutive h elements idx, run_start_maximal h elements idx, rfl⟩
  · intro hsize hnc
    simp only [vertex_element_config, Bool.not_eq_false'] at hnc
    obtain ⟨next, hn, -, hs⟩ := (consecutive_at_eq_true_iff h elements idx element he).1 hnc
    have hrun : run_start h elements (idx + 1) = run_start h elements idx := by
      simp [run_start, hnc]
    obtain ⟨first', hfirst', hcfg'⟩ := etna_vertex_elements_state_create_config_at h NDEBUG
      calloc_succeeds ctx elements cs haccepted (idx + 1) next hn
    rw [hrun, hfirst] at hfirst'
    have hff : first = first' := Option.some.inj hfirst'
    subst hff
    refine ⟨_, hcfg', ?_⟩
    simp only [vertex_element_config]
    have hwrap : ∀ element ∈ elements,
        element.src_offset + h.util_format_get_blocksize element.src_format < 2 ^ 32 :=
      fun e hmem => (hsize e hmem).2
    have hle := src_offset_run_start_le h elements hwrap idx first element hfirst he
    have hmem : element ∈ elements := List.getElem?_mem he
    have hmem' : next ∈ elements := List.getElem?_mem hn
    have he1 : end_offset h element
        = element.src_offset + h.util_format_get_blocksize element.src_format := by
      unfold end_offset unsigned_add
      exact Nat.mod_eq_of_lt (hsize element hmem).2
    have he2 : end_offset h next
        = next.src_offset + h.util_format_get_blocksize next.src_format := by
      unfold end_offset unsigned_add
      exact Nat.mod_eq_of_lt (hsize next hmem').2
    have hp := (hsize next hmem').1
    have hw1 := (hsize element hmem).2
    have hw2 := (hsize next hmem').2
    rw [unsigned_sub_of_le _ _ (by omega) (by omega),
      unsigned_sub_of_le _ _ (by omega) (by omega)]
    omega

/-- Witness of C27: the first of the three elements of `example_elements`,
which the second one follows on the same vertex buffer at offset 12. -/
theorem etna_vertex_elements_state_create_nonconsecutive_witness :
    ∃ config, example_state.FE_VERTEX_ELEMENT_CONFIG[0]? = some config
      ∧ (config.NONCONSECUTIVE = true ↔
          0 = example_elements.length - 1
          ∨ ∃ next, example_elements[0 + 1]? = some next
            ∧ (next.vertex_buffer_index ≠ (⟨0, 0, 0, 12⟩ : pipe_vertex_element).vertex_buffer_index
              ∨ next.src_offset ≠ end_offset example_helpers ⟨0, 0, 0, 12⟩))
      ∧ (∃ first_idx first, first_idx ≤ 0 ∧ example_elements[first_idx]? = some first
          ∧ (∀ k, first_idx ≤ k → k < 0 → consecutive_at example_helpers example_elements k = true)
          ∧ (first_idx = 0
            ∨ consecutive_at example_helpers example_elements (first_idx - 1) = false)
          ∧ config.END = unsigned_sub (end_offset example_helpers ⟨0, 0, 0, 12⟩)
              first.src_offset)
      ∧ ((∀ element ∈ example_elements,
            0 < example_helpers.util_format_get_blocksize element.src_format
            ∧ element.src_offset + example_helpers.util_format_get_blocksize element.src_format
              < 2 ^ 32) →
          config.NONCONSECUTIVE = false →
          ∃ config', example_state.FE_VERTEX_ELEMENT_CONFIG[0 + 1]? = some config'
            ∧ config.END < config'.END) :=
  etna_vertex_elements_state_create_nonconsecutive example_helpers false true ⟨⟨2⟩⟩
    example_elements example_state (by decide) 0 ⟨0, 0, 0, 12⟩ rfl

/-! ## The reports of the validators, whatever the collaborators -/

/-- A loop whose body, on the elements of the list and whatever the reporting
parameter `r`, either falls through or returns after one report at a state
`prog'` at which it `fails`: the loop falls through, or it returns after the
one report of the first iteration that fails, the iterations before it having
fallen through; and which of the two does not depend on `r`. -/
theorem foreach_in_list_reports {ρ α β σ : Type} (body : ρ → β → α → σ → loop_step α σ)
    (report : ρ → β → σ → σ) (fails : β → α → σ → σ → Prop) :
    ∀ (l : List β),
      (∀ x ∈ l, ∀ st prog,
        (∃ st' prog', ∀ r, body r x st prog = .next st' prog')
        ∨ (∃ prog', fails x st prog prog'
            ∧ ∀ r, body r x st prog = .ret (report r x prog'))) →
      ∀ (st : α) (prog : σ),
        (∃ st' prog', ∀ r, foreach_in_list (body r) l st prog = .next st' prog')
        ∨ (∃ pre x post st' prog' prog'', l = pre ++ x :: post
            ∧ (∀ r, foreach_in_list (body r) pre st prog = .next st' prog')
            ∧ fails x st' prog' prog''
            ∧ ∀ r, foreach_in_list (body r) l st prog = .ret (report r x prog'')) := by
  intro l
  induction l with
  | nil =>
    intro _ st prog
    exact Or.inl ⟨st, prog, fun _ => rfl⟩
  | cons x l ih =>
    intro hbody st prog
    have ih' := ih (fun y hy => hbody y (List.mem_cons_of_mem _ hy))
    rcases hbody x (List.mem_cons_self _ _) st prog with ⟨st', prog', hn⟩ | ⟨prog', hf, hr⟩
    · rcases ih' st' prog' with ⟨st2, prog2, h2⟩ | ⟨pre, y, post, st2, prog2, prog3, hl, hp, hf, hr⟩
      · refine Or.inl ⟨st2, prog2, fun r => ?_⟩
        simp only [foreach_in_list, hn r, h2 r]
      · refine Or.inr ⟨x :: pre, y, post, st2, prog2, prog3, ?_, ?_, hf, ?_⟩
        · rw [hl]
          rfl
        · intro r
          simp only [foreach_in_list, hn r, hp r]
        · intro r
          simp only [foreach_in_list, hn r, hr r]
    · refine Or.inr ⟨[], x, l, st, prog, prog', rfl, fun _ => rfl, hf, ?_⟩
      intro r
      simp only [foreach_in_list, hr r]

/-- The lookup, store or match statements, whatever the reporter and the
message: they fall through, or the stored declaration fails `intrastage_match`
and they return after one report, or they stop. -/
theorem lookup_store_or_match_cases {σ : Type} (VARYING_SLOT_VAR0 : Nat)
    (R : σ → ir_variable → ir_variable → Bool × σ × ir_variable)
    (d : interface_block_definitions) (var : ir_variable) (prog : σ) :
    (∃ d' prog', ∀ (linker_error : σ → String → σ) (message : String),
        lookup_store_or_match VARYING_SLOT_VAR0 linker_error R d var message prog
          = .next d' prog')
    ∨ (∃ u, d.lookup VARYING_SLOT_VAR0 var = some (some u)
        ∧ (intrastage_match R u var prog).1 = false
        ∧ ∀ (linker_error : σ → String → σ) (message : String),
          lookup_store_or_match VARYING_SLOT_VAR0 linker_error R d var message prog
            = .ret (linker_error (intrastage_match R u var prog).2.1 message))
    ∨ (∀ (linker_error : σ → String → σ) (message : String),
        lookup_store_or_match VARYING_SLOT_VAR0 linker_error R d var message prog = .abort) := by
  unfold lookup_store_or_match
  cases hl : d.lookup VARYING_SLOT_VAR0 var with
  | none => exact Or.inr (Or.inr fun _ _ => rfl)
  | some o =>
    cases o with
    | none =>
      cases hs : d.store VARYING_SLOT_VAR0 var with
      | none => exact Or.inr (Or.inr fun _ _ => rfl)
      | some d' => exact Or.inl ⟨d', prog, fun _ _ => rfl⟩
    | some u =>
      cases hm : intrastage_match R u var prog with
      | mk b rest =>
        obtain ⟨prog', u'⟩ := rest
        cases b with
        | true =>
          refine Or.inl ⟨d.write_back VARYING_SLOT_VAR0 var u', prog', fun _ _ => ?_⟩
          simp only [hm]
        | false =>
          refine Or.inr (Or.inl ⟨u, rfl, ?_, fun _ _ => ?_⟩)
          · rw [hm]
          · simp only [hm]

/-- A lookup or a store of a variable with an interface type does not stop. -/
theorem lookup_store_isSome (VARYING_SLOT_VAR0 : Nat) (d : interface_block_definitions)
    (var : ir_variable) (h : var.get_interface_type.isSome = true) :
    (∃ o, d.lookup VARYING_SLOT_VAR0 var = some o)
    ∧ ∃ d', d.store VARYING_SLOT_VAR0 var = some d' := by
  obtain ⟨t, ht⟩ := Option.isSome_iff_exists.1 h
  unfold interface_block_definitions.lookup interface_block_definitions.store
  constructor
  · split_ifs
    · exact ⟨_, rfl⟩
    · rw [ht]
      exact ⟨_, rfl⟩
  · split_ifs
    · exact ⟨_, rfl⟩
    · rw [ht]
      exact ⟨_, rfl⟩

/-- The lookup, store or match statements on a variable with an interface
type, whatever the reporter and the message: they fall through, or the stored
declaration fails `intrastage_match` and they return after one report. -/
theorem lookup_store_or_match_reports {σ : Type} (VARYING_SLOT_VAR0 : Nat)
    (R : σ → ir_variable → ir_variable → Bool × σ × ir_variable)
    (d : interface_block_definitions) (var : ir_variable) (prog : σ)
    (h : var.get_interface_type.isSome = true) :
    (∃ d' prog', ∀ (linker_error : σ → String → σ) (message : String),
        lookup_store_or_match VARYING_SLOT_VAR0 linker_error R d var message prog
          = .next d' prog')
    ∨ (∃ u, d.lookup VARYING_SLOT_VAR0 var = some (some u)
        ∧ (intrastage_match R u var prog).1 = false
        ∧ ∀ (linker_error : σ → String → σ) (message : String),
          lookup_store_or_match VARYING_SLOT_VAR0 linker_error R d var message prog
            = .ret (linker_error (intrastage_match R u var prog).2.1 message)) := by
  rcases lookup_store_or_match_cases VARYING_SLOT_VAR0 R d var prog with h1 | h2 | h3
  · exact Or.inl h1
  · exact Or.inr h2
  · exfalso
    have ha := h3 (fun s _ => s) ""
    obtain ⟨⟨o, ho⟩, ⟨d', hd'⟩⟩ := lookup_store_isSome VARYING_SLOT_VAR0 d var h
    unfold lookup_store_or_match at ha
    rw [ho] at ha
    cases o with
    | none => simp [hd'] at ha
    | some u =>
      simp only at ha
      split at ha <;> simp at ha

/-- The lookup, store or match statements return after one report when the
stored declaration fails `intrastage_match`. -/
theorem lookup_store_or_match_of_fails {σ : Type} (VARYING_SLOT_VAR0 : Nat)
    (linker_error : σ → String → σ)
    (R : σ → ir_variable → ir_variable → Bool × σ × ir_variable)
    (d : interface_block_definitions) (var u : ir_variable) (message : String) (prog : σ)
    (hl : d.lookup VARYING_SLOT_VAR0 var = some (some u))
    (hm : (intrastage_match R u var prog).1 = false) :
    lookup_store_or_match VARYING_SLOT_VAR0 linker_error R d var message prog
      = .ret (linker_error (intrastage_match R u var prog).2.1 message) := by
  unfold lookup_store_or_match
  rw [hl]
  cases hi : intrastage_match R u var prog with
  | mk b rest =>
    obtain ⟨prog', u'⟩ := rest
    rw [hi] at hm
    simp only at hm
    subst hm
    simp only [hi]

/-- The loop body of `validate_interstage_uniform_blocks` on a variable that it
files: the lookup, store or match statements. -/
theorem uniform_node_of_filed {σ : Type} (VARYING_SLOT_VAR0 : Nat)
    (linker_error : σ → String → σ)
    (R : σ → ir_variable → ir_variable → Bool × σ × ir_variable)
    (v : ir_variable) (d : interface_block_definitions) (prog : σ)
    (hi : v.get_interface_type.isSome = true)
    (hm : v.data.mode = ir_var_uniform ∨ v.data.mode = ir_var_shader_storage) :
    validate_interstage_uniform_blocks_node VARYING_SLOT_VAR0 linker_error R ⟨some v⟩ d prog
      = lookup_store_or_match VARYING_SLOT_VAR0 linker_error R d v
          (uniform_block_message v) prog := by
  obtain ⟨t, ht⟩ := Option.isSome_iff_exists.1 hi
  unfold validate_interstage_uniform_blocks_node uniform_block_message
  simp only [ht, interface_type_name_eq v t ht]
  rcases hm with hm | hm <;> simp [hm]

/-- The loop body of `validate_interstage_uniform_blocks` on a variable that it
does not file: on to the next. -/
theorem uniform_node_of_not_filed {σ : Type} (VARYING_SLOT_VAR0 : Nat)
    (linker_error : σ → String → σ)
    (R : σ → ir_variable → ir_variable → Bool × σ × ir_variable)
    (v : ir_variable) (d : interface_block_definitions) (prog : σ)
    (h : uniform_block_variable ⟨some v⟩ = none) :
    validate_interstage_uniform_blocks_node VARYING_SLOT_VAR0 linker_error R ⟨some v⟩ d prog
      = .next d prog := by
  unfold uniform_block_variable at h
  unfold validate_interstage_uniform_blocks_node
  simp only [Option.some_bind, ite_eq_right_iff, imp_false, Bool.and_eq_true,
    Bool.or_eq_true, beq_iff_eq, not_and, not_or, reduceCtorEq] at h
  cases hit : v.get_interface_type with
  | none => simp [hit]
  | some t =>
    have := h (by simp [hit])
    simp [hit, this.1, this.2]

/-- The function `validate_interstage_uniform_blocks` is its inner loop, run
from the empty registry over the uniform and storage block variables of all
stages, in stage order. -/
theorem validate_interstage_uniform_blocks_scan {σ : Type} (VARYING_SLOT_VAR0 : Nat)
    (linker_error : σ → String → σ)
    (R : σ → ir_variable → ir_variable → Bool × σ × ir_variable)
    (prog : σ) (stages : List (Option gl_linked_shader)) :
    validate_interstage_uniform_blocks VARYING_SLOT_VAR0 linker_error R prog stages
      = (uniform_blocks_scan VARYING_SLOT_VAR0 linker_error R
          (uniform_block_variables stages) prog).finish := by
  unfold validate_interstage_uniform_blocks uniform_blocks_scan uniform_block_variables
    stages_ir
  rw [foreach_in_list_foreach_unit]
  rw [foreach_in_list_filterMap _
    (fun v d prog => validate_interstage_uniform_blocks_node VARYING_SLOT_VAR0 linker_error R
      ⟨some v⟩ d prog)
    uniform_block_variable]
  · intro node _ st prog hn
    cases node with
    | mk av =>
      cases av with
      | none => rfl
      | some v => exact uniform_node_of_not_filed VARYING_SLOT_VAR0 linker_error R v st prog hn
  · intro node _ c st prog hn
    cases node with
    | mk av =>
      cases av with
      | none => simp [uniform_block_variable] at hn
      | some v =>
        have : v = c := by
          unfold uniform_block_variable at hn
          simp only [Option.some_bind] at hn
          split_ifs at hn
          exact Option.some.inj hn
        rw [this]

/-- The inner loop of `validate_interstage_uniform_blocks` over variables that
it files, whatever the reporter: it falls through, or it returns after the one
report of the first variable for which the stored declaration fails
`intrastage_match`, the variables before it having fallen through. -/
theorem uniform_blocks_scan_reports {σ : Type} (VARYING_SLOT_VAR0 : Nat)
    (R : σ → ir_variable → ir_variable → Bool × σ × ir_variable)
    (vars : List ir_variable) (prog : σ)
    (hv : ∀ v ∈ vars, v.get_interface_type.isSome = true
      ∧ (v.data.mode = ir_var_uniform ∨ v.data.mode = ir_var_shader_storage)) :
    (∃ d prog', ∀ linker_error : σ → String → σ,
        uniform_blocks_scan VARYING_SLOT_VAR0 linker_error R vars prog = .next d prog')
    ∨ (∃ pre v post d prog' u, vars = pre ++ v :: post
        ∧ (∀ linker_error : σ → String → σ,
            uniform_blocks_scan VARYING_SLOT_VAR0 linker_error R pre prog = .next d prog')
        ∧ d.lookup VARYING_SLOT_VAR0 v = some (some u)
        ∧ (intrastage_match R u v prog').1 = false
        ∧ ∀ linker_error : σ → String → σ,
            uniform_blocks_scan VARYING_SLOT_VAR0 linker_error R vars prog
              = .ret (linker_error (intrastage_match R u v prog').2.1
                  (uniform_block_message v))) := by
  have h := foreach_in_list_reports
    (fun (linker_error : σ → String → σ) v d prog =>
      validate_interstage_uniform_blocks_node VARYING_SLOT_VAR0 linker_error R ⟨some v⟩ d prog)
    (fun linker_error v prog' => linker_error prog' (uniform_block_message v))
    (fun v d prog prog' => ∃ u, d.lookup VARYING_SLOT_VAR0 v = some (some u)
      ∧ (intrastage_match R u v prog).1 = false
      ∧ prog' = (intrastage_match R u v prog).2.1)
    vars
    (by
      intro v hmem d prog
      obtain ⟨hi, hm⟩ := hv v hmem
      rcases lookup_store_or_match_reports VARYING_SLOT_VAR0 R d v prog hi with
        ⟨d', prog', hn⟩ | ⟨u, hl, hf, hr⟩
      · refine Or.inl ⟨d', prog', fun le => ?_⟩
        simp only [uniform_node_of_filed VARYING_SLOT_VAR0 le R v d prog hi hm, hn]
      · refine Or.inr ⟨_, ⟨u, hl, hf, rfl⟩, fun le => ?_⟩
        simp only [uniform_node_of_filed VARYING_SLOT_VAR0 le R v d prog hi hm, hr])
    interface_block_definitions.empty prog
  rcases h with ⟨d, prog', hn⟩ | ⟨pre, v, post, d, prog', prog'', hl, hp, ⟨u, hlu, hf, hpp⟩, hr⟩
  · exact Or.inl ⟨d, prog', hn⟩
  · subst hpp
    exact Or.inr ⟨pre, v, post, d, prog', u, hl, hp, hlu, hf, hr⟩

/-- Where the scan of `validate_interstage_uniform_blocks` fails at a variable
that it files, the inner loop returns after one report. -/
theorem uniform_blocks_scan_of_fail_at {σ : Type} (VARYING_SLOT_VAR0 : Nat)
    (linker_error : σ → String → σ)
    (R : σ → ir_variable → ir_variable → Bool × σ × ir_variable)
    (vars : List ir_variable) (prog : σ)
    (pre : List ir_variable) (v : ir_variable) (post : List ir_variable) (failed : σ)
    (hv : v.get_interface_type.isSome = true
      ∧ (v.data.mode = ir_var_uniform ∨ v.data.mode = ir_var_shader_storage))
    (h : uniform_blocks_fail_at VARYING_SLOT_VAR0 R vars prog pre v post failed) :
    uniform_blocks_scan VARYING_SLOT_VAR0 linker_error R vars prog
      = .ret (linker_error failed (uniform_block_message v)) := by
  obtain ⟨hvars, d, prog', u, hp, hl, hm, hfailed⟩ := h
  have hp' := hp linker_error
  unfold uniform_blocks_scan at hp' ⊢
  rw [hvars, foreach_in_list_append, hp']
  simp only [foreach_in_list]
  rw [uniform_node_of_filed VARYING_SLOT_VAR0 linker_error R v d prog' hv.1 hv.2,
    lookup_store_or_match_of_fails VARYING_SLOT_VAR0 linker_error R d v u _ prog' hl hm, hfailed]

/-- Whatever the reconciliation of array sizes and the reporter:
`validate_interstage_uniform_blocks` either finds no variable at which its scan
fails and returns a state that does not depend on the reporter, or its scan
fails at a variable `v` and it returns the state that the failed match leaves
after one report, of the message of `v`. -/
theorem validate_interstage_uniform_blocks_cases {σ : Type} (VARYING_SLOT_VAR0 : Nat)
    (R : σ → ir_variable → ir_variable → Bool × σ × ir_variable)
    (prog : σ) (stages : List (Option gl_linked_shader)) :
    ((¬ ∃ pre v post failed, uniform_blocks_fail_at VARYING_SLOT_VAR0 R
          (uniform_block_variables stages) prog pre v post failed)
      ∧ ∃ prog', ∀ linker_error : σ → String → σ,
          validate_interstage_uniform_blocks VARYING_SLOT_VAR0 linker_error R prog stages
            = some prog')
    ∨ (∃ pre v post failed, uniform_blocks_fail_at VARYING_SLOT_VAR0 R
          (uniform_block_variables stages) prog pre v post failed
        ∧ ∀ linker_error : σ → String → σ,
            validate_interstage_uniform_blocks VARYING_SLOT_VAR0 linker_error R prog stages
              = some (linker_error failed (uniform_block_message v))) := by
  rcases uniform_blocks_scan_reports VARYING_SLOT_VAR0 R (uniform_block_variables stages) prog
      (of_mem_uniform_block_variables stages) with
    ⟨d, prog', hn⟩ | ⟨pre, v, post, d, prog', u, hl, hp, hlu, hf, hr⟩
  · left
    constructor
    · rintro ⟨pre, v, post, failed, hfail⟩
      have hv := of_mem_uniform_block_variables stages v (by rw [hfail.1]; simp)
      have h1 := uniform_blocks_scan_of_fail_at VARYING_SLOT_VAR0 (fun s _ => s) R _ prog pre v
        post failed hv hfail
      rw [hn] at h1
      exact absurd h1 (by simp)
    · refine ⟨prog', fun le => ?_⟩
      rw [validate_interstage_uniform_blocks_scan, hn]
      rfl
  · right
    refine ⟨pre, v, post, _, ⟨hl, d, prog', u, hp, hlu, hf, rfl⟩, fun le => ?_⟩
    rw [validate_interstage_uniform_blocks_scan, hr]
    rfl

/-- The loop body of `validate_intrastage_interface_blocks` on a variable that
it files: the lookup, store or match statements on the registry of its mode. -/
theorem intrastage_node_of_filed {σ : Type} (VARYING_SLOT_VAR0 : Nat) (NDEBUG : Bool)
    (linker_error : σ → String → σ)
    (R : σ → ir_variable → ir_variable → Bool × σ × ir_variable)
    (v : ir_variable) (defs : intrastage_interfaces) (prog : σ)
    (hi : v.get_interface_type.isSome = true)
    (hm : is_interface_mode v.data.mode = true) :
    ∃ d, defs.get v.data.mode = some d
      ∧ validate_intrastage_interface_blocks_node VARYING_SLOT_VAR0 NDEBUG linker_error R
          ⟨some v⟩ defs prog
        = match lookup_store_or_match VARYING_SLOT_VAR0 linker_error R d v
            (interface_block_message v) prog with
          | .next d' prog' => .next (defs.set v.data.mode d') prog'
          | .ret prog' => .ret prog'
          | .abort => .abort := by
  obtain ⟨t, ht⟩ := Option.isSome_iff_exists.1 hi
  obtain ⟨d, hd⟩ := intrastage_interfaces_get_isSome defs v.data.mode hm
  refine ⟨d, hd, ?_⟩
  unfold validate_intrastage_interface_blocks_node interface_block_message
  simp only [ht, hd, interface_type_name_eq v t ht]

/-- The function `validate_intrastage_interface_blocks`, where no assertion
fails, is its inner loop, run from the four empty registries over the
interface block variables of the compilation units, in unit order. -/
theorem validate_intrastage_interface_blocks_scan {σ : Type} (VARYING_SLOT_VAR0 : Nat)
    (NDEBUG : Bool) (linker_error : σ → String → σ)
    (R : σ → ir_variable → ir_variable → Bool × σ × ir_variable)
    (prog : σ) (shader_list : List (Option gl_shader))
    (hassert : NDEBUG = true ∨
      ∀ node ∈ shader_list_ir shader_list, ∀ var : ir_variable,
        node.as_variable = some var → var.get_interface_type.isSome = true →
        is_interface_mode var.data.mode = true) :
    validate_intrastage_interface_blocks VARYING_SLOT_VAR0 NDEBUG linker_error R prog
        shader_list
      = (intrastage_blocks_scan VARYING_SLOT_VAR0 NDEBUG linker_error R
          (intrastage_block_variables shader_list) prog).finish := by
  unfold validate_intrastage_interface_blocks intrastage_blocks_scan
    intrastage_block_variables
  unfold shader_list_ir at hassert ⊢
  rw [foreach_in_list_foreach_unit]
  rw [foreach_in_list_filterMap _
    (fun v defs prog => validate_intrastage_interface_blocks_node VARYING_SLOT_VAR0 NDEBUG
      linker_error R ⟨some v⟩ defs prog)
    intrastage_block_variable]
  · intro node hmem st prog hn
    unfold intrastage_block_variable at hn
    unfold validate_intrastage_interface_blocks_node
    cases hav : node.as_variable with
    | none => rfl
    | some var =>
      simp only [hav, Option.some_bind] at hn
      cases hit : var.get_interface_type with
      | none => simp [hit]
      | some t =>
        have hm : is_interface_mode var.data.mode = false := by
          simpa [hit] using hn
        have hg : st.get var.data.mode = none := by
          cases hmode : var.data.mode <;> simp_all [is_interface_mode, intrastage_interfaces.get]
        rcases hassert with hN | hall
        · simp [hit, hg, hN]
        · have := hall node hmem var hav (by simp [hit])
          rw [hm] at this
          exact absurd this (by simp)
  · intro node _ c st prog hn
    unfold intrastage_block_variable at hn
    cases hav : node.as_variable with
    | none => simp [hav] at hn
    | some var =>
      simp only [hav, Option.some_bind] at hn
      split_ifs at hn with hc
      simp only [Option.some.injEq] at hn
      subst hn
      have : node = ⟨some var⟩ := by
        cases node
        simp_all
      rw [this]

/-- The variables filed by `validate_intrastage_interface_blocks` have an
interface type and one of the four modes. -/
theorem of_mem_intrastage_block_variables (shader_list : List (Option gl_shader))
    (v : ir_variable) (hv : v ∈ intrastage_block_variables shader_list) :
    v.get_interface_type.isSome = true ∧ is_interface_mode v.data.mode = true := by
  unfold intrastage_block_variables at hv
  obtain ⟨node, -, hn⟩ := List.mem_filterMap.1 hv
  unfold intrastage_block_variable at hn
  cases hav : node.as_variable with
  | none => simp [hav] at hn
  | some var =>
    simp only [hav, Option.some_bind] at hn
    split_ifs at hn with hc
    simp only [Option.some.injEq] at hn
    subst hn
    simpa using hc

/-- The inner loop of `validate_intrastage_interface_blocks` over variables
that it files, whatever the reporter: it falls through, or it returns after the
one report of the first variable at which the scan fails. -/
theorem intrastage_blocks_scan_reports {σ : Type} (VARYING_SLOT_VAR0 : Nat) (NDEBUG : Bool)
    (R : σ → ir_variable → ir_variable → Bool × σ × ir_variable)
    (vars : List ir_variable) (prog : σ)
    (hv : ∀ v ∈ vars, v.get_interface_type.isSome = true
      ∧ is_interface_mode v.data.mode = true) :
    (∃ defs prog', ∀ linker_error : σ → String → σ,
        intrastage_blocks_scan VARYING_SLOT_VAR0 NDEBUG linker_error R vars prog
          = .next defs prog')
    ∨ (∃ pre v post failed,
        intrastage_blocks_fail_at VARYING_SLOT_VAR0 NDEBUG R vars prog pre v post failed
        ∧ ∀ linker_error : σ → String → σ,
            intrastage_blocks_scan VARYING_SLOT_VAR0 NDEBUG linker_error R vars prog
              = .ret (linker_error failed (interface_block_message v))) := by
  have h := foreach_in_list_reports
    (fun (linker_error : σ → String → σ) v defs prog =>
      validate_intrastage_interface_blocks_node VARYING_SLOT_VAR0 NDEBUG linker_error R
        ⟨some v⟩ defs prog)
    (fun linker_error v prog' => linker_error prog' (interface_block_message v))
    (fun v defs prog prog' => ∃ d u, defs.get v.data.mode = some d
      ∧ d.lookup VARYING_SLOT_VAR0 v = some (some u)
      ∧ (intrastage_match R u v prog).1 = false
      ∧ prog' = (intrastage_match R u v prog).2.1)
    vars
    (by
      intro v hmem defs prog
      obtain ⟨hi, hm⟩ := hv v hmem
      obtain ⟨d, hd, _⟩ := intrastage_node_of_filed VARYING_SLOT_VAR0 NDEBUG (fun s _ => s) R v
        defs prog hi hm
      have hnode : ∀ le : σ → String → σ,
          validate_intrastage_interface_blocks_node VARYING_SLOT_VAR0 NDEBUG le R
            ⟨some v⟩ defs prog
          = match lookup_store_or_match VARYING_SLOT_VAR0 le R d v
              (interface_block_message v) prog with
            | .next d' prog' => .next (defs.set v.data.mode d') prog'
            | .ret prog' => .ret prog'
            | .abort => .abort := by
        intro le
        obtain ⟨d2, hd2, h2⟩ := intrastage_node_of_filed VARYING_SLOT_VAR0 NDEBUG le R v
          defs prog hi hm
        rw [hd] at hd2
        rw [Option.some.inj hd2]
        exact h2
      rcases lookup_store_or_match_reports VARYING_SLOT_VAR0 R d v prog hi with
        ⟨d', prog', hn⟩ | ⟨u, hl, hf, hr⟩
      · refine Or.inl ⟨defs.set v.data.mode d', prog', fun le => ?_⟩
        simp only [hnode le, hn]
      · refine Or.inr ⟨_, ⟨d, u, hd, hl, hf, rfl⟩, fun le => ?_⟩
        simp only [hnode le, hr])
    ⟨interface_block_definitions.empty, interface_block_definitions.empty,
      interface_block_definitions.empty, interface_block_definitions.empty⟩ prog
  rcases h with ⟨defs, prog', hn⟩
    | ⟨pre, v, post, defs, prog', prog'', hl, hp, ⟨d, u, hd, hlu, hf, hpp⟩, hr⟩
  · exact Or.inl ⟨defs, prog', hn⟩
  · exact Or.inr ⟨pre, v, post, prog'', ⟨hl, defs, prog', d, u, hp, hd, hlu, hf, hpp⟩, hr⟩

/-- Where the scan of `validate_intrastage_interface_blocks` fails at a
variable that it files, the inner loop returns after one report. -/
theorem intrastage_blocks_scan_of_fail_at {σ : Type} (VARYING_SLOT_VAR0 : Nat)
    (NDEBUG : Bool) (linker_error : σ → String → σ)
    (R : σ → ir_variable → ir_variable → Bool × σ × ir_variable)
    (vars : List ir_variable) (prog : σ)
    (pre : List ir_variable) (v : ir_variable) (post : List ir_variable) (failed : σ)
    (hv : v.get_interface_type.isSome = true ∧ is_interface_mode v.data.mode = true)
    (h : intrastage_blocks_fail_at VARYING_SLOT_VAR0 NDEBUG R vars prog pre v post failed) :
    intrastage_blocks_scan VARYING_SLOT_VAR0 NDEBUG linker_error R vars prog
      = .ret (linker_error failed (interface_block_message v)) := by
  obtain ⟨hvars, defs, prog', d, u, hp, hd, hl, hm, hfailed⟩ := h
  have hp' := hp linker_error
  unfold intrastage_blocks_scan at hp' ⊢
  rw [hvars, foreach_in_list_append, hp']
  simp only [foreach_in_list]
  obtain ⟨d2, hd2, h2⟩ := intrastage_node_of_filed VARYING_SLOT_VAR0 NDEBUG linker_error R v
    defs prog' hv.1 hv.2
  rw [hd] at hd2
  rw [← Option.some.inj hd2] at h2
  rw [h2, lookup_store_or_match_of_fails VARYING_SLOT_VAR0 linker_error R d v u _ prog' hl hm,
    hfailed]

/-- Whatever the reconciliation of array sizes and the reporter, and where no
assertion fails: `validate_intrastage_interface_blocks` either finds no
variable at which its scan fails and returns a state that does not depend on
the reporter, or its scan fails at a variable `v` and it returns the state
that the failed match leaves after one report, of the message of `v`. -/
theorem validate_intrastage_interface_blocks_cases {σ : Type} (VARYING_SLOT_VAR0 : Nat)
    (NDEBUG : Bool) (R : σ → ir_variable → ir_variable → Bool × σ × ir_variable)
    (prog : σ) (shader_list : List (Option gl_shader))
    (hassert : NDEBUG = true ∨
      ∀ node ∈ shader_list_ir shader_list, ∀ var : ir_variable,
        node.as_variable = some var → var.get_interface_type.isSome = true →
        is_interface_mode var.data.mode = true) :
    ((¬ ∃ pre v post failed, intrastage_blocks_fail_at VARYING_SLOT_VAR0 NDEBUG R
          (intrastage_block_variables shader_list) prog pre v post failed)
      ∧ ∃ prog', ∀ linker_error : σ → String → σ,
          validate_intrastage_interface_blocks VARYING_SLOT_VAR0 NDEBUG linker_error R prog
            shader_list = some prog')
    ∨ (∃ pre v post failed, intrastage_blocks_fail_at VARYING_SLOT_VAR0 NDEBUG R
          (intrastage_block_variables shader_list) prog pre v post failed
        ∧ ∀ linker_error : σ → String → σ,
            validate_intrastage_interface_blocks VARYING_SLOT_VAR0 NDEBUG linker_error R prog
              shader_list = some (linker_error failed (interface_block_message v))) := by
  rcases intrastage_blocks_scan_reports VARYING_SLOT_VAR0 NDEBUG R
      (intrastage_block_variables shader_list) prog
      (of_mem_intrastage_block_variables shader_list) with
    ⟨defs, prog', hn⟩ | ⟨pre, v, post, failed, hfail, hr⟩
  · left
    constructor
    · rintro ⟨pre, v, post, failed, hfail⟩
      have hv := of_mem_intrastage_block_variables shader_list v (by rw [hfail.1]; simp)
      have h1 := intrastage_blocks_scan_of_fail_at VARYING_SLOT_VAR0 NDEBUG (fun s _ => s) R _
        prog pre v post failed hv hfail
      rw [hn] at h1
      exact absurd h1 (by simp)
    · refine ⟨prog', fun le => ?_⟩
      rw [validate_intrastage_interface_blocks_scan _ _ _ _ _ _ hassert, hn]
      rfl
  · right
    refine ⟨pre, v, post, failed, hfail, fun le => ?_⟩
    rw [validate_intrastage_interface_blocks_scan _ _ _ _ _ _ hassert, hr]
    rfl

/-- Two loops whose bodies agree on the elements of the list agree. -/
theorem foreach_in_list_congr {α β σ : Type} (body body' : β → α → σ → loop_step α σ) :
    ∀ (l : List β), (∀ x ∈ l, ∀ st prog, body x st prog = body' x st prog) →
      ∀ (st : α) (prog : σ), foreach_in_list body l st prog = foreach_in_list body' l st prog := by
  intro l
  induction l with
  | nil =>
    intro _ st prog
    rfl
  | cons x l ih =>
    intro h st prog
    simp only [foreach_in_list, h x (List.mem_cons_self _ _)]
    cases body' x st prog with
    | next st' prog' => exact ih (fun y hy => h y (List.mem_cons_of_mem _ hy)) st' prog'
    | ret prog' => rfl
    | abort => rfl

/-- The lookup, store or match statements run over variables with an interface
type, whatever the reporter and the messages: the loop falls through, or it
returns after the one report of the first variable for which the stored
declaration fails `intrastage_match`. -/
theorem lookup_store_or_match_scan_reports {σ : Type} (VARYING_SLOT_VAR0 : Nat)
    (R : σ → ir_variable → ir_variable → Bool × σ × ir_variable)
    (vars : List ir_variable) (d : interface_block_definitions) (prog : σ)
    (hv : ∀ v ∈ vars, v.get_interface_type.isSome = true) :
    (∃ d' prog', ∀ (linker_error : σ → String → σ) (message : ir_variable → String),
        foreach_in_list (fun v d prog => lookup_store_or_match VARYING_SLOT_VAR0 linker_error
          R d v (message v) prog) vars d prog = .next d' prog')
    ∨ (∃ pre v post d' prog' u, vars = pre ++ v :: post
        ∧ (∀ (linker_error : σ → String → σ) (message : ir_variable → String),
            foreach_in_list (fun v d prog => lookup_store_or_match VARYING_SLOT_VAR0
              linker_error R d v (message v) prog) pre d prog = .next d' prog')
        ∧ d'.lookup VARYING_SLOT_VAR0 v = some (some u)
        ∧ (intrastage_match R u v prog').1 = false
        ∧ ∀ (linker_error : σ → String → σ) (message : ir_variable → String),
            foreach_in_list (fun v d prog => lookup_store_or_match VARYING_SLOT_VAR0
              linker_error R d v (message v) prog) vars d prog
              = .ret (linker_error (intrastage_match R u v prog').2.1 (message v))) := by
  have h := foreach_in_list_reports
    (fun (r : (σ → String → σ) × (ir_variable → String)) v d prog =>
      lookup_store_or_match VARYING_SLOT_VAR0 r.1 R d v (r.2 v) prog)
    (fun r v prog' => r.1 prog' (r.2 v))
    (fun v d prog prog' => ∃ u, d.lookup VARYING_SLOT_VAR0 v = some (some u)
      ∧ (intrastage_match R u v prog).1 = false
      ∧ prog' = (intrastage_match R u v prog).2.1)
    vars
    (by
      intro v hmem d prog
      rcases lookup_store_or_match_reports VARYING_SLOT_VAR0 R d v prog (hv v hmem) with
        ⟨d', prog', hn⟩ | ⟨u, hl, hf, hr⟩
      · exact Or.inl ⟨d', prog', fun r => hn r.1 (r.2 v)⟩
      · exact Or.inr ⟨_, ⟨u, hl, hf, rfl⟩, fun r => hr r.1 (r.2 v)⟩)
    d prog
  rcases h with ⟨d', prog', hn⟩ | ⟨pre, v, post, d', prog', prog'', hl, hp, ⟨u, hlu, hf, hpp⟩, hr⟩
  · exact Or.inl ⟨d', prog', fun le msg => hn (le, msg)⟩
  · subst hpp
    exact Or.inr ⟨pre, v, post, d', prog', u, hl, fun le msg => hp (le, msg), hlu, hf,
      fun le msg => hr (le, msg)⟩

/-- The inner loop of `validate_interstage_uniform_blocks` over variables that
it files is the loop of the lookup, store or match statements. -/
theorem uniform_blocks_scan_eq {σ : Type} (VARYING_SLOT_VAR0 : Nat)
    (linker_error : σ → String → σ)
    (R : σ → ir_variable → ir_variable → Bool × σ × ir_variable)
    (vars : List ir_variable) (prog : σ)
    (hv : ∀ v ∈ vars, v.get_interface_type.isSome = true
      ∧ (v.data.mode = ir_var_uniform ∨ v.data.mode = ir_var_shader_storage)) :
    uniform_blocks_scan VARYING_SLOT_VAR0 linker_error R vars prog
      = foreach_in_list (fun v d prog => lookup_store_or_match VARYING_SLOT_VAR0 linker_error
          R d v (uniform_block_message v) prog) vars interface_block_definitions.empty prog := by
  unfold uniform_blocks_scan
  apply foreach_in_list_congr
  intro v hmem d p
  exact uniform_node_of_filed VARYING_SLOT_VAR0 linker_error R v d p (hv v hmem).1 (hv v hmem).2

/-- The inner loop of `validate_intrastage_interface_blocks` over variables of
mode uniform is the loop of the lookup, store or match statements on the
registry `uniform_interfaces`; the other three registries are left alone. -/
theorem intrastage_scan_of_uniform {σ : Type} (VARYING_SLOT_VAR0 : Nat) (NDEBUG : Bool)
    (linker_error : σ → String → σ)
    (R : σ → ir_variable → ir_variable → Bool × σ × ir_variable)
    (vars : List ir_variable)
    (hv : ∀ v ∈ vars, v.get_interface_type.isSome = true ∧ v.data.mode = ir_var_uniform) :
    ∀ (defs : intrastage_interfaces) (prog : σ),
      foreach_in_list
        (fun v defs prog => validate_intrastage_interface_blocks_node VARYING_SLOT_VAR0 NDEBUG
          linker_error R ⟨some v⟩ defs prog) vars defs prog
      = match foreach_in_list (fun v d prog => lookup_store_or_match VARYING_SLOT_VAR0
            linker_error R d v (interface_block_message v) prog)
            vars defs.uniform_interfaces prog with
        | .next d' prog' => .next { defs with uniform_interfaces := d' } prog'
        | .ret prog' => .ret prog'
        | .abort => .abort := by
  induction vars with
  | nil =>
    intro defs prog
    rfl
  | cons v vars ih =>
    intro defs prog
    obtain ⟨hi, hm⟩ := hv v (List.mem_cons_self _ _)
    obtain ⟨d, hd, hnode⟩ := intrastage_node_of_filed VARYING_SLOT_VAR0 NDEBUG linker_error R v
      defs prog hi (by rw [hm]; rfl)
    have hd' : d = defs.uniform_interfaces := by
      rw [hm] at hd
      exact (Option.some.inj hd).symm
    subst hd'
    simp only [foreach_in_list, hnode]
    cases hs : lookup_store_or_match VARYING_SLOT_VAR0 linker_error R defs.uniform_interfaces v
        (interface_block_message v) prog with
    | next d' prog' =>
      simp only
      rw [ih (fun w hw => hv w (List.mem_cons_of_mem _ hw))]
      simp only [hm, intrastage_interfaces.set]
    | ret prog' => rfl
    | abort => rfl

/-- C17: interstage uniform matching is the same as intrastage uniform
matching.  For a list of stages all of whose interface block variables have
mode uniform, whatever the reconciliation of array sizes and the reporter:
either the scan of `validate_interstage_uniform_blocks` on the stages and the
scan of `validate_intrastage_interface_blocks` on the same list, read as the
compilation units of one stage, both fail nowhere and the two functions return
the same state, without a report; or both scans fail at the same variable and
each function returns the state that the failed match leaves after one report,
and both name the interface type of that variable. -/
theorem uniform_matching_same_as_intrastage {σ : Type} (VARYING_SLOT_VAR0 : Nat)
    (NDEBUG : Bool)
    (validate_intrastage_arrays : σ → ir_variable → ir_variable → Bool × σ × ir_variable)
    (prog : σ) (stages : List (Option gl_linked_shader))
    (hall : ∀ node ∈ stages_ir stages, ∀ var : ir_variable, node.as_variable = some var →
      var.get_interface_type.isSome = true → var.data.mode = ir_var_uniform) :
    ((¬ ∃ pre v post failed, uniform_blocks_fail_at VARYING_SLOT_VAR0
          validate_intrastage_arrays (uniform_block_variables stages) prog pre v post failed)
      ∧ (¬ ∃ pre v post failed, intrastage_blocks_fail_at VARYING_SLOT_VAR0 NDEBUG
          validate_intrastage_arrays
          (intrastage_block_variables (stages.map (Option.map gl_linked_shader.as_unit)))
          prog pre v post failed)
      ∧ ∃ prog', ∀ linker_error : σ → String → σ,
          validate_interstage_uniform_blocks VARYING_SLOT_VAR0 linker_error
            validate_intrastage_arrays prog stages = some prog'
          ∧ validate_intrastage_interface_blocks VARYING_SLOT_VAR0 NDEBUG linker_error
            validate_intrastage_arrays prog
            (stages.map (Option.map gl_linked_shader.as_unit)) = some prog')
    ∨ (∃ pre v post failed,
        uniform_blocks_fail_at VARYING_SLOT_VAR0 validate_intrastage_arrays
          (uniform_block_variables stages) prog pre v post failed
        ∧ intrastage_blocks_fail_at VARYING_SLOT_VAR0 NDEBUG validate_intrastage_arrays
          (intrastage_block_variables (stages.map (Option.map gl_linked_shader.as_unit)))
          prog pre v post failed
        ∧ ∀ linker_error : σ → String → σ,
          validate_interstage_uniform_blocks VARYING_SLOT_VAR0 linker_error
              validate_intrastage_arrays prog stages
            = some (linker_error failed
                ("definitions of uniform block `" ++ v.interface_type_name
                  ++ "' do not match\n"))
          ∧ validate_intrastage_interface_blocks VARYING_SLOT_VAR0 NDEBUG linker_error
              validate_intrastage_arrays prog
              (stages.map (Option.map gl_linked_shader.as_unit))
            = some (linker_error failed
                ("definitions of interface block `" ++ v.interface_type_name
                  ++ "' do not match\n"))) := by
  have hassert : NDEBUG = true ∨
      ∀ node ∈ shader_list_ir (stages.map (Option.map gl_linked_shader.as_unit)),
        ∀ var : ir_variable, node.as_variable = some var →
        var.get_interface_type.isSome = true → is_interface_mode var.data.mode = true := by
    right
    rw [shader_list_ir_map_as_unit]
    intro node hn var hv hs
    rw [hall node hn var hv hs]
    rfl
  have hvars : intrastage_block_variables (stages.map (Option.map gl_linked_shader.as_unit))
      = uniform_block_variables stages := by
    unfold intrastage_block_variables uniform_block_variables
    rw [shader_list_ir_map_as_unit]
    apply List.filterMap_congr
    intro node hn
    unfold intrastage_block_variable uniform_block_variable
    cases hav : node.as_variable with
    | none => rfl
    | some var =>
      simp only [Option.some_bind]
      cases hit : var.get_interface_type.isSome with
      | false => simp
      | true =>
        have := hall node hn var hav hit
        simp [this, is_interface_mode]
  have hmode : ∀ v ∈ uniform_block_variables stages,
      v.get_interface_type.isSome = true ∧ v.data.mode = ir_var_uniform := by
    intro v hv
    refine ⟨(of_mem_uniform_block_variables stages v hv).1, ?_⟩
    unfold uniform_block_variables at hv
    obtain ⟨node, hn, hf⟩ := List.mem_filterMap.1 hv
    unfold uniform_block_variable at hf
    cases hav : node.as_variable with
    | none => simp [hav] at hf
    | some var =>
      simp only [hav, Option.some_bind] at hf
      split_ifs at hf with hc
      simp only [Option.some.injEq] at hf
      subst hf
      simp only [Bool.and_eq_true] at hc
      exact hall node hn var hav hc.1
  have hfiled : ∀ v ∈ uniform_block_variables stages, v.get_interface_type.isSome = true
      ∧ (v.data.mode = ir_var_uniform ∨ v.data.mode = ir_var_shader_storage) :=
    fun v hv => ⟨(hmode v hv).1, Or.inl (hmode v hv).2⟩
  have hfiled' : ∀ v ∈ uniform_block_variables stages, v.get_interface_type.isSome = true
      ∧ is_interface_mode v.data.mode = true :=
    fun v hv => ⟨(hmode v hv).1, by rw [(hmode v hv).2]; rfl⟩
  rw [hvars]
  have hu : ∀ le : σ → String → σ,
      validate_interstage_uniform_blocks VARYING_SLOT_VAR0 le validate_intrastage_arrays prog
        stages
      = (foreach_in_list (fun v d prog => lookup_store_or_match VARYING_SLOT_VAR0 le
          validate_intrastage_arrays d v (uniform_block_message v) prog)
          (uniform_block_variables stages) interface_block_definitions.empty prog).finish := by
    intro le
    rw [validate_interstage_uniform_blocks_scan, uniform_blocks_scan_eq _ _ _ _ _ hfiled]
  have hi : ∀ le : σ → String → σ,
      validate_intrastage_interface_blocks VARYING_SLOT_VAR0 NDEBUG le
        validate_intrastage_arrays prog (stages.map (Option.map gl_linked_shader.as_unit))
      = (foreach_in_list (fun v d prog => lookup_store_or_match VARYING_SLOT_VAR0 le
          validate_intrastage_arrays d v (interface_block_message v) prog)
          (uniform_block_variables stages) interface_block_definitions.empty prog).finish := by
    intro le
    rw [validate_intrastage_interface_blocks_scan _ _ _ _ _ _ hassert, hvars]
    unfold intrastage_blocks_scan
    rw [intrastage_scan_of_uniform _ _ _ _ _ hmode]
    simp only
    cases foreach_in_list (fun v d prog => lookup_store_or_match VARYING_SLOT_VAR0 le
      validate_intrastage_arrays d v (interface_block_message v) prog)
      (uniform_block_variables stages) interface_block_definitions.empty prog <;> rfl
  rcases lookup_store_or_match_scan_reports VARYING_SLOT_VAR0 validate_intrastage_arrays
      (uniform_block_variables stages) interface_block_definitions.empty prog
      (fun v hv => (hmode v hv).1) with
    ⟨d', prog', hn⟩ | ⟨pre, v, post, d', prog', u, hl, hp, hlu, hf, hr⟩
  · left
    have hvu : ∀ le : σ → String → σ,
        validate_interstage_uniform_blocks VARYING_SLOT_VAR0 le validate_intrastage_arrays prog
          stages = some prog' := by
      intro le
      rw [hu, hn]
      rfl
    have hvi : ∀ le : σ → String → σ,
        validate_intrastage_interface_blocks VARYING_SLOT_VAR0 NDEBUG le
          validate_intrastage_arrays prog (stages.map (Option.map gl_linked_shader.as_unit))
          = some prog' := by
      intro le
      rw [hi, hn]
      rfl
    refine ⟨?_, ?_, prog', fun le => ⟨hvu le, hvi le⟩⟩
    · rintro ⟨p, w, q, failed, hfail⟩
      have hw := hfiled w (by rw [hfail.1]; simp)
      have h1 := uniform_blocks_scan_of_fail_at VARYING_SLOT_VAR0 (fun s _ => s)
        validate_intrastage_arrays _ prog p w q failed hw hfail
      rw [uniform_blocks_scan_eq _ _ _ _ _ hfiled, hn] at h1
      exact absurd h1 (by simp)
    · rintro ⟨p, w, q, failed, hfail⟩
      have hw := hfiled' w (by rw [hfail.1]; simp)
      have h1 := intrastage_blocks_scan_of_fail_at VARYING_SLOT_VAR0 NDEBUG (fun s _ => s)
        validate_intrastage_arrays _ prog p w q failed hw hfail
      unfold intrastage_blocks_scan at h1
      rw [intrastage_scan_of_uniform _ _ _ _ _ hmode, hn] at h1
      exact absurd h1 (by simp)
  · right
    have hpre : ∀ w ∈ pre, w ∈ uniform_block_variables stages :=
      fun w hw => by rw [hl]; simp [hw]
    have hv := hmode v (by rw [hl]; simp)
    refine ⟨pre, v, post, _, ⟨hl, d', prog', u, ?_, hlu, hf, rfl⟩,
      ⟨hl, { uniform_interfaces := d', in_interfaces := interface_block_definitions.empty,
              out_interfaces := interface_block_definitions.empty,
              buffer_interfaces := interface_block_definitions.empty },
        prog', d', u, ?_, ?_, hlu, hf, rfl⟩, fun le => ⟨?_, ?_⟩⟩
    · intro le
      rw [uniform_blocks_scan_eq _ _ _ _ _ (fun w hw => hfiled w (hpre w hw)), hp]
    · intro le
      unfold intrastage_blocks_scan
      rw [intrastage_scan_of_uniform _ _ _ _ _ (fun w hw => hmode w (hpre w hw))]
      simp only [hp]
    · rw [hv.2]
      rfl
    · rw [hu, hr]
      rfl
    · rw [hi, hr]
      rfl

/-- C20: every validator failure calls the error reporter exactly once, with
the message "definitions of <label> `<name>' do not match" and a newline,
where <name> is the name of the interface type of the offending variable and
<label> is "interface block" for `validate_intrastage_interface_blocks` and
`validate_interstage_inout_blocks` and "uniform block" for
`validate_interstage_uniform_blocks`; a run that finds no mismatch calls it
zero times.  Whatever the reconciliation of array sizes and the reporter, the
result of a validator is either a state that does not depend on the reporter,
when no variable fails, or the reporter applied once, to the state that the
failed match leaves and to that message.  (Where `assert` is live, the
variables with an interface type are assumed to have one of the four modes;
`interstage_match` is assumed to be defined on every hit.) -/
theorem validators_report_once {σ : Type} (VARYING_SLOT_VAR0 : Nat) (NDEBUG : Bool)
    (validate_intrastage_arrays : σ → ir_variable → ir_variable → Bool × σ × ir_variable)
    (prog : gl_shader_program) (state : σ)
    (shader_list : List (Option gl_shader)) (producer consumer : gl_linked_shader)
    (stages : List (Option gl_linked_shader))
    (hassert : NDEBUG = true ∨
      ∀ node ∈ shader_list_ir shader_list, ∀ var : ir_variable,
        node.as_variable = some var → var.get_interface_type.isSome = true →
        is_interface_mode var.data.mode = true)
    (hdef : ∀ v ∈ producer_outputs producer, ∀ e : ir_variable,
      (consumer_inputs consumer).find? (fun u => same_key VARYING_SLOT_VAR0 u v) = some e →
      interstage_match prog v e
        (validate_interstage_inout_blocks_extra_array_level producer consumer) ≠ none) :
    (((¬ ∃ pre v post failed, intrastage_blocks_fail_at VARYING_SLOT_VAR0 NDEBUG
            validate_intrastage_arrays (intrastage_block_variables shader_list) state
            pre v post failed)
        ∧ ∃ state', ∀ linker_error : σ → String → σ,
            validate_intrastage_interface_blocks VARYING_SLOT_VAR0 NDEBUG linker_error
              validate_intrastage_arrays state shader_list = some state')
      ∨ (∃ pre v post failed, intrastage_blocks_fail_at VARYING_SLOT_VAR0 NDEBUG
            validate_intrastage_arrays (intrastage_block_variables shader_list) state
            pre v post failed
          ∧ ∀ linker_error : σ → String → σ,
              validate_intrastage_interface_blocks VARYING_SLOT_VAR0 NDEBUG linker_error
                validate_intrastage_arrays state shader_list
              = some (linker_error failed
                  ("definitions of interface block `" ++ v.interface_type_name
                    ++ "' do not match\n"))))
    ∧ ((first_inout_mismatch
            (inout_verdict VARYING_SLOT_VAR0 prog
              (validate_interstage_inout_blocks_extra_array_level producer consumer)
              (consumer_inputs consumer)) (producer_outputs producer) = some none
          ∧ ∀ linker_error : σ → String → σ,
              validate_interstage_inout_blocks VARYING_SLOT_VAR0 linker_error prog state
                producer consumer = some state)
      ∨ (∃ v : ir_variable,
          first_inout_mismatch
            (inout_verdict VARYING_SLOT_VAR0 prog
              (validate_interstage_inout_blocks_extra_array_level producer consumer)
              (consumer_inputs consumer)) (producer_outputs producer) = some (some v)
          ∧ ∀ linker_error : σ → String → σ,
              validate_interstage_inout_blocks VARYING_SLOT_VAR0 linker_error prog state
                producer consumer
              = some (linker_error state
                  ("definitions of interface block `" ++ v.interface_type_name
                    ++ "' do not match\n"))))
    ∧ (((¬ ∃ pre v post failed, uniform_blocks_fail_at VARYING_SLOT_VAR0
            validate_intrastage_arrays (uniform_block_variables stages) state
            pre v post failed)
        ∧ ∃ state', ∀ linker_error : σ → String → σ,
            validate_interstage_uniform_blocks VARYING_SLOT_VAR0 linker_error
              validate_intrastage_arrays state stages = some state')
      ∨ (∃ pre v post failed, uniform_blocks_fail_at VARYING_SLOT_VAR0
            validate_intrastage_arrays (uniform_block_variables stages) state
            pre v post failed
          ∧ ∀ linker_error : σ → String → σ,
              validate_interstage_uniform_blocks VARYING_SLOT_VAR0 linker_error
                validate_intrastage_arrays state stages
              = some (linker_error failed
                  ("definitions of uniform block `" ++ v.interface_type_name
                    ++ "' do not match\n")))) := by
  refine ⟨validate_intrastage_interface_blocks_cases VARYING_SLOT_VAR0 NDEBUG _ state
      shader_list hassert, ?_,
    validate_interstage_uniform_blocks_cases VARYING_SLOT_VAR0 _ state stages⟩
  cases hf : first_inout_mismatch
      (inout_verdict VARYING_SLOT_VAR0 prog
        (validate_interstage_inout_blocks_extra_array_level producer consumer)
        (consumer_inputs consumer)) (producer_outputs producer) with
  | none =>
    exfalso
    refine first_inout_mismatch_ne_none _ _ ?_ hf
    intro v hv
    unfold inout_verdict
    cases hfind : (consumer_inputs consumer).find?
        (fun u => same_key VARYING_SLOT_VAR0 u v) with
    | none => simp
    | some e => exact hdef v hv e hfind
  | some r =>
    cases r with
    | none =>
      refine Or.inl ⟨rfl, fun le => ?_⟩
      rw [validate_interstage_inout_blocks_eq, hf]
      rfl
    | some v =>
      refine Or.inr ⟨v, rfl, fun le => ?_⟩
      rw [validate_interstage_inout_blocks_eq, hf]
      rfl

/-! ## Witnesses of the reports of the validators -/

/-- Witness of C17: three stages declare the uniform block instance array `blk`
unsized, of 3 and of 4 elements; the stored declaration takes the size 3 at the
second stage, and both validators fail at the same variable of the third stage,
in the same state, each with its own label and the block name of that
variable. -/
theorem uniform_matching_same_as_intrastage_witness :
    ∃ pre v post failed,
      uniform_blocks_fail_at 32 example_validate_intrastage_arrays
        (uniform_block_variables example_resized_stages) ([] : List String) pre v post failed
      ∧ intrastage_blocks_fail_at 32 false example_validate_intrastage_arrays
        (intrastage_block_variables
          (example_resized_stages.map (Option.map gl_linked_shader.as_unit)))
        ([] : List String) pre v post failed
      ∧ ∀ linker_error : List String → String → List String,
        validate_interstage_uniform_blocks 32 linker_error
            example_validate_intrastage_arrays [] example_resized_stages
          = some (linker_error failed
              ("definitions of uniform block `" ++ v.interface_type_name
                ++ "' do not match\n"))
        ∧ validate_intrastage_interface_blocks 32 false linker_error
            example_validate_intrastage_arrays []
            (example_resized_stages.map (Option.map gl_linked_shader.as_unit))
          = some (linker_error failed
              ("definitions of interface block `" ++ v.interface_type_name
                ++ "' do not match\n")) :=
  (uniform_matching_same_as_intrastage 32 false example_validate_intrastage_arrays
    ([] : List String) example_resized_stages
    (by
      intro node hn var hv _
      have hn' : node ∈
          [(⟨some (example_instance_array 20 0)⟩ : ir_instruction),
           ⟨some (example_instance_array 21 3)⟩, ⟨some (example_instance_array 22 4)⟩] := hn
      simp only [List.mem_cons, List.mem_singleton, List.not_mem_nil, or_false] at hn'
      rcases hn' with rfl | rfl | rfl <;> cases hv <;> rfl)).resolve_left
    (by
      rintro ⟨-, -, prog', h⟩
      have h1 := (h report_log).1
      have h2 := (h (fun s _ => s)).1
      have e1 : validate_interstage_uniform_blocks 32 report_log
          example_validate_intrastage_arrays [] example_resized_stages
          = some ["definitions of uniform block `U' do not match\n"] := by decide
      have e2 : validate_interstage_uniform_blocks 32 (fun s _ => s)
          example_validate_intrastage_arrays ([] : List String) example_resized_stages
          = some [] := by decide
      rw [e1] at h1
      rw [e2] at h2
      rw [← h2] at h1
      exact absurd h1 (by decide))

/-- Witness of C20: three failing runs. The array `blk` of the block `U` is
declared unsized, of 3 and of 4 elements (compilation units for the intrastage
validator, stages for the uniform validator), and the output block `V` differs
from the input block `V` in the interpolation qualifier of its member; each
validator makes its one report with the block name of the failing variable. -/
theorem validators_report_once_witness :
    (∃ pre v post failed, intrastage_blocks_fail_at 32 false
        example_validate_intrastage_arrays
        (intrastage_block_variables
          (example_resized_stages.map (Option.map gl_linked_shader.as_unit)))
        ([] : List String) pre v post failed
      ∧ ∀ linker_error : List String → String → List String,
          validate_intrastage_interface_blocks 32 false linker_error
            example_validate_intrastage_arrays []
            (example_resized_stages.map (Option.map gl_linked_shader.as_unit))
          = some (linker_error failed
              ("definitions of interface block `" ++ v.interface_type_name
                ++ "' do not match\n")))
    ∧ (∃ v : ir_variable,
        first_inout_mismatch
          (inout_verdict 32 ⟨false, 330⟩
            (validate_interstage_inout_blocks_extra_array_level
              ⟨MESA_SHADER_VERTEX,
                [⟨some (example_instance "blk" (example_block 1 "V" 1) ir_var_shader_out)⟩]⟩
              ⟨MESA_SHADER_FRAGMENT,
                [⟨some (example_instance "blk" (example_block 2 "V" 2) ir_var_shader_in)⟩]⟩)
            (consumer_inputs ⟨MESA_SHADER_FRAGMENT,
              [⟨some (example_instance "blk" (example_block 2 "V" 2) ir_var_shader_in)⟩]⟩))
          (producer_outputs ⟨MESA_SHADER_VERTEX,
            [⟨some (example_instance "blk" (example_block 1 "V" 1) ir_var_shader_out)⟩]⟩)
          = some (some v)
        ∧ ∀ linker_error : List String → String → List String,
            validate_interstage_inout_blocks 32 linker_error ⟨false, 330⟩ []
              ⟨MESA_SHADER_VERTEX,
                [⟨some (example_instance "blk" (example_block 1 "V" 1) ir_var_shader_out)⟩]⟩
              ⟨MESA_SHADER_FRAGMENT,
                [⟨some (example_instance "blk" (example_block 2 "V" 2) ir_var_shader_in)⟩]⟩
            = some (linker_error []
                ("definitions of interface block `" ++ v.interface_type_name
                  ++ "' do not match\n")))
    ∧ (∃ pre v post failed, uniform_blocks_fail_at 32 example_validate_intrastage_arrays
        (uniform_block_variables example_resized_stages) ([] : List String) pre v post failed
      ∧ ∀ linker_error : List String → String → List String,
          validate_interstage_uniform_blocks 32 linker_error
            example_validate_intrastage_arrays [] example_resized_stages
          = some (linker_error failed
              ("definitions of uniform block `" ++ v.interface_type_name
                ++ "' do not match\n"))) :=
  have h := validators_report_once 32 false example_validate_intrastage_arrays ⟨false, 330⟩
    ([] : List String) (example_resized_stages.map (Option.map gl_linked_shader.as_unit))
    ⟨MESA_SHADER_VERTEX,
      [⟨some (example_instance "blk" (example_block 1 "V" 1) ir_var_shader_out)⟩]⟩
    ⟨MESA_SHADER_FRAGMENT,
      [⟨some (example_instance "blk" (example_block 2 "V" 2) ir_var_shader_in)⟩]⟩
    example_resized_stages
    (Or.inr (by
      intro node hn var hv _
      have hn' : node ∈
          [(⟨some (example_instance_array 20 0)⟩ : ir_instruction),
           ⟨some (example_instance_array 21 3)⟩, ⟨some (example_instance_array 22 4)⟩] := hn
      simp only [List.mem_cons, List.mem_singleton, List.not_mem_nil, or_false] at hn'
      rcases hn' with rfl | rfl | rfl <;> cases hv <;> rfl))
    (by
      intro v hv e he
      have hv' : v = example_instance "blk" (example_block 1 "V" 1) ir_var_shader_out :=
        List.mem_singleton.1 hv
      subst hv'
      have he' : some (example_instance "blk" (example_block 2 "V" 2) ir_var_shader_in)
          = some e := he
      cases he'
      decide)
  ⟨h.1.resolve_left (by
      rintro ⟨-, state', hs⟩
      have h1 := hs report_log
      have h2 := hs (fun s _ => s)
      have e1 : validate_intrastage_interface_blocks 32 false report_log
          example_validate_intrastage_arrays []
          (example_resized_stages.map (Option.map gl_linked_shader.as_unit))
          = some ["definitions of interface block `U' do not match\n"] := by decide
      have e2 : validate_intrastage_interface_blocks 32 false (fun s _ => s)
          example_validate_intrastage_arrays ([] : List String)
          (example_resized_stages.map (Option.map gl_linked_shader.as_unit))
          = some [] := by decide
      rw [e1] at h1
      rw [e2] at h2
      rw [← h2] at h1
      exact absurd h1 (by decide)),
    h.2.1.resolve_left (by
      rintro ⟨hnone, -⟩
      exact absurd hnone (by decide)),
    h.2.2.resolve_left (by
      rintro ⟨-, state', hs⟩
      have h1 := hs report_log
      have h2 := hs (fun s _ => s)
      have e1 : validate_interstage_uniform_blocks 32 report_log
          example_validate_intrastage_arrays [] example_resized_stages
          = some ["definitions of uniform block `U' do not match\n"] := by decide
      have e2 : validate_interstage_uniform_blocks 32 (fun s _ => s)
          example_validate_intrastage_arrays ([] : List String) example_resized_stages
          = some [] := by decide
      rw [e1] at h1
      rw [e2] at h2
      rw [← h2] at h1
      exact absurd h1 (by decide))⟩
